import Mathlib

/-!
Shallow embedding of the grammar model of the JavaScript-Syntax-diagrams
repository: the two railroad-diagram rule registries (ES2025 edition of
es2025Grammar.ts and the ES5.1 edition of js-syntax-diagrams.ts), the section
index SECTION_ORDER / SECTION_RULES, the textual table EBNF_DEFINITIONS, the
accessor functions getRuleFactory / createRuleDiagram / getDiagramRuleNames /
getEbnfDefinition / getEbnfRuleNames, and the calling-convention adapter
callOrNew. Rule bodies are transcribed verbatim from the source; the thunks
registered by rules.set are pure constructions, so each thunk is embedded as
the Construct value it returns.
-/

namespace SyntaxDiagrams

/-- A node of a railroad-diagram tree, one constructor per wrapped primitive
of the diagram library as used in the repository: Diagram, Sequence, Choice
(with its default-index first argument), Optional, OneOrMore and ZeroOrMore
(with an optional separator second argument), Terminal, NonTerminal and
Comment. -/
inductive Construct : Type where
  | diagram : List Construct → Construct
  | sequence : List Construct → Construct
  | choice : Nat → List Construct → Construct
  | optional : Construct → Construct
  | oneOrMore : Construct → Option Construct → Construct
  | zeroOrMore : Construct → Option Construct → Construct
  | terminal : String → Construct
  | nonTerminal : String → Construct
  | comment : String → Construct

/-- The helper `T` of both grammar files: `const T = (s) => Terminal(s)`. -/
def T (s : String) : Construct := Construct.terminal s

/-- The helper `NT` of both grammar files: `const NT = (s) => NonTerminal(s)`.
It builds a by-name reference node and performs no registry lookup. -/
def NT (s : String) : Construct := Construct.nonTerminal s

/-- The binary-expression helper `chain(base, ops)` of the ES5.1 file:
`Sequence(NT(base), ZeroOrMore(Sequence(Choice(0, ...ops.map(T)), NT(base))))`. -/
def chain (base : String) (ops : List String) : Construct :=
  Construct.sequence [NT base,
    Construct.zeroOrMore
      (Construct.sequence [Construct.choice 0 (ops.map T), NT base]) Option.none]

-- ES2025 grammar rule bodies (from es2025Grammar.ts, rules.set calls in order)

def es2025_SourceCharacter : Construct :=
  Construct.diagram [(Construct.comment "any Unicode code point")]

def es2025_InputElementDiv : Construct :=
  Construct.diagram [
    (Construct.choice 0 [
      (NT "WhiteSpace"),
      (NT "LineTerminator"),
      (NT "Comment"),
      (NT "CommonToken"),
      (NT "DivPunctuator"),
      (NT "RightBracePunctuator")])]

def es2025_InputElementRegExp : Construct :=
  Construct.diagram [
    (Construct.choice 0 [
      (NT "WhiteSpace"),
      (NT "LineTerminator"),
      (NT "Comment"),
      (NT "CommonToken"),
      (NT "RightBracePunctuator"),
      (NT "RegularExpressionLiteral")])]

def es2025_InputElementRegExpOrTemplateTail : Construct :=
  Construct.diagram [
    (Construct.choice 0 [
      (NT "WhiteSpace"),
      (NT "LineTerminator"),
      (NT "Comment"),
      (NT "CommonToken"),
      (NT "RegularExpressionLiteral"),
      (NT "TemplateSubstitutionTail")])]

def es2025_InputElementTemplateTail : Construct :=
  Construct.diagram [
    (Construct.choice 0 [
      (NT "WhiteSpace"),
      (NT "LineTerminator"),
      (NT "Comment"),
      (NT "CommonToken"),
      (NT "DivPunctuator"),
      (NT "TemplateSubstitutionTail")])]

def es2025_WhiteSpace : Construct :=
  Construct.diagram [
    (Construct.choice 0 [(T "<TAB>"), (T "<VT>"), (T "<FF>"), (T "<ZWNBSP>"), (T "<USP>")])]

def es2025_LineTerminator : Construct :=
  Construct.diagram [(Construct.choice 0 [(T "<LF>"), (T "<CR>"), (T "<LS>"), (T "<PS>")])]

def es2025_LineTerminatorSequence : Construct :=
  Construct.diagram [
    (Construct.choice 0 [
      (T "<LF>"),
      (Construct.sequence [(T "<CR>"), (Construct.comment "[lookahead ≠ <LF>]")]),
      (T "<LS>"),
      (T "<PS>"),
      (Construct.sequence [(T "<CR>"), (T "<LF>")])])]

def es2025_Comment : Construct :=
  Construct.diagram [(Construct.choice 0 [(NT "MultiLineComment"), (NT "SingleLineComment")])]

def es2025_MultiLineComment : Construct :=
  Construct.diagram [
    (Construct.sequence [(T "/*"), (Construct.optional (NT "MultiLineCommentChars")), (T "*/")])]

def es2025_SingleLineComment : Construct :=
  Construct.diagram [(Construct.sequence [(T "//"), (Construct.optional (NT "SingleLineCommentChars"))])]

def es2025_HashbangComment : Construct :=
  Construct.diagram [(Construct.sequence [(T "#!"), (Construct.optional (NT "SingleLineCommentChars"))])]

def es2025_CommonToken : Construct :=
  Construct.diagram [
    (Construct.choice 0 [
      (NT "IdentifierName"),
      (NT "PrivateIdentifier"),
      (NT "Punctuator"),
      (NT "NumericLiteral"),
      (NT "StringLiteral"),
      (NT "Template")])]

def es2025_PrivateIdentifier : Construct :=
  Construct.diagram [(Construct.sequence [(T "#"), (NT "IdentifierName")])]

def es2025_IdentifierName : Construct :=
  Construct.diagram [
    (Construct.sequence [(NT "IdentifierStart"), (Construct.zeroOrMore (NT "IdentifierPart") Option.none)])]

def es2025_IdentifierStart : Construct :=
  Construct.diagram [
    (Construct.choice 0 [
      (NT "IdentifierStartChar"),
      (Construct.sequence [(T "\\"), (NT "UnicodeEscapeSequence")])])]

def es2025_IdentifierPart : Construct :=
  Construct.diagram [
    (Construct.choice 0 [
      (NT "IdentifierPartChar"),
      (Construct.sequence [(T "\\"), (NT "UnicodeEscapeSequence")])])]

def es2025_IdentifierStartChar : Construct :=
  Construct.diagram [(Construct.choice 0 [(NT "UnicodeIDStart"), (T "$"), (T "_")])]

def es2025_IdentifierPartChar : Construct :=
  Construct.diagram [(Construct.choice 0 [(NT "UnicodeIDContinue"), (T "$")])]

def es2025_UnicodeIDStart : Construct :=
  Construct.diagram [(Construct.comment "any Unicode code point with property \"ID_Start\"")]

def es2025_UnicodeIDContinue : Construct :=
  Construct.diagram [(Construct.comment "any Unicode code point with property \"ID_Continue\"")]

def es2025_ReservedWord : Construct :=
  Construct.diagram [
    (Construct.choice 0 [
      (T "await"),
      (T "break"),
      (T "case"),
      (T "catch"),
      (T "class"),
      (T "const"),
      (T "continue"),
      (T "debugger"),
      (T "default"),
      (T "delete"),
      (T "do"),
      (T "else"),
      (T "enum"),
      (T "export"),
      (T "extends"),
      (T "false"),
      (T "finally"),
      (T "for"),
      (T "function"),
      (T "if"),
      (T "import"),
      (T "in"),
      (T "instanceof"),
      (T "new"),
      (T "null"),
      (T "return"),
      (T "super"),
      (T "switch"),
      (T "this"),
      (T "throw"),
      (T "true"),
      (T "try"),
      (T "typeof"),
      (T "var"),
      (T "void"),
      (T "while"),
      (T "with"),
      (T "yield")])]

def es2025_Punctuator : Construct :=
  Construct.diagram [(Construct.choice 0 [(NT "OptionalChainingPunctuator"), (NT "OtherPunctuator")])]

def es2025_OptionalChainingPunctuator : Construct :=
  Construct.diagram [(Construct.sequence [(T "?."), (Construct.comment "[lookahead ∉ DecimalDigit]")])]

def es2025_DivPunctuator : Construct :=
  Construct.diagram [(Construct.choice 0 [(T "/"), (T "/=")])]

def es2025_RightBracePunctuator : Construct :=
  Construct.diagram [(T "\x7d")]

def es2025_NullLiteral : Construct :=
  Construct.diagram [(T "null")]

def es2025_BooleanLiteral : Construct :=
  Construct.diagram [(Construct.choice 0 [(T "true"), (T "false")])]

def es2025_NumericLiteral : Construct :=
  Construct.diagram [
    (Construct.choice 0 [
      (NT "DecimalLiteral"),
      (NT "DecimalBigIntegerLiteral"),
      (NT "NonDecimalIntegerLiteral"),
      (Construct.sequence [(NT "NonDecimalIntegerLiteral"), (NT "BigIntLiteralSuffix")]),
      (NT "LegacyOctalIntegerLiteral")])]

def es2025_DecimalLiteral : Construct :=
  Construct.diagram [
    (Construct.choice 0 [
      (Construct.sequence [
        (NT "DecimalIntegerLiteral"),
        (T "."),
        (Construct.optional (NT "DecimalDigits")),
        (Construct.optional (NT "ExponentPart"))]),
      (Construct.sequence [(T "."), (NT "DecimalDigits"), (Construct.optional (NT "ExponentPart"))]),
      (Construct.sequence [(NT "DecimalIntegerLiteral"), (Construct.optional (NT "ExponentPart"))])])]

def es2025_DecimalIntegerLiteral : Construct :=
  Construct.diagram [
    (Construct.choice 0 [
      (T "0"),
      (NT "NonZeroDigit"),
      (Construct.sequence [
        (NT "NonZeroDigit"),
        (Construct.optional (NT "NumericLiteralSeparator")),
        (NT "DecimalDigits")]),
      (NT "NonOctalDecimalIntegerLiteral")])]

def es2025_DecimalDigits : Construct :=
  Construct.diagram [
    (Construct.oneOrMore (NT "DecimalDigit") (Option.some (Construct.optional (NT "NumericLiteralSeparator"))))]

def es2025_DecimalDigit : Construct :=
  Construct.diagram [
    (Construct.choice 0 [
      (T "0"),
      (T "1"),
      (T "2"),
      (T "3"),
      (T "4"),
      (T "5"),
      (T "6"),
      (T "7"),
      (T "8"),
      (T "9")])]

def es2025_NonZeroDigit : Construct :=
  Construct.diagram [
    (Construct.choice 0 [(T "1"), (T "2"), (T "3"), (T "4"), (T "5"), (T "6"), (T "7"), (T "8"), (T "9")])]

def es2025_NumericLiteralSeparator : Construct :=
  Construct.diagram [(T "_")]

def es2025_ExponentPart : Construct :=
  Construct.diagram [(Construct.sequence [(NT "ExponentIndicator"), (NT "SignedInteger")])]

def es2025_ExponentIndicator : Construct :=
  Construct.diagram [(Construct.choice 0 [(T "e"), (T "E")])]

def es2025_SignedInteger : Construct :=
  Construct.diagram [
    (Construct.choice 0 [
      (NT "DecimalDigits"),
      (Construct.sequence [(T "+"), (NT "DecimalDigits")]),
      (Construct.sequence [(T "-"), (NT "DecimalDigits")])])]

def es2025_BigIntLiteralSuffix : Construct :=
  Construct.diagram [(T "n")]

def es2025_DecimalBigIntegerLiteral : Construct :=
  Construct.diagram [
    (Construct.choice 0 [
      (Construct.sequence [(T "0"), (NT "BigIntLiteralSuffix")]),
      (Construct.sequence [
        (NT "NonZeroDigit"),
        (Construct.optional (NT "DecimalDigits")),
        (NT "BigIntLiteralSuffix")]),
      (Construct.sequence [
        (NT "NonZeroDigit"),
        (NT "NumericLiteralSeparator"),
        (NT "DecimalDigits"),
        (NT "BigIntLiteralSuffix")])])]

def es2025_NonDecimalIntegerLiteral : Construct :=
  Construct.diagram [
    (Construct.choice 0 [(NT "BinaryIntegerLiteral"), (NT "OctalIntegerLiteral"), (NT "HexIntegerLiteral")])]

def es2025_BinaryIntegerLiteral : Construct :=
  Construct.diagram [
    (Construct.choice 0 [
      (Construct.sequence [(T "0b"), (NT "BinaryDigits")]),
      (Construct.sequence [(T "0B"), (NT "BinaryDigits")])])]

def es2025_BinaryDigits : Construct :=
  Construct.diagram [
    (Construct.oneOrMore (NT "BinaryDigit") (Option.some (Construct.optional (NT "NumericLiteralSeparator"))))]

def es2025_BinaryDigit : Construct :=
  Construct.diagram [(Construct.choice 0 [(T "0"), (T "1")])]

def es2025_OctalIntegerLiteral : Construct :=
  Construct.diagram [
    (Construct.choice 0 [
      (Construct.sequence [(T "0o"), (NT "OctalDigits")]),
      (Construct.sequence [(T "0O"), (NT "OctalDigits")])])]

def es2025_OctalDigits : Construct :=
  Construct.diagram [
    (Construct.oneOrMore (NT "OctalDigit") (Option.some (Construct.optional (NT "NumericLiteralSeparator"))))]

def es2025_OctalDigit : Construct :=
  Construct.diagram [
    (Construct.choice 0 [(T "0"), (T "1"), (T "2"), (T "3"), (T "4"), (T "5"), (T "6"), (T "7")])]

def es2025_HexIntegerLiteral : Construct :=
  Construct.diagram [
    (Construct.choice 0 [
      (Construct.sequence [(T "0x"), (NT "HexDigits")]),
      (Construct.sequence [(T "0X"), (NT "HexDigits")])])]

def es2025_HexDigits : Construct :=
  Construct.diagram [
    (Construct.oneOrMore (NT "HexDigit") (Option.some (Construct.optional (NT "NumericLiteralSeparator"))))]

def es2025_HexDigit : Construct :=
  Construct.diagram [
    (Construct.choice 0 [
      (T "0"),
      (T "1"),
      (T "2"),
      (T "3"),
      (T "4"),
      (T "5"),
      (T "6"),
      (T "7"),
      (T "8"),
      (T "9"),
      (T "a"),
      (T "b"),
      (T "c"),
      (T "d"),
      (T "e"),
      (T "f"),
      (T "A"),
      (T "B"),
      (T "C"),
      (T "D"),
      (T "E"),
      (T "F")])]

def es2025_LegacyOctalIntegerLiteral : Construct :=
  Construct.diagram [(Construct.sequence [(T "0"), (Construct.oneOrMore (NT "OctalDigit") Option.none)])]

def es2025_StringLiteral : Construct :=
  Construct.diagram [
    (Construct.choice 0 [
      (Construct.sequence [(T "\""), (Construct.optional (NT "DoubleStringCharacters")), (T "\"")]),
      (Construct.sequence [(T "\x27"), (Construct.optional (NT "SingleStringCharacters")), (T "\x27")])])]

def es2025_DoubleStringCharacters : Construct :=
  Construct.diagram [(Construct.oneOrMore (NT "DoubleStringCharacter") Option.none)]

def es2025_SingleStringCharacters : Construct :=
  Construct.diagram [(Construct.oneOrMore (NT "SingleStringCharacter") Option.none)]

def es2025_DoubleStringCharacter : Construct :=
  Construct.diagram [
    (Construct.choice 0 [
      (Construct.comment "SourceCharacter but not \" or \\ or LineTerminator"),
      (T "<LS>"),
      (T "<PS>"),
      (Construct.sequence [(T "\\"), (NT "EscapeSequence")]),
      (NT "LineContinuation")])]

def es2025_SingleStringCharacter : Construct :=
  Construct.diagram [
    (Construct.choice 0 [
      (Construct.comment "SourceCharacter but not \x27 or \\ or LineTerminator"),
      (T "<LS>"),
      (T "<PS>"),
      (Construct.sequence [(T "\\"), (NT "EscapeSequence")]),
      (NT "LineContinuation")])]

def es2025_LineContinuation : Construct :=
  Construct.diagram [(Construct.sequence [(T "\\"), (NT "LineTerminatorSequence")])]

def es2025_EscapeSequence : Construct :=
  Construct.diagram [
    (Construct.choice 0 [
      (NT "CharacterEscapeSequence"),
      (Construct.sequence [(T "0"), (Construct.comment "[lookahead ∉ DecimalDigit]")]),
      (NT "LegacyOctalEscapeSequence"),
      (NT "NonOctalDecimalEscapeSequence"),
      (NT "HexEscapeSequence"),
      (NT "UnicodeEscapeSequence")])]

def es2025_CharacterEscapeSequence : Construct :=
  Construct.diagram [(Construct.choice 0 [(NT "SingleEscapeCharacter"), (NT "NonEscapeCharacter")])]

def es2025_SingleEscapeCharacter : Construct :=
  Construct.diagram [
    (Construct.choice 0 [
      (T "\x27"),
      (T "\""),
      (T "\\"),
      (T "b"),
      (T "f"),
      (T "n"),
      (T "r"),
      (T "t"),
      (T "v")])]

def es2025_HexEscapeSequence : Construct :=
  Construct.diagram [(Construct.sequence [(T "x"), (NT "HexDigit"), (NT "HexDigit")])]

def es2025_UnicodeEscapeSequence : Construct :=
  Construct.diagram [
    (Construct.choice 0 [
      (Construct.sequence [(T "u"), (NT "Hex4Digits")]),
      (Construct.sequence [(T "u\x7b"), (NT "CodePoint"), (T "\x7d")])])]

def es2025_Hex4Digits : Construct :=
  Construct.diagram [
    (Construct.sequence [(NT "HexDigit"), (NT "HexDigit"), (NT "HexDigit"), (NT "HexDigit")])]

def es2025_RegularExpressionLiteral : Construct :=
  Construct.diagram [
    (Construct.sequence [(T "/"), (NT "RegularExpressionBody"), (T "/"), (NT "RegularExpressionFlags")])]

def es2025_RegularExpressionBody : Construct :=
  Construct.diagram [
    (Construct.sequence [(NT "RegularExpressionFirstChar"), (NT "RegularExpressionChars")])]

def es2025_RegularExpressionChars : Construct :=
  Construct.diagram [(Construct.zeroOrMore (NT "RegularExpressionChar") Option.none)]

def es2025_RegularExpressionFlags : Construct :=
  Construct.diagram [(Construct.zeroOrMore (NT "IdentifierPartChar") Option.none)]

def es2025_Template : Construct :=
  Construct.diagram [(Construct.choice 0 [(NT "NoSubstitutionTemplate"), (NT "TemplateHead")])]

def es2025_NoSubstitutionTemplate : Construct :=
  Construct.diagram [
    (Construct.sequence [(T "\x60"), (Construct.optional (NT "TemplateCharacters")), (T "\x60")])]

def es2025_TemplateHead : Construct :=
  Construct.diagram [
    (Construct.sequence [(T "\x60"), (Construct.optional (NT "TemplateCharacters")), (T "$\x7b")])]

def es2025_TemplateSubstitutionTail : Construct :=
  Construct.diagram [(Construct.choice 0 [(NT "TemplateMiddle"), (NT "TemplateTail")])]

def es2025_TemplateMiddle : Construct :=
  Construct.diagram [
    (Construct.sequence [(T "\x7d"), (Construct.optional (NT "TemplateCharacters")), (T "$\x7b")])]

def es2025_TemplateTail : Construct :=
  Construct.diagram [
    (Construct.sequence [(T "\x7d"), (Construct.optional (NT "TemplateCharacters")), (T "\x60")])]

def es2025_TemplateCharacters : Construct :=
  Construct.diagram [(Construct.oneOrMore (NT "TemplateCharacter") Option.none)]

def es2025_IdentifierReference : Construct :=
  Construct.diagram [(Construct.choice 0 [(NT "Identifier"), (T "yield"), (T "await")])]

def es2025_BindingIdentifier : Construct :=
  Construct.diagram [(Construct.choice 0 [(NT "Identifier"), (T "yield"), (T "await")])]

def es2025_LabelIdentifier : Construct :=
  Construct.diagram [(Construct.choice 0 [(NT "Identifier"), (T "yield"), (T "await")])]

def es2025_Identifier : Construct :=
  Construct.diagram [
    (Construct.sequence [(NT "IdentifierName"), (Construct.comment "but not ReservedWord")])]

def es2025_PrimaryExpression : Construct :=
  Construct.diagram [
    (Construct.choice 0 [
      (T "this"),
      (NT "IdentifierReference"),
      (NT "Literal"),
      (NT "ArrayLiteral"),
      (NT "ObjectLiteral"),
      (NT "FunctionExpression"),
      (NT "ClassExpression"),
      (NT "GeneratorExpression"),
      (NT "AsyncFunctionExpression"),
      (NT "AsyncGeneratorExpression"),
      (NT "RegularExpressionLiteral"),
      (NT "TemplateLiteral"),
      (NT "CoverParenthesizedExpressionAndArrowParameterList")])]

def es2025_CoverParenthesizedExpressionAndArrowParameterList : Construct :=
  Construct.diagram [
    (Construct.choice 0 [
      (Construct.sequence [(T "("), (NT "Expression"), (T ")")]),
      (Construct.sequence [(T "("), (NT "Expression"), (T ","), (T ")")]),
      (Construct.sequence [(T "("), (T ")")]),
      (Construct.sequence [(T "("), (T "..."), (NT "BindingIdentifier"), (T ")")]),
      (Construct.sequence [(T "("), (T "..."), (NT "BindingPattern"), (T ")")]),
      (Construct.sequence [
        (T "("),
        (NT "Expression"),
        (T ","),
        (T "..."),
        (NT "BindingIdentifier"),
        (T ")")]),
      (Construct.sequence [(T "("), (NT "Expression"), (T ","), (T "..."), (NT "BindingPattern"), (T ")")])])]

def es2025_ParenthesizedExpression : Construct :=
  Construct.diagram [(Construct.sequence [(T "("), (NT "Expression"), (T ")")])]

def es2025_Literal : Construct :=
  Construct.diagram [
    (Construct.choice 0 [
      (NT "NullLiteral"),
      (NT "BooleanLiteral"),
      (NT "NumericLiteral"),
      (NT "StringLiteral")])]

def es2025_ArrayLiteral : Construct :=
  Construct.diagram [
    (Construct.choice 0 [
      (Construct.sequence [(T "["), (Construct.optional (NT "Elision")), (T "]")]),
      (Construct.sequence [(T "["), (NT "ElementList"), (T "]")]),
      (Construct.sequence [
        (T "["),
        (NT "ElementList"),
        (T ","),
        (Construct.optional (NT "Elision")),
        (T "]")])])]

def es2025_ElementList : Construct :=
  Construct.diagram [
    (Construct.sequence [
      (Construct.optional (NT "Elision")),
      (Construct.choice 0 [(NT "AssignmentExpression"), (NT "SpreadElement")]),
      (Construct.zeroOrMore (Construct.sequence [
          (T ","),
          (Construct.optional (NT "Elision")),
          (Construct.choice 0 [(NT "AssignmentExpression"), (NT "SpreadElement")])]) Option.none)])]

def es2025_Elision : Construct :=
  Construct.diagram [(Construct.oneOrMore (T ",") Option.none)]

def es2025_SpreadElement : Construct :=
  Construct.diagram [(Construct.sequence [(T "..."), (NT "AssignmentExpression")])]

def es2025_ObjectLiteral : Construct :=
  Construct.diagram [
    (Construct.choice 0 [
      (Construct.sequence [(T "\x7b"), (T "\x7d")]),
      (Construct.sequence [(T "\x7b"), (NT "PropertyDefinitionList"), (T "\x7d")]),
      (Construct.sequence [(T "\x7b"), (NT "PropertyDefinitionList"), (T ","), (T "\x7d")])])]

def es2025_PropertyDefinitionList : Construct :=
  Construct.diagram [
    (Construct.sequence [
      (NT "PropertyDefinition"),
      (Construct.zeroOrMore (Construct.sequence [(T ","), (NT "PropertyDefinition")]) Option.none)])]

def es2025_PropertyDefinition : Construct :=
  Construct.diagram [
    (Construct.choice 0 [
      (NT "IdentifierReference"),
      (NT "CoverInitializedName"),
      (Construct.sequence [(NT "PropertyName"), (T ":"), (NT "AssignmentExpression")]),
      (NT "MethodDefinition"),
      (Construct.sequence [(T "..."), (NT "AssignmentExpression")])])]

def es2025_PropertyName : Construct :=
  Construct.diagram [(Construct.choice 0 [(NT "LiteralPropertyName"), (NT "ComputedPropertyName")])]

def es2025_LiteralPropertyName : Construct :=
  Construct.diagram [
    (Construct.choice 0 [(NT "IdentifierName"), (NT "StringLiteral"), (NT "NumericLiteral")])]

def es2025_ComputedPropertyName : Construct :=
  Construct.diagram [(Construct.sequence [(T "["), (NT "AssignmentExpression"), (T "]")])]

def es2025_CoverInitializedName : Construct :=
  Construct.diagram [(Construct.sequence [(NT "IdentifierReference"), (NT "Initializer")])]

def es2025_Initializer : Construct :=
  Construct.diagram [(Construct.sequence [(T "="), (NT "AssignmentExpression")])]

def es2025_TemplateLiteral : Construct :=
  Construct.diagram [(Construct.choice 0 [(NT "NoSubstitutionTemplate"), (NT "SubstitutionTemplate")])]

def es2025_SubstitutionTemplate : Construct :=
  Construct.diagram [(Construct.sequence [(NT "TemplateHead"), (NT "Expression"), (NT "TemplateSpans")])]

def es2025_TemplateSpans : Construct :=
  Construct.diagram [
    (Construct.choice 0 [
      (NT "TemplateTail"),
      (Construct.sequence [(NT "TemplateMiddleList"), (NT "TemplateTail")])])]

def es2025_TemplateMiddleList : Construct :=
  Construct.diagram [
    (Construct.oneOrMore (Construct.sequence [(NT "TemplateMiddle"), (NT "Expression")]) Option.none)]

def es2025_MemberExpression : Construct :=
  Construct.diagram [
    (Construct.sequence [
      (Construct.choice 0 [
        (NT "PrimaryExpression"),
        (NT "SuperProperty"),
        (NT "MetaProperty"),
        (Construct.sequence [(T "new"), (NT "MemberExpression"), (NT "Arguments")])]),
      (Construct.zeroOrMore (Construct.choice 0 [
          (Construct.sequence [(T "["), (NT "Expression"), (T "]")]),
          (Construct.sequence [(T "."), (NT "IdentifierName")]),
          (NT "TemplateLiteral"),
          (Construct.sequence [(T "."), (NT "PrivateIdentifier")])]) Option.none)])]

def es2025_SuperProperty : Construct :=
  Construct.diagram [
    (Construct.choice 0 [
      (Construct.sequence [(T "super"), (T "["), (NT "Expression"), (T "]")]),
      (Construct.sequence [(T "super"), (T "."), (NT "IdentifierName")])])]

def es2025_MetaProperty : Construct :=
  Construct.diagram [(Construct.choice 0 [(NT "NewTarget"), (NT "ImportMeta")])]

def es2025_NewTarget : Construct :=
  Construct.diagram [(Construct.sequence [(T "new"), (T "."), (T "target")])]

def es2025_ImportMeta : Construct :=
  Construct.diagram [(Construct.sequence [(T "import"), (T "."), (T "meta")])]

def es2025_NewExpression : Construct :=
  Construct.diagram [
    (Construct.choice 0 [(NT "MemberExpression"), (Construct.sequence [(T "new"), (NT "NewExpression")])])]

def es2025_CallExpression : Construct :=
  Construct.diagram [
    (Construct.sequence [
      (Construct.choice 0 [
        (NT "CoverCallExpressionAndAsyncArrowHead"),
        (NT "SuperCall"),
        (NT "ImportCall"),
        (Construct.sequence [(NT "CallExpression"), (NT "Arguments")])]),
      (Construct.zeroOrMore (Construct.choice 0 [
          (NT "Arguments"),
          (Construct.sequence [(T "["), (NT "Expression"), (T "]")]),
          (Construct.sequence [(T "."), (NT "IdentifierName")]),
          (NT "TemplateLiteral"),
          (Construct.sequence [(T "."), (NT "PrivateIdentifier")])]) Option.none)])]

def es2025_SuperCall : Construct :=
  Construct.diagram [(Construct.sequence [(T "super"), (NT "Arguments")])]

def es2025_ImportCall : Construct :=
  Construct.diagram [
    (Construct.choice 0 [
      (Construct.sequence [
        (T "import"),
        (T "("),
        (NT "AssignmentExpression"),
        (Construct.optional (T ",")),
        (T ")")]),
      (Construct.sequence [
        (T "import"),
        (T "("),
        (NT "AssignmentExpression"),
        (T ","),
        (NT "AssignmentExpression"),
        (Construct.optional (T ",")),
        (T ")")])])]

def es2025_Arguments : Construct :=
  Construct.diagram [
    (Construct.choice 0 [
      (Construct.sequence [(T "("), (T ")")]),
      (Construct.sequence [(T "("), (NT "ArgumentList"), (T ")")]),
      (Construct.sequence [(T "("), (NT "ArgumentList"), (T ","), (T ")")])])]

def es2025_ArgumentList : Construct :=
  Construct.diagram [
    (Construct.sequence [
      (Construct.choice 0 [
        (NT "AssignmentExpression"),
        (Construct.sequence [(T "..."), (NT "AssignmentExpression")])]),
      (Construct.zeroOrMore (Construct.sequence [
          (T ","),
          (Construct.choice 0 [
            (NT "AssignmentExpression"),
            (Construct.sequence [(T "..."), (NT "AssignmentExpression")])])]) Option.none)])]

def es2025_OptionalExpression : Construct :=
  Construct.diagram [
    (Construct.sequence [
      (Construct.choice 0 [(NT "MemberExpression"), (NT "CallExpression"), (NT "OptionalExpression")]),
      (NT "OptionalChain")])]

def es2025_OptionalChain : Construct :=
  Construct.diagram [
    (Construct.sequence [
      (Construct.choice 0 [
        (Construct.sequence [(T "?."), (NT "Arguments")]),
        (Construct.sequence [(T "?."), (T "["), (NT "Expression"), (T "]")]),
        (Construct.sequence [(T "?."), (NT "IdentifierName")]),
        (Construct.sequence [(T "?."), (NT "TemplateLiteral")]),
        (Construct.sequence [(T "?."), (NT "PrivateIdentifier")])]),
      (Construct.zeroOrMore (Construct.choice 0 [
          (NT "Arguments"),
          (Construct.sequence [(T "["), (NT "Expression"), (T "]")]),
          (Construct.sequence [(T "."), (NT "IdentifierName")]),
          (NT "TemplateLiteral"),
          (Construct.sequence [(T "."), (NT "PrivateIdentifier")])]) Option.none)])]

def es2025_LeftHandSideExpression : Construct :=
  Construct.diagram [
    (Construct.choice 0 [(NT "NewExpression"), (NT "CallExpression"), (NT "OptionalExpression")])]

def es2025_UpdateExpression : Construct :=
  Construct.diagram [
    (Construct.choice 0 [
      (NT "LeftHandSideExpression"),
      (Construct.sequence [
        (NT "LeftHandSideExpression"),
        (Construct.comment "[no LineTerminator]"),
        (T "++")]),
      (Construct.sequence [
        (NT "LeftHandSideExpression"),
        (Construct.comment "[no LineTerminator]"),
        (T "--")]),
      (Construct.sequence [(T "++"), (NT "UnaryExpression")]),
      (Construct.sequence [(T "--"), (NT "UnaryExpression")])])]

def es2025_UnaryExpression : Construct :=
  Construct.diagram [
    (Construct.choice 0 [
      (NT "UpdateExpression"),
      (Construct.sequence [(T "delete"), (NT "UnaryExpression")]),
      (Construct.sequence [(T "void"), (NT "UnaryExpression")]),
      (Construct.sequence [(T "typeof"), (NT "UnaryExpression")]),
      (Construct.sequence [(T "+"), (NT "UnaryExpression")]),
      (Construct.sequence [(T "-"), (NT "UnaryExpression")]),
      (Construct.sequence [(T "~"), (NT "UnaryExpression")]),
      (Construct.sequence [(T "!"), (NT "UnaryExpression")]),
      (NT "AwaitExpression")])]

def es2025_ExponentiationExpression : Construct :=
  Construct.diagram [
    (Construct.choice 0 [
      (NT "UnaryExpression"),
      (Construct.sequence [(NT "UpdateExpression"), (T "**"), (NT "ExponentiationExpression")])])]

def es2025_MultiplicativeExpression : Construct :=
  Construct.diagram [
    (Construct.sequence [
      (NT "ExponentiationExpression"),
      (Construct.zeroOrMore (Construct.sequence [(NT "MultiplicativeOperator"), (NT "ExponentiationExpression")]) Option.none)])]

def es2025_MultiplicativeOperator : Construct :=
  Construct.diagram [(Construct.choice 0 [(T "*"), (T "/"), (T "%")])]

def es2025_AdditiveExpression : Construct :=
  Construct.diagram [
    (Construct.sequence [
      (NT "MultiplicativeExpression"),
      (Construct.zeroOrMore (Construct.choice 0 [
          (Construct.sequence [(T "+"), (NT "MultiplicativeExpression")]),
          (Construct.sequence [(T "-"), (NT "MultiplicativeExpression")])]) Option.none)])]

def es2025_ShiftExpression : Construct :=
  Construct.diagram [
    (Construct.sequence [
      (NT "AdditiveExpression"),
      (Construct.zeroOrMore (Construct.choice 0 [
          (Construct.sequence [(T "<<"), (NT "AdditiveExpression")]),
          (Construct.sequence [(T ">>"), (NT "AdditiveExpression")]),
          (Construct.sequence [(T ">>>"), (NT "AdditiveExpression")])]) Option.none)])]

def es2025_RelationalExpression : Construct :=
  Construct.diagram [
    (Construct.sequence [
      (NT "ShiftExpression"),
      (Construct.zeroOrMore (Construct.choice 0 [
          (Construct.sequence [(T "<"), (NT "ShiftExpression")]),
          (Construct.sequence [(T ">"), (NT "ShiftExpression")]),
          (Construct.sequence [(T "<="), (NT "ShiftExpression")]),
          (Construct.sequence [(T ">="), (NT "ShiftExpression")]),
          (Construct.sequence [(T "instanceof"), (NT "ShiftExpression")]),
          (Construct.sequence [(T "in"), (NT "ShiftExpression")]),
          (Construct.sequence [(NT "PrivateIdentifier"), (T "in"), (NT "ShiftExpression")])]) Option.none)])]

def es2025_EqualityExpression : Construct :=
  Construct.diagram [
    (Construct.sequence [
      (NT "RelationalExpression"),
      (Construct.zeroOrMore (Construct.choice 0 [
          (Construct.sequence [(T "=="), (NT "RelationalExpression")]),
          (Construct.sequence [(T "!="), (NT "RelationalExpression")]),
          (Construct.sequence [(T "==="), (NT "RelationalExpression")]),
          (Construct.sequence [(T "!=="), (NT "RelationalExpression")])]) Option.none)])]

def es2025_BitwiseANDExpression : Construct :=
  Construct.diagram [
    (Construct.sequence [
      (NT "EqualityExpression"),
      (Construct.zeroOrMore (Construct.sequence [(T "&"), (NT "EqualityExpression")]) Option.none)])]

def es2025_BitwiseXORExpression : Construct :=
  Construct.diagram [
    (Construct.sequence [
      (NT "BitwiseANDExpression"),
      (Construct.zeroOrMore (Construct.sequence [(T "^"), (NT "BitwiseANDExpression")]) Option.none)])]

def es2025_BitwiseORExpression : Construct :=
  Construct.diagram [
    (Construct.sequence [
      (NT "BitwiseXORExpression"),
      (Construct.zeroOrMore (Construct.sequence [(T "|"), (NT "BitwiseXORExpression")]) Option.none)])]

def es2025_LogicalANDExpression : Construct :=
  Construct.diagram [
    (Construct.sequence [
      (NT "BitwiseORExpression"),
      (Construct.zeroOrMore (Construct.sequence [(T "&&"), (NT "BitwiseORExpression")]) Option.none)])]

def es2025_LogicalORExpression : Construct :=
  Construct.diagram [
    (Construct.sequence [
      (NT "LogicalANDExpression"),
      (Construct.zeroOrMore (Construct.sequence [(T "||"), (NT "LogicalANDExpression")]) Option.none)])]

def es2025_CoalesceExpression : Construct :=
  Construct.diagram [
    (Construct.sequence [(NT "CoalesceExpressionHead"), (T "??"), (NT "BitwiseORExpression")])]

def es2025_CoalesceExpressionHead : Construct :=
  Construct.diagram [(Construct.choice 0 [(NT "CoalesceExpression"), (NT "BitwiseORExpression")])]

def es2025_ShortCircuitExpression : Construct :=
  Construct.diagram [(Construct.choice 0 [(NT "LogicalORExpression"), (NT "CoalesceExpression")])]

def es2025_ConditionalExpression : Construct :=
  Construct.diagram [
    (Construct.choice 0 [
      (NT "ShortCircuitExpression"),
      (Construct.sequence [
        (NT "ShortCircuitExpression"),
        (T "?"),
        (NT "AssignmentExpression"),
        (T ":"),
        (NT "AssignmentExpression")])])]

def es2025_AssignmentExpression : Construct :=
  Construct.diagram [
    (Construct.choice 0 [
      (NT "ConditionalExpression"),
      (NT "YieldExpression"),
      (NT "ArrowFunction"),
      (NT "AsyncArrowFunction"),
      (Construct.sequence [(NT "LeftHandSideExpression"), (T "="), (NT "AssignmentExpression")]),
      (Construct.sequence [
        (NT "LeftHandSideExpression"),
        (NT "AssignmentOperator"),
        (NT "AssignmentExpression")]),
      (Construct.sequence [(NT "LeftHandSideExpression"), (T "&&="), (NT "AssignmentExpression")]),
      (Construct.sequence [(NT "LeftHandSideExpression"), (T "||="), (NT "AssignmentExpression")]),
      (Construct.sequence [(NT "LeftHandSideExpression"), (T "??="), (NT "AssignmentExpression")])])]

def es2025_AssignmentOperator : Construct :=
  Construct.diagram [
    (Construct.choice 0 [
      (T "*="),
      (T "/="),
      (T "%="),
      (T "+="),
      (T "-="),
      (T "<<="),
      (T ">>="),
      (T ">>>="),
      (T "&="),
      (T "^="),
      (T "|="),
      (T "**=")])]

def es2025_AssignmentPattern : Construct :=
  Construct.diagram [(Construct.choice 0 [(NT "ObjectAssignmentPattern"), (NT "ArrayAssignmentPattern")])]

def es2025_ObjectAssignmentPattern : Construct :=
  Construct.diagram [
    (Construct.choice 0 [
      (Construct.sequence [(T "\x7b"), (T "\x7d")]),
      (Construct.sequence [(T "\x7b"), (NT "AssignmentRestProperty"), (T "\x7d")]),
      (Construct.sequence [(T "\x7b"), (NT "AssignmentPropertyList"), (T "\x7d")]),
      (Construct.sequence [
        (T "\x7b"),
        (NT "AssignmentPropertyList"),
        (T ","),
        (Construct.optional (NT "AssignmentRestProperty")),
        (T "\x7d")])])]

def es2025_ArrayAssignmentPattern : Construct :=
  Construct.diagram [
    (Construct.choice 0 [
      (Construct.sequence [
        (T "["),
        (Construct.optional (NT "Elision")),
        (Construct.optional (NT "AssignmentRestElement")),
        (T "]")]),
      (Construct.sequence [(T "["), (NT "AssignmentElementList"), (T "]")]),
      (Construct.sequence [
        (T "["),
        (NT "AssignmentElementList"),
        (T ","),
        (Construct.optional (NT "Elision")),
        (Construct.optional (NT "AssignmentRestElement")),
        (T "]")])])]

def es2025_Expression : Construct :=
  Construct.diagram [
    (Construct.sequence [
      (NT "AssignmentExpression"),
      (Construct.zeroOrMore (Construct.sequence [(T ","), (NT "AssignmentExpression")]) Option.none)])]

def es2025_Statement : Construct :=
  Construct.diagram [
    (Construct.choice 0 [
      (NT "BlockStatement"),
      (NT "VariableStatement"),
      (NT "EmptyStatement"),
      (NT "ExpressionStatement"),
      (NT "IfStatement"),
      (NT "BreakableStatement"),
      (NT "ContinueStatement"),
      (NT "BreakStatement"),
      (NT "ReturnStatement"),
      (NT "WithStatement"),
      (NT "LabelledStatement"),
      (NT "ThrowStatement"),
      (NT "TryStatement"),
      (NT "DebuggerStatement")])]

def es2025_Declaration : Construct :=
  Construct.diagram [
    (Construct.choice 0 [(NT "HoistableDeclaration"), (NT "ClassDeclaration"), (NT "LexicalDeclaration")])]

def es2025_HoistableDeclaration : Construct :=
  Construct.diagram [
    (Construct.choice 0 [
      (NT "FunctionDeclaration"),
      (NT "GeneratorDeclaration"),
      (NT "AsyncFunctionDeclaration"),
      (NT "AsyncGeneratorDeclaration")])]

def es2025_BreakableStatement : Construct :=
  Construct.diagram [(Construct.choice 0 [(NT "IterationStatement"), (NT "SwitchStatement")])]

def es2025_BlockStatement : Construct :=
  Construct.diagram [(NT "Block")]

def es2025_Block : Construct :=
  Construct.diagram [
    (Construct.sequence [(T "\x7b"), (Construct.optional (NT "StatementList")), (T "\x7d")])]

def es2025_StatementList : Construct :=
  Construct.diagram [(Construct.oneOrMore (NT "StatementListItem") Option.none)]

def es2025_StatementListItem : Construct :=
  Construct.diagram [(Construct.choice 0 [(NT "Statement"), (NT "Declaration")])]

def es2025_LexicalDeclaration : Construct :=
  Construct.diagram [(Construct.sequence [(NT "LetOrConst"), (NT "BindingList"), (T ";")])]

def es2025_LetOrConst : Construct :=
  Construct.diagram [(Construct.choice 0 [(T "let"), (T "const")])]

def es2025_BindingList : Construct :=
  Construct.diagram [
    (Construct.sequence [
      (NT "LexicalBinding"),
      (Construct.zeroOrMore (Construct.sequence [(T ","), (NT "LexicalBinding")]) Option.none)])]

def es2025_LexicalBinding : Construct :=
  Construct.diagram [
    (Construct.choice 0 [
      (Construct.sequence [(NT "BindingIdentifier"), (Construct.optional (NT "Initializer"))]),
      (Construct.sequence [(NT "BindingPattern"), (NT "Initializer")])])]

def es2025_VariableStatement : Construct :=
  Construct.diagram [(Construct.sequence [(T "var"), (NT "VariableDeclarationList"), (T ";")])]

def es2025_VariableDeclarationList : Construct :=
  Construct.diagram [
    (Construct.sequence [
      (NT "VariableDeclaration"),
      (Construct.zeroOrMore (Construct.sequence [(T ","), (NT "VariableDeclaration")]) Option.none)])]

def es2025_VariableDeclaration : Construct :=
  Construct.diagram [
    (Construct.choice 0 [
      (Construct.sequence [(NT "BindingIdentifier"), (Construct.optional (NT "Initializer"))]),
      (Construct.sequence [(NT "BindingPattern"), (NT "Initializer")])])]

def es2025_BindingPattern : Construct :=
  Construct.diagram [(Construct.choice 0 [(NT "ObjectBindingPattern"), (NT "ArrayBindingPattern")])]

def es2025_ObjectBindingPattern : Construct :=
  Construct.diagram [
    (Construct.choice 0 [
      (Construct.sequence [(T "\x7b"), (T "\x7d")]),
      (Construct.sequence [(T "\x7b"), (NT "BindingRestProperty"), (T "\x7d")]),
      (Construct.sequence [(T "\x7b"), (NT "BindingPropertyList"), (T "\x7d")]),
      (Construct.sequence [
        (T "\x7b"),
        (NT "BindingPropertyList"),
        (T ","),
        (Construct.optional (NT "BindingRestProperty")),
        (T "\x7d")])])]

def es2025_ArrayBindingPattern : Construct :=
  Construct.diagram [
    (Construct.choice 0 [
      (Construct.sequence [
        (T "["),
        (Construct.optional (NT "Elision")),
        (Construct.optional (NT "BindingRestElement")),
        (T "]")]),
      (Construct.sequence [(T "["), (NT "BindingElementList"), (T "]")]),
      (Construct.sequence [
        (T "["),
        (NT "BindingElementList"),
        (T ","),
        (Construct.optional (NT "Elision")),
        (Construct.optional (NT "BindingRestElement")),
        (T "]")])])]

def es2025_BindingRestProperty : Construct :=
  Construct.diagram [(Construct.sequence [(T "..."), (NT "BindingIdentifier")])]

def es2025_BindingPropertyList : Construct :=
  Construct.diagram [
    (Construct.sequence [
      (NT "BindingProperty"),
      (Construct.zeroOrMore (Construct.sequence [(T ","), (NT "BindingProperty")]) Option.none)])]

def es2025_BindingElementList : Construct :=
  Construct.diagram [
    (Construct.sequence [
      (NT "BindingElisionElement"),
      (Construct.zeroOrMore (Construct.sequence [(T ","), (NT "BindingElisionElement")]) Option.none)])]

def es2025_BindingElisionElement : Construct :=
  Construct.diagram [(Construct.sequence [(Construct.optional (NT "Elision")), (NT "BindingElement")])]

def es2025_BindingProperty : Construct :=
  Construct.diagram [
    (Construct.choice 0 [
      (NT "SingleNameBinding"),
      (Construct.sequence [(NT "PropertyName"), (T ":"), (NT "BindingElement")])])]

def es2025_BindingElement : Construct :=
  Construct.diagram [
    (Construct.choice 0 [
      (NT "SingleNameBinding"),
      (Construct.sequence [(NT "BindingPattern"), (Construct.optional (NT "Initializer"))])])]

def es2025_SingleNameBinding : Construct :=
  Construct.diagram [
    (Construct.sequence [(NT "BindingIdentifier"), (Construct.optional (NT "Initializer"))])]

def es2025_BindingRestElement : Construct :=
  Construct.diagram [
    (Construct.choice 0 [
      (Construct.sequence [(T "..."), (NT "BindingIdentifier")]),
      (Construct.sequence [(T "..."), (NT "BindingPattern")])])]

def es2025_EmptyStatement : Construct :=
  Construct.diagram [(T ";")]

def es2025_ExpressionStatement : Construct :=
  Construct.diagram [
    (Construct.sequence [
      (Construct.comment "[lookahead ∉ \x7b, function, async function, class, let [\x7d"),
      (NT "Expression"),
      (T ";")])]

def es2025_IfStatement : Construct :=
  Construct.diagram [
    (Construct.choice 0 [
      (Construct.sequence [
        (T "if"),
        (T "("),
        (NT "Expression"),
        (T ")"),
        (NT "Statement"),
        (T "else"),
        (NT "Statement")]),
      (Construct.sequence [
        (T "if"),
        (T "("),
        (NT "Expression"),
        (T ")"),
        (NT "Statement"),
        (Construct.comment "[lookahead ≠ else]")])])]

def es2025_IterationStatement : Construct :=
  Construct.diagram [
    (Construct.choice 0 [
      (NT "DoWhileStatement"),
      (NT "WhileStatement"),
      (NT "ForStatement"),
      (NT "ForInOfStatement")])]

def es2025_DoWhileStatement : Construct :=
  Construct.diagram [
    (Construct.sequence [
      (T "do"),
      (NT "Statement"),
      (T "while"),
      (T "("),
      (NT "Expression"),
      (T ")"),
      (T ";")])]

def es2025_WhileStatement : Construct :=
  Construct.diagram [
    (Construct.sequence [(T "while"), (T "("), (NT "Expression"), (T ")"), (NT "Statement")])]

def es2025_ForStatement : Construct :=
  Construct.diagram [
    (Construct.choice 0 [
      (Construct.sequence [
        (T "for"),
        (T "("),
        (Construct.optional (NT "Expression")),
        (T ";"),
        (Construct.optional (NT "Expression")),
        (T ";"),
        (Construct.optional (NT "Expression")),
        (T ")"),
        (NT "Statement")]),
      (Construct.sequence [
        (T "for"),
        (T "("),
        (T "var"),
        (NT "VariableDeclarationList"),
        (T ";"),
        (Construct.optional (NT "Expression")),
        (T ";"),
        (Construct.optional (NT "Expression")),
        (T ")"),
        (NT "Statement")]),
      (Construct.sequence [
        (T "for"),
        (T "("),
        (NT "LexicalDeclaration"),
        (Construct.optional (NT "Expression")),
        (T ";"),
        (Construct.optional (NT "Expression")),
        (T ")"),
        (NT "Statement")])])]

def es2025_ForInOfStatement : Construct :=
  Construct.diagram [
    (Construct.choice 0 [
      (Construct.sequence [
        (T "for"),
        (T "("),
        (NT "LeftHandSideExpression"),
        (T "in"),
        (NT "Expression"),
        (T ")"),
        (NT "Statement")]),
      (Construct.sequence [
        (T "for"),
        (T "("),
        (T "var"),
        (NT "ForBinding"),
        (T "in"),
        (NT "Expression"),
        (T ")"),
        (NT "Statement")]),
      (Construct.sequence [
        (T "for"),
        (T "("),
        (NT "ForDeclaration"),
        (T "in"),
        (NT "Expression"),
        (T ")"),
        (NT "Statement")]),
      (Construct.sequence [
        (T "for"),
        (T "("),
        (NT "LeftHandSideExpression"),
        (T "of"),
        (NT "AssignmentExpression"),
        (T ")"),
        (NT "Statement")]),
      (Construct.sequence [
        (T "for"),
        (T "("),
        (T "var"),
        (NT "ForBinding"),
        (T "of"),
        (NT "AssignmentExpression"),
        (T ")"),
        (NT "Statement")]),
      (Construct.sequence [
        (T "for"),
        (T "("),
        (NT "ForDeclaration"),
        (T "of"),
        (NT "AssignmentExpression"),
        (T ")"),
        (NT "Statement")]),
      (Construct.sequence [
        (T "for"),
        (T "await"),
        (T "("),
        (NT "LeftHandSideExpression"),
        (T "of"),
        (NT "AssignmentExpression"),
        (T ")"),
        (NT "Statement")]),
      (Construct.sequence [
        (T "for"),
        (T "await"),
        (T "("),
        (T "var"),
        (NT "ForBinding"),
        (T "of"),
        (NT "AssignmentExpression"),
        (T ")"),
        (NT "Statement")]),
      (Construct.sequence [
        (T "for"),
        (T "await"),
        (T "("),
        (NT "ForDeclaration"),
        (T "of"),
        (NT "AssignmentExpression"),
        (T ")"),
        (NT "Statement")])])]

def es2025_ForDeclaration : Construct :=
  Construct.diagram [(Construct.sequence [(NT "LetOrConst"), (NT "ForBinding")])]

def es2025_ForBinding : Construct :=
  Construct.diagram [(Construct.choice 0 [(NT "BindingIdentifier"), (NT "BindingPattern")])]

def es2025_ContinueStatement : Construct :=
  Construct.diagram [
    (Construct.choice 0 [
      (Construct.sequence [(T "continue"), (T ";")]),
      (Construct.sequence [
        (T "continue"),
        (Construct.comment "[no LineTerminator]"),
        (NT "LabelIdentifier"),
        (T ";")])])]

def es2025_BreakStatement : Construct :=
  Construct.diagram [
    (Construct.choice 0 [
      (Construct.sequence [(T "break"), (T ";")]),
      (Construct.sequence [
        (T "break"),
        (Construct.comment "[no LineTerminator]"),
        (NT "LabelIdentifier"),
        (T ";")])])]

def es2025_ReturnStatement : Construct :=
  Construct.diagram [
    (Construct.choice 0 [
      (Construct.sequence [(T "return"), (T ";")]),
      (Construct.sequence [
        (T "return"),
        (Construct.comment "[no LineTerminator]"),
        (NT "Expression"),
        (T ";")])])]

def es2025_WithStatement : Construct :=
  Construct.diagram [
    (Construct.sequence [(T "with"), (T "("), (NT "Expression"), (T ")"), (NT "Statement")])]

def es2025_SwitchStatement : Construct :=
  Construct.diagram [
    (Construct.sequence [(T "switch"), (T "("), (NT "Expression"), (T ")"), (NT "CaseBlock")])]

def es2025_CaseBlock : Construct :=
  Construct.diagram [
    (Construct.choice 0 [
      (Construct.sequence [(T "\x7b"), (Construct.optional (NT "CaseClauses")), (T "\x7d")]),
      (Construct.sequence [
        (T "\x7b"),
        (Construct.optional (NT "CaseClauses")),
        (NT "DefaultClause"),
        (Construct.optional (NT "CaseClauses")),
        (T "\x7d")])])]

def es2025_CaseClauses : Construct :=
  Construct.diagram [(Construct.oneOrMore (NT "CaseClause") Option.none)]

def es2025_CaseClause : Construct :=
  Construct.diagram [
    (Construct.sequence [(T "case"), (NT "Expression"), (T ":"), (Construct.optional (NT "StatementList"))])]

def es2025_DefaultClause : Construct :=
  Construct.diagram [
    (Construct.sequence [(T "default"), (T ":"), (Construct.optional (NT "StatementList"))])]

def es2025_LabelledStatement : Construct :=
  Construct.diagram [(Construct.sequence [(NT "LabelIdentifier"), (T ":"), (NT "LabelledItem")])]

def es2025_LabelledItem : Construct :=
  Construct.diagram [(Construct.choice 0 [(NT "Statement"), (NT "FunctionDeclaration")])]

def es2025_ThrowStatement : Construct :=
  Construct.diagram [
    (Construct.sequence [(T "throw"), (Construct.comment "[no LineTerminator]"), (NT "Expression"), (T ";")])]

def es2025_TryStatement : Construct :=
  Construct.diagram [
    (Construct.choice 0 [
      (Construct.sequence [(T "try"), (NT "Block"), (NT "Catch")]),
      (Construct.sequence [(T "try"), (NT "Block"), (NT "Finally")]),
      (Construct.sequence [(T "try"), (NT "Block"), (NT "Catch"), (NT "Finally")])])]

def es2025_Catch : Construct :=
  Construct.diagram [
    (Construct.choice 0 [
      (Construct.sequence [(T "catch"), (T "("), (NT "CatchParameter"), (T ")"), (NT "Block")]),
      (Construct.sequence [(T "catch"), (NT "Block")])])]

def es2025_Finally : Construct :=
  Construct.diagram [(Construct.sequence [(T "finally"), (NT "Block")])]

def es2025_CatchParameter : Construct :=
  Construct.diagram [(Construct.choice 0 [(NT "BindingIdentifier"), (NT "BindingPattern")])]

def es2025_DebuggerStatement : Construct :=
  Construct.diagram [(Construct.sequence [(T "debugger"), (T ";")])]

def es2025_UniqueFormalParameters : Construct :=
  Construct.diagram [(NT "FormalParameters")]

def es2025_FormalParameters : Construct :=
  Construct.diagram [
    (Construct.choice 0 [
      (Construct.comment "[empty]"),
      (NT "FunctionRestParameter"),
      (NT "FormalParameterList"),
      (Construct.sequence [(NT "FormalParameterList"), (T ",")]),
      (Construct.sequence [(NT "FormalParameterList"), (T ","), (NT "FunctionRestParameter")])])]

def es2025_FormalParameterList : Construct :=
  Construct.diagram [
    (Construct.sequence [
      (NT "FormalParameter"),
      (Construct.zeroOrMore (Construct.sequence [(T ","), (NT "FormalParameter")]) Option.none)])]

def es2025_FunctionRestParameter : Construct :=
  Construct.diagram [(NT "BindingRestElement")]

def es2025_FormalParameter : Construct :=
  Construct.diagram [(NT "BindingElement")]

def es2025_FunctionDeclaration : Construct :=
  Construct.diagram [
    (Construct.choice 0 [
      (Construct.sequence [
        (T "function"),
        (NT "BindingIdentifier"),
        (T "("),
        (NT "FormalParameters"),
        (T ")"),
        (T "\x7b"),
        (NT "FunctionBody"),
        (T "\x7d")]),
      (Construct.sequence [
        (T "function"),
        (T "("),
        (NT "FormalParameters"),
        (T ")"),
        (T "\x7b"),
        (NT "FunctionBody"),
        (T "\x7d")])])]

def es2025_FunctionExpression : Construct :=
  Construct.diagram [
    (Construct.sequence [
      (T "function"),
      (Construct.optional (NT "BindingIdentifier")),
      (T "("),
      (NT "FormalParameters"),
      (T ")"),
      (T "\x7b"),
      (NT "FunctionBody"),
      (T "\x7d")])]

def es2025_FunctionBody : Construct :=
  Construct.diagram [(NT "FunctionStatementList")]

def es2025_FunctionStatementList : Construct :=
  Construct.diagram [(Construct.optional (NT "StatementList"))]

def es2025_ArrowFunction : Construct :=
  Construct.diagram [
    (Construct.sequence [
      (NT "ArrowParameters"),
      (Construct.comment "[no LineTerminator]"),
      (T "=>"),
      (NT "ConciseBody")])]

def es2025_ArrowParameters : Construct :=
  Construct.diagram [
    (Construct.choice 0 [(NT "BindingIdentifier"), (NT "CoverParenthesizedExpressionAndArrowParameterList")])]

def es2025_ConciseBody : Construct :=
  Construct.diagram [
    (Construct.choice 0 [
      (Construct.sequence [(Construct.comment "[lookahead ≠ \x7b]"), (NT "ExpressionBody")]),
      (Construct.sequence [(T "\x7b"), (NT "FunctionBody"), (T "\x7d")])])]

def es2025_ExpressionBody : Construct :=
  Construct.diagram [(NT "AssignmentExpression")]

def es2025_ArrowFormalParameters : Construct :=
  Construct.diagram [(Construct.sequence [(T "("), (NT "UniqueFormalParameters"), (T ")")])]

def es2025_AsyncArrowFunction : Construct :=
  Construct.diagram [
    (Construct.choice 0 [
      (Construct.sequence [
        (T "async"),
        (Construct.comment "[no LineTerminator]"),
        (NT "AsyncArrowBindingIdentifier"),
        (Construct.comment "[no LineTerminator]"),
        (T "=>"),
        (NT "AsyncConciseBody")]),
      (Construct.sequence [
        (NT "CoverCallExpressionAndAsyncArrowHead"),
        (Construct.comment "[no LineTerminator]"),
        (T "=>"),
        (NT "AsyncConciseBody")])])]

def es2025_AsyncConciseBody : Construct :=
  Construct.diagram [
    (Construct.choice 0 [
      (Construct.sequence [(Construct.comment "[lookahead ≠ \x7b]"), (NT "ExpressionBody")]),
      (Construct.sequence [(T "\x7b"), (NT "AsyncFunctionBody"), (T "\x7d")])])]

def es2025_AsyncArrowBindingIdentifier : Construct :=
  Construct.diagram [(NT "BindingIdentifier")]

def es2025_CoverCallExpressionAndAsyncArrowHead : Construct :=
  Construct.diagram [(Construct.sequence [(NT "MemberExpression"), (NT "Arguments")])]

def es2025_AsyncArrowHead : Construct :=
  Construct.diagram [
    (Construct.sequence [
      (T "async"),
      (Construct.comment "[no LineTerminator]"),
      (NT "ArrowFormalParameters")])]

def es2025_MethodDefinition : Construct :=
  Construct.diagram [
    (Construct.choice 0 [
      (Construct.sequence [
        (NT "ClassElementName"),
        (T "("),
        (NT "UniqueFormalParameters"),
        (T ")"),
        (T "\x7b"),
        (NT "FunctionBody"),
        (T "\x7d")]),
      (NT "GeneratorMethod"),
      (NT "AsyncMethod"),
      (NT "AsyncGeneratorMethod"),
      (Construct.sequence [
        (T "get"),
        (NT "ClassElementName"),
        (T "("),
        (T ")"),
        (T "\x7b"),
        (NT "FunctionBody"),
        (T "\x7d")]),
      (Construct.sequence [
        (T "set"),
        (NT "ClassElementName"),
        (T "("),
        (NT "PropertySetParameterList"),
        (T ")"),
        (T "\x7b"),
        (NT "FunctionBody"),
        (T "\x7d")])])]

def es2025_PropertySetParameterList : Construct :=
  Construct.diagram [(NT "FormalParameter")]

def es2025_GeneratorDeclaration : Construct :=
  Construct.diagram [
    (Construct.choice 0 [
      (Construct.sequence [
        (T "function"),
        (T "*"),
        (NT "BindingIdentifier"),
        (T "("),
        (NT "FormalParameters"),
        (T ")"),
        (T "\x7b"),
        (NT "GeneratorBody"),
        (T "\x7d")]),
      (Construct.sequence [
        (T "function"),
        (T "*"),
        (T "("),
        (NT "FormalParameters"),
        (T ")"),
        (T "\x7b"),
        (NT "GeneratorBody"),
        (T "\x7d")])])]

def es2025_GeneratorExpression : Construct :=
  Construct.diagram [
    (Construct.sequence [
      (T "function"),
      (T "*"),
      (Construct.optional (NT "BindingIdentifier")),
      (T "("),
      (NT "FormalParameters"),
      (T ")"),
      (T "\x7b"),
      (NT "GeneratorBody"),
      (T "\x7d")])]

def es2025_GeneratorMethod : Construct :=
  Construct.diagram [
    (Construct.sequence [
      (T "*"),
      (NT "ClassElementName"),
      (T "("),
      (NT "UniqueFormalParameters"),
      (T ")"),
      (T "\x7b"),
      (NT "GeneratorBody"),
      (T "\x7d")])]

def es2025_GeneratorBody : Construct :=
  Construct.diagram [(NT "FunctionBody")]

def es2025_YieldExpression : Construct :=
  Construct.diagram [
    (Construct.choice 0 [
      (T "yield"),
      (Construct.sequence [
        (T "yield"),
        (Construct.comment "[no LineTerminator]"),
        (NT "AssignmentExpression")]),
      (Construct.sequence [
        (T "yield"),
        (Construct.comment "[no LineTerminator]"),
        (T "*"),
        (NT "AssignmentExpression")])])]

def es2025_AsyncGeneratorDeclaration : Construct :=
  Construct.diagram [
    (Construct.choice 0 [
      (Construct.sequence [
        (T "async"),
        (Construct.comment "[no LineTerminator]"),
        (T "function"),
        (T "*"),
        (NT "BindingIdentifier"),
        (T "("),
        (NT "FormalParameters"),
        (T ")"),
        (T "\x7b"),
        (NT "AsyncGeneratorBody"),
        (T "\x7d")]),
      (Construct.sequence [
        (T "async"),
        (Construct.comment "[no LineTerminator]"),
        (T "function"),
        (T "*"),
        (T "("),
        (NT "FormalParameters"),
        (T ")"),
        (T "\x7b"),
        (NT "AsyncGeneratorBody"),
        (T "\x7d")])])]

def es2025_AsyncGeneratorExpression : Construct :=
  Construct.diagram [
    (Construct.sequence [
      (T "async"),
      (Construct.comment "[no LineTerminator]"),
      (T "function"),
      (T "*"),
      (Construct.optional (NT "BindingIdentifier")),
      (T "("),
      (NT "FormalParameters"),
      (T ")"),
      (T "\x7b"),
      (NT "AsyncGeneratorBody"),
      (T "\x7d")])]

def es2025_AsyncGeneratorMethod : Construct :=
  Construct.diagram [
    (Construct.sequence [
      (T "async"),
      (Construct.comment "[no LineTerminator]"),
      (T "*"),
      (NT "ClassElementName"),
      (T "("),
      (NT "UniqueFormalParameters"),
      (T ")"),
      (T "\x7b"),
      (NT "AsyncGeneratorBody"),
      (T "\x7d")])]

def es2025_AsyncGeneratorBody : Construct :=
  Construct.diagram [(NT "FunctionBody")]

def es2025_AsyncFunctionDeclaration : Construct :=
  Construct.diagram [
    (Construct.choice 0 [
      (Construct.sequence [
        (T "async"),
        (Construct.comment "[no LineTerminator]"),
        (T "function"),
        (NT "BindingIdentifier"),
        (T "("),
        (NT "FormalParameters"),
        (T ")"),
        (T "\x7b"),
        (NT "AsyncFunctionBody"),
        (T "\x7d")]),
      (Construct.sequence [
        (T "async"),
        (Construct.comment "[no LineTerminator]"),
        (T "function"),
        (T "("),
        (NT "FormalParameters"),
        (T ")"),
        (T "\x7b"),
        (NT "AsyncFunctionBody"),
        (T "\x7d")])])]

def es2025_AsyncFunctionExpression : Construct :=
  Construct.diagram [
    (Construct.sequence [
      (T "async"),
      (Construct.comment "[no LineTerminator]"),
      (T "function"),
      (Construct.optional (NT "BindingIdentifier")),
      (T "("),
      (NT "FormalParameters"),
      (T ")"),
      (T "\x7b"),
      (NT "AsyncFunctionBody"),
      (T "\x7d")])]

def es2025_AsyncMethod : Construct :=
  Construct.diagram [
    (Construct.sequence [
      (T "async"),
      (Construct.comment "[no LineTerminator]"),
      (NT "ClassElementName"),
      (T "("),
      (NT "UniqueFormalParameters"),
      (T ")"),
      (T "\x7b"),
      (NT "AsyncFunctionBody"),
      (T "\x7d")])]

def es2025_AsyncFunctionBody : Construct :=
  Construct.diagram [(NT "FunctionBody")]

def es2025_AwaitExpression : Construct :=
  Construct.diagram [(Construct.sequence [(T "await"), (NT "UnaryExpression")])]

def es2025_ClassDeclaration : Construct :=
  Construct.diagram [
    (Construct.choice 0 [
      (Construct.sequence [(T "class"), (NT "BindingIdentifier"), (NT "ClassTail")]),
      (Construct.sequence [(T "class"), (NT "ClassTail")])])]

def es2025_ClassExpression : Construct :=
  Construct.diagram [
    (Construct.sequence [(T "class"), (Construct.optional (NT "BindingIdentifier")), (NT "ClassTail")])]

def es2025_ClassTail : Construct :=
  Construct.diagram [
    (Construct.sequence [
      (Construct.optional (NT "ClassHeritage")),
      (T "\x7b"),
      (Construct.optional (NT "ClassBody")),
      (T "\x7d")])]

def es2025_ClassHeritage : Construct :=
  Construct.diagram [(Construct.sequence [(T "extends"), (NT "LeftHandSideExpression")])]

def es2025_ClassBody : Construct :=
  Construct.diagram [(NT "ClassElementList")]

def es2025_ClassElementList : Construct :=
  Construct.diagram [(Construct.oneOrMore (NT "ClassElement") Option.none)]

def es2025_ClassElement : Construct :=
  Construct.diagram [
    (Construct.choice 0 [
      (NT "MethodDefinition"),
      (Construct.sequence [(T "static"), (NT "MethodDefinition")]),
      (Construct.sequence [(NT "FieldDefinition"), (T ";")]),
      (Construct.sequence [(T "static"), (NT "FieldDefinition"), (T ";")]),
      (NT "ClassStaticBlock"),
      (T ";")])]

def es2025_FieldDefinition : Construct :=
  Construct.diagram [
    (Construct.sequence [(NT "ClassElementName"), (Construct.optional (NT "Initializer"))])]

def es2025_ClassElementName : Construct :=
  Construct.diagram [(Construct.choice 0 [(NT "PropertyName"), (NT "PrivateIdentifier")])]

def es2025_ClassStaticBlock : Construct :=
  Construct.diagram [
    (Construct.sequence [(T "static"), (T "\x7b"), (NT "ClassStaticBlockBody"), (T "\x7d")])]

def es2025_ClassStaticBlockBody : Construct :=
  Construct.diagram [(NT "ClassStaticBlockStatementList")]

def es2025_ClassStaticBlockStatementList : Construct :=
  Construct.diagram [(Construct.optional (NT "StatementList"))]

def es2025_Script : Construct :=
  Construct.diagram [(Construct.optional (NT "ScriptBody"))]

def es2025_ScriptBody : Construct :=
  Construct.diagram [(NT "StatementList")]

def es2025_Module : Construct :=
  Construct.diagram [(Construct.optional (NT "ModuleBody"))]

def es2025_ModuleBody : Construct :=
  Construct.diagram [(NT "ModuleItemList")]

def es2025_ModuleItemList : Construct :=
  Construct.diagram [(Construct.oneOrMore (NT "ModuleItem") Option.none)]

def es2025_ModuleItem : Construct :=
  Construct.diagram [
    (Construct.choice 0 [(NT "ImportDeclaration"), (NT "ExportDeclaration"), (NT "StatementListItem")])]

def es2025_ModuleExportName : Construct :=
  Construct.diagram [(Construct.choice 0 [(NT "IdentifierName"), (NT "StringLiteral")])]

def es2025_ImportDeclaration : Construct :=
  Construct.diagram [
    (Construct.choice 0 [
      (Construct.sequence [
        (T "import"),
        (NT "ImportClause"),
        (NT "FromClause"),
        (Construct.optional (NT "WithClause")),
        (T ";")]),
      (Construct.sequence [
        (T "import"),
        (NT "ModuleSpecifier"),
        (Construct.optional (NT "WithClause")),
        (T ";")])])]

def es2025_ImportClause : Construct :=
  Construct.diagram [
    (Construct.choice 0 [
      (NT "ImportedDefaultBinding"),
      (NT "NameSpaceImport"),
      (NT "NamedImports"),
      (Construct.sequence [(NT "ImportedDefaultBinding"), (T ","), (NT "NameSpaceImport")]),
      (Construct.sequence [(NT "ImportedDefaultBinding"), (T ","), (NT "NamedImports")])])]

def es2025_ImportedDefaultBinding : Construct :=
  Construct.diagram [(NT "ImportedBinding")]

def es2025_NameSpaceImport : Construct :=
  Construct.diagram [(Construct.sequence [(T "*"), (T "as"), (NT "ImportedBinding")])]

def es2025_NamedImports : Construct :=
  Construct.diagram [
    (Construct.choice 0 [
      (Construct.sequence [(T "\x7b"), (T "\x7d")]),
      (Construct.sequence [(T "\x7b"), (NT "ImportsList"), (T "\x7d")]),
      (Construct.sequence [(T "\x7b"), (NT "ImportsList"), (T ","), (T "\x7d")])])]

def es2025_FromClause : Construct :=
  Construct.diagram [(Construct.sequence [(T "from"), (NT "ModuleSpecifier")])]

def es2025_ImportsList : Construct :=
  Construct.diagram [
    (Construct.sequence [
      (NT "ImportSpecifier"),
      (Construct.zeroOrMore (Construct.sequence [(T ","), (NT "ImportSpecifier")]) Option.none)])]

def es2025_ImportSpecifier : Construct :=
  Construct.diagram [
    (Construct.choice 0 [
      (NT "ImportedBinding"),
      (Construct.sequence [(NT "ModuleExportName"), (T "as"), (NT "ImportedBinding")])])]

def es2025_ModuleSpecifier : Construct :=
  Construct.diagram [(NT "StringLiteral")]

def es2025_ImportedBinding : Construct :=
  Construct.diagram [(NT "BindingIdentifier")]

def es2025_WithClause : Construct :=
  Construct.diagram [
    (Construct.choice 0 [
      (Construct.sequence [(T "with"), (T "\x7b"), (T "\x7d")]),
      (Construct.sequence [
        (T "with"),
        (T "\x7b"),
        (NT "WithEntries"),
        (Construct.optional (T ",")),
        (T "\x7d")])])]

def es2025_WithEntries : Construct :=
  Construct.diagram [
    (Construct.sequence [
      (NT "AttributeKey"),
      (T ":"),
      (NT "StringLiteral"),
      (Construct.zeroOrMore (Construct.sequence [(T ","), (NT "AttributeKey"), (T ":"), (NT "StringLiteral")]) Option.none)])]

def es2025_AttributeKey : Construct :=
  Construct.diagram [(Construct.choice 0 [(NT "IdentifierName"), (NT "StringLiteral")])]

def es2025_ExportDeclaration : Construct :=
  Construct.diagram [
    (Construct.choice 0 [
      (Construct.sequence [
        (T "export"),
        (NT "ExportFromClause"),
        (NT "FromClause"),
        (Construct.optional (NT "WithClause")),
        (T ";")]),
      (Construct.sequence [(T "export"), (NT "NamedExports"), (T ";")]),
      (Construct.sequence [(T "export"), (NT "VariableStatement")]),
      (Construct.sequence [(T "export"), (NT "Declaration")]),
      (Construct.sequence [(T "export"), (T "default"), (NT "HoistableDeclaration")]),
      (Construct.sequence [(T "export"), (T "default"), (NT "ClassDeclaration")]),
      (Construct.sequence [
        (T "export"),
        (T "default"),
        (Construct.comment "[lookahead ∉ \x7bfunction, async function, class\x7d]"),
        (NT "AssignmentExpression"),
        (T ";")])])]

def es2025_ExportFromClause : Construct :=
  Construct.diagram [
    (Construct.choice 0 [
      (T "*"),
      (Construct.sequence [(T "*"), (T "as"), (NT "ModuleExportName")]),
      (NT "NamedExports")])]

def es2025_NamedExports : Construct :=
  Construct.diagram [
    (Construct.choice 0 [
      (Construct.sequence [(T "\x7b"), (T "\x7d")]),
      (Construct.sequence [(T "\x7b"), (NT "ExportsList"), (T "\x7d")]),
      (Construct.sequence [(T "\x7b"), (NT "ExportsList"), (T ","), (T "\x7d")])])]

def es2025_ExportsList : Construct :=
  Construct.diagram [
    (Construct.sequence [
      (NT "ExportSpecifier"),
      (Construct.zeroOrMore (Construct.sequence [(T ","), (NT "ExportSpecifier")]) Option.none)])]

def es2025_ExportSpecifier : Construct :=
  Construct.diagram [
    (Construct.choice 0 [
      (NT "ModuleExportName"),
      (Construct.sequence [(NT "ModuleExportName"), (T "as"), (NT "ModuleExportName")])])]

/-- The map `rules` of es2025Grammar.ts: insertion-ordered (name, production) entries. -/
def es2025Rules : List (String × Construct) := [
  ("SourceCharacter", es2025_SourceCharacter),
  ("InputElementDiv", es2025_InputElementDiv),
  ("InputElementRegExp", es2025_InputElementRegExp),
  ("InputElementRegExpOrTemplateTail", es2025_InputElementRegExpOrTemplateTail),
  ("InputElementTemplateTail", es2025_InputElementTemplateTail),
  ("WhiteSpace", es2025_WhiteSpace),
  ("LineTerminator", es2025_LineTerminator),
  ("LineTerminatorSequence", es2025_LineTerminatorSequence),
  ("Comment", es2025_Comment),
  ("MultiLineComment", es2025_MultiLineComment),
  ("SingleLineComment", es2025_SingleLineComment),
  ("HashbangComment", es2025_HashbangComment),
  ("CommonToken", es2025_CommonToken),
  ("PrivateIdentifier", es2025_PrivateIdentifier),
  ("IdentifierName", es2025_IdentifierName),
  ("IdentifierStart", es2025_IdentifierStart),
  ("IdentifierPart", es2025_IdentifierPart),
  ("IdentifierStartChar", es2025_IdentifierStartChar),
  ("IdentifierPartChar", es2025_IdentifierPartChar),
  ("UnicodeIDStart", es2025_UnicodeIDStart),
  ("UnicodeIDContinue", es2025_UnicodeIDContinue),
  ("ReservedWord", es2025_ReservedWord),
  ("Punctuator", es2025_Punctuator),
  ("OptionalChainingPunctuator", es2025_OptionalChainingPunctuator),
  ("DivPunctuator", es2025_DivPunctuator),
  ("RightBracePunctuator", es2025_RightBracePunctuator),
  ("NullLiteral", es2025_NullLiteral),
  ("BooleanLiteral", es2025_BooleanLiteral),
  ("NumericLiteral", es2025_NumericLiteral),
  ("DecimalLiteral", es2025_DecimalLiteral),
  ("DecimalIntegerLiteral", es2025_DecimalIntegerLiteral),
  ("DecimalDigits", es2025_DecimalDigits),
  ("DecimalDigit", es2025_DecimalDigit),
  ("NonZeroDigit", es2025_NonZeroDigit),
  ("NumericLiteralSeparator", es2025_NumericLiteralSeparator),
  ("ExponentPart", es2025_ExponentPart),
  ("ExponentIndicator", es2025_ExponentIndicator),
  ("SignedInteger", es2025_SignedInteger),
  ("BigIntLiteralSuffix", es2025_BigIntLiteralSuffix),
  ("DecimalBigIntegerLiteral", es2025_DecimalBigIntegerLiteral),
  ("NonDecimalIntegerLiteral", es2025_NonDecimalIntegerLiteral),
  ("BinaryIntegerLiteral", es2025_BinaryIntegerLiteral),
  ("BinaryDigits", es2025_BinaryDigits),
  ("BinaryDigit", es2025_BinaryDigit),
  ("OctalIntegerLiteral", es2025_OctalIntegerLiteral),
  ("OctalDigits", es2025_OctalDigits),
  ("OctalDigit", es2025_OctalDigit),
  ("HexIntegerLiteral", es2025_HexIntegerLiteral),
  ("HexDigits", es2025_HexDigits),
  ("HexDigit", es2025_HexDigit),
  ("LegacyOctalIntegerLiteral", es2025_LegacyOctalIntegerLiteral),
  ("StringLiteral", es2025_StringLiteral),
  ("DoubleStringCharacters", es2025_DoubleStringCharacters),
  ("SingleStringCharacters", es2025_SingleStringCharacters),
  ("DoubleStringCharacter", es2025_DoubleStringCharacter),
  ("SingleStringCharacter", es2025_SingleStringCharacter),
  ("LineContinuation", es2025_LineContinuation),
  ("EscapeSequence", es2025_EscapeSequence),
  ("CharacterEscapeSequence", es2025_CharacterEscapeSequence),
  ("SingleEscapeCharacter", es2025_SingleEscapeCharacter),
  ("HexEscapeSequence", es2025_HexEscapeSequence),
  ("UnicodeEscapeSequence", es2025_UnicodeEscapeSequence),
  ("Hex4Digits", es2025_Hex4Digits),
  ("RegularExpressionLiteral", es2025_RegularExpressionLiteral),
  ("RegularExpressionBody", es2025_RegularExpressionBody),
  ("RegularExpressionChars", es2025_RegularExpressionChars),
  ("RegularExpressionFlags", es2025_RegularExpressionFlags),
  ("Template", es2025_Template),
  ("NoSubstitutionTemplate", es2025_NoSubstitutionTemplate),
  ("TemplateHead", es2025_TemplateHead),
  ("TemplateSubstitutionTail", es2025_TemplateSubstitutionTail),
  ("TemplateMiddle", es2025_TemplateMiddle),
  ("TemplateTail", es2025_TemplateTail),
  ("TemplateCharacters", es2025_TemplateCharacters),
  ("IdentifierReference", es2025_IdentifierReference),
  ("BindingIdentifier", es2025_BindingIdentifier),
  ("LabelIdentifier", es2025_LabelIdentifier),
  ("Identifier", es2025_Identifier),
  ("PrimaryExpression", es2025_PrimaryExpression),
  ("CoverParenthesizedExpressionAndArrowParameterList", es2025_CoverParenthesizedExpressionAndArrowParameterList),
  ("ParenthesizedExpression", es2025_ParenthesizedExpression),
  ("Literal", es2025_Literal),
  ("ArrayLiteral", es2025_ArrayLiteral),
  ("ElementList", es2025_ElementList),
  ("Elision", es2025_Elision),
  ("SpreadElement", es2025_SpreadElement),
  ("ObjectLiteral", es2025_ObjectLiteral),
  ("PropertyDefinitionList", es2025_PropertyDefinitionList),
  ("PropertyDefinition", es2025_PropertyDefinition),
  ("PropertyName", es2025_PropertyName),
  ("LiteralPropertyName", es2025_LiteralPropertyName),
  ("ComputedPropertyName", es2025_ComputedPropertyName),
  ("CoverInitializedName", es2025_CoverInitializedName),
  ("Initializer", es2025_Initializer),
  ("TemplateLiteral", es2025_TemplateLiteral),
  ("SubstitutionTemplate", es2025_SubstitutionTemplate),
  ("TemplateSpans", es2025_TemplateSpans),
  ("TemplateMiddleList", es2025_TemplateMiddleList),
  ("MemberExpression", es2025_MemberExpression),
  ("SuperProperty", es2025_SuperProperty),
  ("MetaProperty", es2025_MetaProperty),
  ("NewTarget", es2025_NewTarget),
  ("ImportMeta", es2025_ImportMeta),
  ("NewExpression", es2025_NewExpression),
  ("CallExpression", es2025_CallExpression),
  ("SuperCall", es2025_SuperCall),
  ("ImportCall", es2025_ImportCall),
  ("Arguments", es2025_Arguments),
  ("ArgumentList", es2025_ArgumentList),
  ("OptionalExpression", es2025_OptionalExpression),
  ("OptionalChain", es2025_OptionalChain),
  ("LeftHandSideExpression", es2025_LeftHandSideExpression),
  ("UpdateExpression", es2025_UpdateExpression),
  ("UnaryExpression", es2025_UnaryExpression),
  ("ExponentiationExpression", es2025_ExponentiationExpression),
  ("MultiplicativeExpression", es2025_MultiplicativeExpression),
  ("MultiplicativeOperator", es2025_MultiplicativeOperator),
  ("AdditiveExpression", es2025_AdditiveExpression),
  ("ShiftExpression", es2025_ShiftExpression),
  ("RelationalExpression", es2025_RelationalExpression),
  ("EqualityExpression", es2025_EqualityExpression),
  ("BitwiseANDExpression", es2025_BitwiseANDExpression),
  ("BitwiseXORExpression", es2025_BitwiseXORExpression),
  ("BitwiseORExpression", es2025_BitwiseORExpression),
  ("LogicalANDExpression", es2025_LogicalANDExpression),
  ("LogicalORExpression", es2025_LogicalORExpression),
  ("CoalesceExpression", es2025_CoalesceExpression),
  ("CoalesceExpressionHead", es2025_CoalesceExpressionHead),
  ("ShortCircuitExpression", es2025_ShortCircuitExpression),
  ("ConditionalExpression", es2025_ConditionalExpression),
  ("AssignmentExpression", es2025_AssignmentExpression),
  ("AssignmentOperator", es2025_AssignmentOperator),
  ("AssignmentPattern", es2025_AssignmentPattern),
  ("ObjectAssignmentPattern", es2025_ObjectAssignmentPattern),
  ("ArrayAssignmentPattern", es2025_ArrayAssignmentPattern),
  ("Expression", es2025_Expression),
  ("Statement", es2025_Statement),
  ("Declaration", es2025_Declaration),
  ("HoistableDeclaration", es2025_HoistableDeclaration),
  ("BreakableStatement", es2025_BreakableStatement),
  ("BlockStatement", es2025_BlockStatement),
  ("Block", es2025_Block),
  ("StatementList", es2025_StatementList),
  ("StatementListItem", es2025_StatementListItem),
  ("LexicalDeclaration", es2025_LexicalDeclaration),
  ("LetOrConst", es2025_LetOrConst),
  ("BindingList", es2025_BindingList),
  ("LexicalBinding", es2025_LexicalBinding),
  ("VariableStatement", es2025_VariableStatement),
  ("VariableDeclarationList", es2025_VariableDeclarationList),
  ("VariableDeclaration", es2025_VariableDeclaration),
  ("BindingPattern", es2025_BindingPattern),
  ("ObjectBindingPattern", es2025_ObjectBindingPattern),
  ("ArrayBindingPattern", es2025_ArrayBindingPattern),
  ("BindingRestProperty", es2025_BindingRestProperty),
  ("BindingPropertyList", es2025_BindingPropertyList),
  ("BindingElementList", es2025_BindingElementList),
  ("BindingElisionElement", es2025_BindingElisionElement),
  ("BindingProperty", es2025_BindingProperty),
  ("BindingElement", es2025_BindingElement),
  ("SingleNameBinding", es2025_SingleNameBinding),
  ("BindingRestElement", es2025_BindingRestElement),
  ("EmptyStatement", es2025_EmptyStatement),
  ("ExpressionStatement", es2025_ExpressionStatement),
  ("IfStatement", es2025_IfStatement),
  ("IterationStatement", es2025_IterationStatement),
  ("DoWhileStatement", es2025_DoWhileStatement),
  ("WhileStatement", es2025_WhileStatement),
  ("ForStatement", es2025_ForStatement),
  ("ForInOfStatement", es2025_ForInOfStatement),
  ("ForDeclaration", es2025_ForDeclaration),
  ("ForBinding", es2025_ForBinding),
  ("ContinueStatement", es2025_ContinueStatement),
  ("BreakStatement", es2025_BreakStatement),
  ("ReturnStatement", es2025_ReturnStatement),
  ("WithStatement", es2025_WithStatement),
  ("SwitchStatement", es2025_SwitchStatement),
  ("CaseBlock", es2025_CaseBlock),
  ("CaseClauses", es2025_CaseClauses),
  ("CaseClause", es2025_CaseClause),
  ("DefaultClause", es2025_DefaultClause),
  ("LabelledStatement", es2025_LabelledStatement),
  ("LabelledItem", es2025_LabelledItem),
  ("ThrowStatement", es2025_ThrowStatement),
  ("TryStatement", es2025_TryStatement),
  ("Catch", es2025_Catch),
  ("Finally", es2025_Finally),
  ("CatchParameter", es2025_CatchParameter),
  ("DebuggerStatement", es2025_DebuggerStatement),
  ("UniqueFormalParameters", es2025_UniqueFormalParameters),
  ("FormalParameters", es2025_FormalParameters),
  ("FormalParameterList", es2025_FormalParameterList),
  ("FunctionRestParameter", es2025_FunctionRestParameter),
  ("FormalParameter", es2025_FormalParameter),
  ("FunctionDeclaration", es2025_FunctionDeclaration),
  ("FunctionExpression", es2025_FunctionExpression),
  ("FunctionBody", es2025_FunctionBody),
  ("FunctionStatementList", es2025_FunctionStatementList),
  ("ArrowFunction", es2025_ArrowFunction),
  ("ArrowParameters", es2025_ArrowParameters),
  ("ConciseBody", es2025_ConciseBody),
  ("ExpressionBody", es2025_ExpressionBody),
  ("ArrowFormalParameters", es2025_ArrowFormalParameters),
  ("AsyncArrowFunction", es2025_AsyncArrowFunction),
  ("AsyncConciseBody", es2025_AsyncConciseBody),
  ("AsyncArrowBindingIdentifier", es2025_AsyncArrowBindingIdentifier),
  ("CoverCallExpressionAndAsyncArrowHead", es2025_CoverCallExpressionAndAsyncArrowHead),
  ("AsyncArrowHead", es2025_AsyncArrowHead),
  ("MethodDefinition", es2025_MethodDefinition),
  ("PropertySetParameterList", es2025_PropertySetParameterList),
  ("GeneratorDeclaration", es2025_GeneratorDeclaration),
  ("GeneratorExpression", es2025_GeneratorExpression),
  ("GeneratorMethod", es2025_GeneratorMethod),
  ("GeneratorBody", es2025_GeneratorBody),
  ("YieldExpression", es2025_YieldExpression),
  ("AsyncGeneratorDeclaration", es2025_AsyncGeneratorDeclaration),
  ("AsyncGeneratorExpression", es2025_AsyncGeneratorExpression),
  ("AsyncGeneratorMethod", es2025_AsyncGeneratorMethod),
  ("AsyncGeneratorBody", es2025_AsyncGeneratorBody),
  ("AsyncFunctionDeclaration", es2025_AsyncFunctionDeclaration),
  ("AsyncFunctionExpression", es2025_AsyncFunctionExpression),
  ("AsyncMethod", es2025_AsyncMethod),
  ("AsyncFunctionBody", es2025_AsyncFunctionBody),
  ("AwaitExpression", es2025_AwaitExpression),
  ("ClassDeclaration", es2025_ClassDeclaration),
  ("ClassExpression", es2025_ClassExpression),
  ("ClassTail", es2025_ClassTail),
  ("ClassHeritage", es2025_ClassHeritage),
  ("ClassBody", es2025_ClassBody),
  ("ClassElementList", es2025_ClassElementList),
  ("ClassElement", es2025_ClassElement),
  ("FieldDefinition", es2025_FieldDefinition),
  ("ClassElementName", es2025_ClassElementName),
  ("ClassStaticBlock", es2025_ClassStaticBlock),
  ("ClassStaticBlockBody", es2025_ClassStaticBlockBody),
  ("ClassStaticBlockStatementList", es2025_ClassStaticBlockStatementList),
  ("Script", es2025_Script),
  ("ScriptBody", es2025_ScriptBody),
  ("Module", es2025_Module),
  ("ModuleBody", es2025_ModuleBody),
  ("ModuleItemList", es2025_ModuleItemList),
  ("ModuleItem", es2025_ModuleItem),
  ("ModuleExportName", es2025_ModuleExportName),
  ("ImportDeclaration", es2025_ImportDeclaration),
  ("ImportClause", es2025_ImportClause),
  ("ImportedDefaultBinding", es2025_ImportedDefaultBinding),
  ("NameSpaceImport", es2025_NameSpaceImport),
  ("NamedImports", es2025_NamedImports),
  ("FromClause", es2025_FromClause),
  ("ImportsList", es2025_ImportsList),
  ("ImportSpecifier", es2025_ImportSpecifier),
  ("ModuleSpecifier", es2025_ModuleSpecifier),
  ("ImportedBinding", es2025_ImportedBinding),
  ("WithClause", es2025_WithClause),
  ("WithEntries", es2025_WithEntries),
  ("AttributeKey", es2025_AttributeKey),
  ("ExportDeclaration", es2025_ExportDeclaration),
  ("ExportFromClause", es2025_ExportFromClause),
  ("NamedExports", es2025_NamedExports),
  ("ExportsList", es2025_ExportsList),
  ("ExportSpecifier", es2025_ExportSpecifier)]

-- ES5.1 grammar rule bodies (from js-syntax-diagrams.ts, rules.set calls in order)

def es51_SourceCharacter : Construct :=
  Construct.diagram [(Construct.comment "any Unicode code unit")]

def es51_InputElementDiv : Construct :=
  Construct.diagram [
    (Construct.choice 0 [
      (NT "WhiteSpace"),
      (NT "LineTerminator"),
      (NT "Comment"),
      (NT "Token"),
      (NT "DivPunctuator")])]

def es51_InputElementRegExp : Construct :=
  Construct.diagram [
    (Construct.choice 0 [
      (NT "WhiteSpace"),
      (NT "LineTerminator"),
      (NT "Comment"),
      (NT "Token"),
      (NT "RegularExpressionLiteral")])]

def es51_WhiteSpace : Construct :=
  Construct.diagram [
    (Construct.choice 0 [
      (T "<TAB>"),
      (T "<VT>"),
      (T "<FF>"),
      (T "<SP>"),
      (T "<NBSP>"),
      (T "<BOM>"),
      (T "<USP>")])]

def es51_LineTerminator : Construct :=
  Construct.diagram [(Construct.choice 0 [(T "<LF>"), (T "<CR>"), (T "<LS>"), (T "<PS>")])]

def es51_LineTerminatorSequence : Construct :=
  Construct.diagram [
    (Construct.choice 0 [
      (T "<LF>"),
      (Construct.sequence [(T "<CR>"), (Construct.comment "lookahead ∉ <LF>")]),
      (T "<LS>"),
      (T "<PS>"),
      (Construct.sequence [(T "<CR>"), (T "<LF>")])])]

def es51_Comment : Construct :=
  Construct.diagram [(Construct.choice 0 [(NT "MultiLineComment"), (NT "SingleLineComment")])]

def es51_MultiLineComment : Construct :=
  Construct.diagram [
    (Construct.sequence [(T "/*"), (Construct.optional (NT "MultiLineCommentChars")), (T "*/")])]

def es51_MultiLineCommentChars : Construct :=
  Construct.diagram [
    (Construct.choice 0 [
      (Construct.sequence [
        (NT "MultiLineNotAsteriskChar"),
        (Construct.optional (NT "MultiLineCommentChars"))]),
      (Construct.sequence [(T "*"), (Construct.optional (NT "PostAsteriskCommentChars"))])])]

def es51_PostAsteriskCommentChars : Construct :=
  Construct.diagram [
    (Construct.choice 0 [
      (Construct.sequence [
        (NT "MultiLineNotForwardSlashOrAsteriskChar"),
        (Construct.optional (NT "MultiLineCommentChars"))]),
      (Construct.sequence [(T "*"), (Construct.optional (NT "PostAsteriskCommentChars"))])])]

def es51_MultiLineNotAsteriskChar : Construct :=
  Construct.diagram [(Construct.sequence [(NT "SourceCharacter"), (Construct.comment "but not *")])]

def es51_MultiLineNotForwardSlashOrAsteriskChar : Construct :=
  Construct.diagram [(Construct.sequence [(NT "SourceCharacter"), (Construct.comment "but not / or *")])]

def es51_SingleLineComment : Construct :=
  Construct.diagram [(Construct.sequence [(T "//"), (Construct.optional (NT "SingleLineCommentChars"))])]

def es51_SingleLineCommentChars : Construct :=
  Construct.diagram [
    (Construct.sequence [(NT "SingleLineCommentChar"), (Construct.optional (NT "SingleLineCommentChars"))])]

def es51_SingleLineCommentChar : Construct :=
  Construct.diagram [
    (Construct.sequence [(NT "SourceCharacter"), (Construct.comment "but not LineTerminator")])]

def es51_Token : Construct :=
  Construct.diagram [
    (Construct.choice 0 [
      (NT "IdentifierName"),
      (NT "Punctuator"),
      (NT "NumericLiteral"),
      (NT "StringLiteral")])]

def es51_Identifier : Construct :=
  Construct.diagram [
    (Construct.sequence [(NT "IdentifierName"), (Construct.comment "but not ReservedWord")])]

def es51_IdentifierName : Construct :=
  Construct.diagram [
    (Construct.sequence [(NT "IdentifierStart"), (Construct.zeroOrMore (NT "IdentifierPart") Option.none)])]

def es51_IdentifierStart : Construct :=
  Construct.diagram [
    (Construct.choice 0 [
      (NT "UnicodeLetter"),
      (T "$"),
      (T "_"),
      (Construct.sequence [(T "\\"), (NT "UnicodeEscapeSequence")])])]

def es51_IdentifierPart : Construct :=
  Construct.diagram [
    (Construct.choice 0 [
      (NT "IdentifierStart"),
      (NT "UnicodeCombiningMark"),
      (NT "UnicodeDigit"),
      (NT "UnicodeConnectorPunctuation"),
      (T "<ZWNJ>"),
      (T "<ZWJ>")])]

def es51_UnicodeLetter : Construct :=
  Construct.diagram [(Construct.comment "Unicode categories Lu, Ll, Lt, Lm, Lo, or Nl")]

def es51_UnicodeCombiningMark : Construct :=
  Construct.diagram [(Construct.comment "Unicode categories Mn or Mc")]

def es51_UnicodeDigit : Construct :=
  Construct.diagram [(Construct.comment "Unicode category Nd")]

def es51_UnicodeConnectorPunctuation : Construct :=
  Construct.diagram [(Construct.comment "Unicode category Pc")]

def es51_ReservedWord : Construct :=
  Construct.diagram [
    (Construct.choice 0 [
      (NT "Keyword"),
      (NT "FutureReservedWord"),
      (NT "NullLiteral"),
      (NT "BooleanLiteral")])]

def es51_Keyword : Construct :=
  Construct.diagram [
    (Construct.choice 0 [
      (T "break"),
      (T "do"),
      (T "instanceof"),
      (T "typeof"),
      (T "case"),
      (T "else"),
      (T "new"),
      (T "var"),
      (T "catch"),
      (T "finally"),
      (T "return"),
      (T "void"),
      (T "continue"),
      (T "for"),
      (T "switch"),
      (T "while"),
      (T "debugger"),
      (T "function"),
      (T "this"),
      (T "with"),
      (T "default"),
      (T "if"),
      (T "throw"),
      (T "delete"),
      (T "in"),
      (T "try")])]

def es51_FutureReservedWord : Construct :=
  Construct.diagram [
    (Construct.choice 0 [
      (Construct.comment "Normal mode:"),
      (T "class"),
      (T "enum"),
      (T "extends"),
      (T "super"),
      (T "const"),
      (T "export"),
      (T "import"),
      (Construct.comment "Strict mode additions:"),
      (T "implements"),
      (T "let"),
      (T "private"),
      (T "public"),
      (T "interface"),
      (T "package"),
      (T "protected"),
      (T "static"),
      (T "yield")])]

def es51_Punctuator : Construct :=
  Construct.diagram [
    (Construct.choice 0 [
      (T "\x7b"),
      (T "\x7d"),
      (T "("),
      (T ")"),
      (T "["),
      (T "]"),
      (T "."),
      (T ";"),
      (T ","),
      (T "<"),
      (T ">"),
      (T "<="),
      (T ">="),
      (T "=="),
      (T "!="),
      (T "==="),
      (T "!=="),
      (T "+"),
      (T "-"),
      (T "*"),
      (T "%"),
      (T "++"),
      (T "--"),
      (T "<<"),
      (T ">>"),
      (T ">>>"),
      (T "&"),
      (T "|"),
      (T "^"),
      (T "!"),
      (T "~"),
      (T "&&"),
      (T "||"),
      (T "?"),
      (T ":"),
      (T "="),
      (T "+="),
      (T "-="),
      (T "*="),
      (T "%="),
      (T "<<="),
      (T ">>="),
      (T ">>>="),
      (T "&="),
      (T "|="),
      (T "^=")])]

def es51_DivPunctuator : Construct :=
  Construct.diagram [(Construct.choice 0 [(T "/"), (T "/=")])]

def es51_Literal : Construct :=
  Construct.diagram [
    (Construct.choice 0 [
      (NT "NullLiteral"),
      (NT "BooleanLiteral"),
      (NT "NumericLiteral"),
      (NT "StringLiteral"),
      (NT "RegularExpressionLiteral")])]

def es51_NullLiteral : Construct :=
  Construct.diagram [(T "null")]

def es51_BooleanLiteral : Construct :=
  Construct.diagram [(Construct.choice 0 [(T "true"), (T "false")])]

def es51_NumericLiteral : Construct :=
  Construct.diagram [(Construct.choice 0 [(NT "DecimalLiteral"), (NT "HexIntegerLiteral")])]

def es51_DecimalLiteral : Construct :=
  Construct.diagram [
    (Construct.choice 0 [
      (Construct.sequence [
        (NT "DecimalIntegerLiteral"),
        (T "."),
        (Construct.optional (NT "DecimalDigits")),
        (Construct.optional (NT "ExponentPart"))]),
      (Construct.sequence [(T "."), (NT "DecimalDigits"), (Construct.optional (NT "ExponentPart"))]),
      (Construct.sequence [(NT "DecimalIntegerLiteral"), (Construct.optional (NT "ExponentPart"))])])]

def es51_DecimalIntegerLiteral : Construct :=
  Construct.diagram [
    (Construct.choice 0 [
      (T "0"),
      (Construct.sequence [(NT "NonZeroDigit"), (Construct.optional (NT "DecimalDigits"))])])]

def es51_DecimalDigits : Construct :=
  Construct.diagram [(Construct.oneOrMore (NT "DecimalDigit") Option.none)]

def es51_DecimalDigit : Construct :=
  Construct.diagram [
    (Construct.choice 0 [
      (T "0"),
      (T "1"),
      (T "2"),
      (T "3"),
      (T "4"),
      (T "5"),
      (T "6"),
      (T "7"),
      (T "8"),
      (T "9")])]

def es51_NonZeroDigit : Construct :=
  Construct.diagram [
    (Construct.choice 0 [(T "1"), (T "2"), (T "3"), (T "4"), (T "5"), (T "6"), (T "7"), (T "8"), (T "9")])]

def es51_ExponentPart : Construct :=
  Construct.diagram [(Construct.sequence [(NT "ExponentIndicator"), (NT "SignedInteger")])]

def es51_ExponentIndicator : Construct :=
  Construct.diagram [(Construct.choice 0 [(T "e"), (T "E")])]

def es51_SignedInteger : Construct :=
  Construct.diagram [
    (Construct.choice 0 [
      (NT "DecimalDigits"),
      (Construct.sequence [(T "+"), (NT "DecimalDigits")]),
      (Construct.sequence [(T "-"), (NT "DecimalDigits")])])]

def es51_HexIntegerLiteral : Construct :=
  Construct.diagram [
    (Construct.sequence [
      (Construct.choice 0 [(T "0x"), (T "0X")]),
      (Construct.oneOrMore (NT "HexDigit") Option.none)])]

def es51_HexDigit : Construct :=
  Construct.diagram [
    (Construct.choice 0 [
      (T "0"),
      (T "1"),
      (T "2"),
      (T "3"),
      (T "4"),
      (T "5"),
      (T "6"),
      (T "7"),
      (T "8"),
      (T "9"),
      (T "a"),
      (T "b"),
      (T "c"),
      (T "d"),
      (T "e"),
      (T "f"),
      (T "A"),
      (T "B"),
      (T "C"),
      (T "D"),
      (T "E"),
      (T "F")])]

def es51_StringLiteral : Construct :=
  Construct.diagram [
    (Construct.choice 0 [
      (Construct.sequence [(T "\""), (Construct.optional (NT "DoubleStringCharacters")), (T "\"")]),
      (Construct.sequence [(T "\x27"), (Construct.optional (NT "SingleStringCharacters")), (T "\x27")])])]

def es51_DoubleStringCharacters : Construct :=
  Construct.diagram [(Construct.oneOrMore (NT "DoubleStringCharacter") Option.none)]

def es51_SingleStringCharacters : Construct :=
  Construct.diagram [(Construct.oneOrMore (NT "SingleStringCharacter") Option.none)]

def es51_DoubleStringCharacter : Construct :=
  Construct.diagram [
    (Construct.choice 0 [
      (Construct.sequence [(NT "SourceCharacter"), (Construct.comment "but not \" or \\ or LineTerminator")]),
      (Construct.sequence [(T "\\"), (NT "EscapeSequence")]),
      (NT "LineContinuation")])]

def es51_SingleStringCharacter : Construct :=
  Construct.diagram [
    (Construct.choice 0 [
      (Construct.sequence [
        (NT "SourceCharacter"),
        (Construct.comment "but not \x27 or \\ or LineTerminator")]),
      (Construct.sequence [(T "\\"), (NT "EscapeSequence")]),
      (NT "LineContinuation")])]

def es51_LineContinuation : Construct :=
  Construct.diagram [(Construct.sequence [(T "\\"), (NT "LineTerminatorSequence")])]

def es51_EscapeSequence : Construct :=
  Construct.diagram [
    (Construct.choice 0 [
      (NT "CharacterEscapeSequence"),
      (Construct.sequence [(T "0"), (Construct.comment "lookahead ∉ DecimalDigit")]),
      (NT "HexEscapeSequence"),
      (NT "UnicodeEscapeSequence")])]

def es51_CharacterEscapeSequence : Construct :=
  Construct.diagram [(Construct.choice 0 [(NT "SingleEscapeCharacter"), (NT "NonEscapeCharacter")])]

def es51_SingleEscapeCharacter : Construct :=
  Construct.diagram [
    (Construct.choice 0 [
      (T "\x27"),
      (T "\""),
      (T "\\"),
      (T "b"),
      (T "f"),
      (T "n"),
      (T "r"),
      (T "t"),
      (T "v")])]

def es51_NonEscapeCharacter : Construct :=
  Construct.diagram [
    (Construct.sequence [
      (NT "SourceCharacter"),
      (Construct.comment "but not EscapeCharacter or LineTerminator")])]

def es51_EscapeCharacter : Construct :=
  Construct.diagram [
    (Construct.choice 0 [(NT "SingleEscapeCharacter"), (NT "DecimalDigit"), (T "x"), (T "u")])]

def es51_HexEscapeSequence : Construct :=
  Construct.diagram [(Construct.sequence [(T "x"), (NT "HexDigit"), (NT "HexDigit")])]

def es51_UnicodeEscapeSequence : Construct :=
  Construct.diagram [
    (Construct.sequence [(T "u"), (NT "HexDigit"), (NT "HexDigit"), (NT "HexDigit"), (NT "HexDigit")])]

def es51_RegularExpressionLiteral : Construct :=
  Construct.diagram [
    (Construct.sequence [(T "/"), (NT "RegularExpressionBody"), (T "/"), (NT "RegularExpressionFlags")])]

def es51_RegularExpressionBody : Construct :=
  Construct.diagram [
    (Construct.sequence [(NT "RegularExpressionFirstChar"), (NT "RegularExpressionChars")])]

def es51_RegularExpressionChars : Construct :=
  Construct.diagram [(Construct.zeroOrMore (NT "RegularExpressionChar") Option.none)]

def es51_RegularExpressionFirstChar : Construct :=
  Construct.diagram [
    (Construct.choice 0 [
      (Construct.sequence [
        (NT "RegularExpressionNonTerminator"),
        (Construct.comment "but not * or \\ or / or [")]),
      (NT "RegularExpressionBackslashSequence"),
      (NT "RegularExpressionClass")])]

def es51_RegularExpressionChar : Construct :=
  Construct.diagram [
    (Construct.choice 0 [
      (Construct.sequence [
        (NT "RegularExpressionNonTerminator"),
        (Construct.comment "but not \\ or / or [")]),
      (NT "RegularExpressionBackslashSequence"),
      (NT "RegularExpressionClass")])]

def es51_RegularExpressionBackslashSequence : Construct :=
  Construct.diagram [(Construct.sequence [(T "\\"), (NT "RegularExpressionNonTerminator")])]

def es51_RegularExpressionNonTerminator : Construct :=
  Construct.diagram [
    (Construct.sequence [(NT "SourceCharacter"), (Construct.comment "but not LineTerminator")])]

def es51_RegularExpressionClass : Construct :=
  Construct.diagram [(Construct.sequence [(T "["), (NT "RegularExpressionClassChars"), (T "]")])]

def es51_RegularExpressionClassChars : Construct :=
  Construct.diagram [(Construct.zeroOrMore (NT "RegularExpressionClassChar") Option.none)]

def es51_RegularExpressionClassChar : Construct :=
  Construct.diagram [
    (Construct.choice 0 [
      (Construct.sequence [(NT "RegularExpressionNonTerminator"), (Construct.comment "but not ] or \\")]),
      (NT "RegularExpressionBackslashSequence")])]

def es51_RegularExpressionFlags : Construct :=
  Construct.diagram [(Construct.zeroOrMore (NT "IdentifierPart") Option.none)]

def es51_PrimaryExpression : Construct :=
  Construct.diagram [
    (Construct.choice 0 [
      (T "this"),
      (NT "Identifier"),
      (NT "Literal"),
      (NT "ArrayLiteral"),
      (NT "ObjectLiteral"),
      (Construct.sequence [(T "("), (NT "Expression"), (T ")")])])]

def es51_ArrayLiteral : Construct :=
  Construct.diagram [
    (Construct.choice 0 [
      (Construct.sequence [(T "["), (Construct.optional (NT "Elision")), (T "]")]),
      (Construct.sequence [(T "["), (NT "ElementList"), (T "]")]),
      (Construct.sequence [
        (T "["),
        (NT "ElementList"),
        (T ","),
        (Construct.optional (NT "Elision")),
        (T "]")])])]

def es51_ElementList : Construct :=
  Construct.diagram [
    (Construct.sequence [
      (Construct.optional (NT "Elision")),
      (NT "AssignmentExpression"),
      (Construct.zeroOrMore (Construct.sequence [(T ","), (Construct.optional (NT "Elision")), (NT "AssignmentExpression")]) Option.none)])]

def es51_Elision : Construct :=
  Construct.diagram [(Construct.oneOrMore (T ",") Option.none)]

def es51_ObjectLiteral : Construct :=
  Construct.diagram [
    (Construct.choice 0 [
      (Construct.sequence [(T "\x7b"), (T "\x7d")]),
      (Construct.sequence [(T "\x7b"), (NT "PropertyNameAndValueList"), (T "\x7d")]),
      (Construct.sequence [(T "\x7b"), (NT "PropertyNameAndValueList"), (T ","), (T "\x7d")])])]

def es51_PropertyNameAndValueList : Construct :=
  Construct.diagram [
    (Construct.sequence [
      (NT "PropertyAssignment"),
      (Construct.zeroOrMore (Construct.sequence [(T ","), (NT "PropertyAssignment")]) Option.none)])]

def es51_PropertyAssignment : Construct :=
  Construct.diagram [
    (Construct.choice 0 [
      (Construct.sequence [(NT "PropertyName"), (T ":"), (NT "AssignmentExpression")]),
      (Construct.sequence [
        (T "get"),
        (NT "PropertyName"),
        (T "("),
        (T ")"),
        (T "\x7b"),
        (NT "FunctionBody"),
        (T "\x7d")]),
      (Construct.sequence [
        (T "set"),
        (NT "PropertyName"),
        (T "("),
        (NT "PropertySetParameterList"),
        (T ")"),
        (T "\x7b"),
        (NT "FunctionBody"),
        (T "\x7d")])])]

def es51_PropertyName : Construct :=
  Construct.diagram [
    (Construct.choice 0 [(NT "IdentifierName"), (NT "StringLiteral"), (NT "NumericLiteral")])]

def es51_PropertySetParameterList : Construct :=
  Construct.diagram [(NT "Identifier")]

def es51_MemberExpression : Construct :=
  Construct.diagram [
    (Construct.sequence [
      (Construct.choice 0 [
        (NT "PrimaryExpression"),
        (NT "FunctionExpression"),
        (Construct.sequence [(T "new"), (NT "MemberExpression"), (NT "Arguments")])]),
      (Construct.zeroOrMore (Construct.choice 0 [
          (Construct.sequence [(T "["), (NT "Expression"), (T "]")]),
          (Construct.sequence [(T "."), (NT "IdentifierName")])]) Option.none)])]

def es51_NewExpression : Construct :=
  Construct.diagram [
    (Construct.choice 0 [(NT "MemberExpression"), (Construct.sequence [(T "new"), (NT "NewExpression")])])]

def es51_CallExpression : Construct :=
  Construct.diagram [
    (Construct.sequence [
      (Construct.choice 0 [
        (Construct.sequence [(NT "MemberExpression"), (NT "Arguments")]),
        (Construct.sequence [(NT "CallExpression"), (NT "Arguments")]),
        (Construct.sequence [(NT "CallExpression"), (T "["), (NT "Expression"), (T "]")]),
        (Construct.sequence [(NT "CallExpression"), (T "."), (NT "IdentifierName")])])])]

def es51_Arguments : Construct :=
  Construct.diagram [
    (Construct.choice 0 [
      (Construct.sequence [(T "("), (T ")")]),
      (Construct.sequence [(T "("), (NT "ArgumentList"), (T ")")])])]

def es51_ArgumentList : Construct :=
  Construct.diagram [
    (Construct.sequence [
      (NT "AssignmentExpression"),
      (Construct.zeroOrMore (Construct.sequence [(T ","), (NT "AssignmentExpression")]) Option.none)])]

def es51_LeftHandSideExpression : Construct :=
  Construct.diagram [(Construct.choice 0 [(NT "NewExpression"), (NT "CallExpression")])]

def es51_PostfixExpression : Construct :=
  Construct.diagram [
    (Construct.sequence [
      (NT "LeftHandSideExpression"),
      (Construct.optional (Construct.choice 0 [(T "++"), (T "--")]))])]

def es51_UnaryExpression : Construct :=
  Construct.diagram [
    (Construct.choice 0 [
      (NT "PostfixExpression"),
      (Construct.sequence [(T "delete"), (NT "UnaryExpression")]),
      (Construct.sequence [(T "void"), (NT "UnaryExpression")]),
      (Construct.sequence [(T "typeof"), (NT "UnaryExpression")]),
      (Construct.sequence [(T "++"), (NT "UnaryExpression")]),
      (Construct.sequence [(T "--"), (NT "UnaryExpression")]),
      (Construct.sequence [(T "+"), (NT "UnaryExpression")]),
      (Construct.sequence [(T "-"), (NT "UnaryExpression")]),
      (Construct.sequence [(T "~"), (NT "UnaryExpression")]),
      (Construct.sequence [(T "!"), (NT "UnaryExpression")])])]

def es51_MultiplicativeExpression : Construct :=
  Construct.diagram [(chain "UnaryExpression" ["*", "/", "%"])]

def es51_AdditiveExpression : Construct :=
  Construct.diagram [(chain "MultiplicativeExpression" ["+", "-"])]

def es51_ShiftExpression : Construct :=
  Construct.diagram [(chain "AdditiveExpression" ["<<", ">>", ">>>"])]

def es51_RelationalExpression : Construct :=
  Construct.diagram [(chain "ShiftExpression" ["<", ">", "<=", ">=", "instanceof", "in"])]

def es51_RelationalExpressionNoIn : Construct :=
  Construct.diagram [(chain "ShiftExpression" ["<", ">", "<=", ">=", "instanceof"])]

def es51_EqualityExpression : Construct :=
  Construct.diagram [(chain "RelationalExpression" ["==", "!=", "===", "!=="])]

def es51_EqualityExpressionNoIn : Construct :=
  Construct.diagram [(chain "RelationalExpressionNoIn" ["==", "!=", "===", "!=="])]

def es51_BitwiseANDExpression : Construct :=
  Construct.diagram [(chain "EqualityExpression" ["&"])]

def es51_BitwiseANDExpressionNoIn : Construct :=
  Construct.diagram [(chain "EqualityExpressionNoIn" ["&"])]

def es51_BitwiseXORExpression : Construct :=
  Construct.diagram [(chain "BitwiseANDExpression" ["^"])]

def es51_BitwiseXORExpressionNoIn : Construct :=
  Construct.diagram [(chain "BitwiseANDExpressionNoIn" ["^"])]

def es51_BitwiseORExpression : Construct :=
  Construct.diagram [(chain "BitwiseXORExpression" ["|"])]

def es51_BitwiseORExpressionNoIn : Construct :=
  Construct.diagram [(chain "BitwiseXORExpressionNoIn" ["|"])]

def es51_LogicalANDExpression : Construct :=
  Construct.diagram [(chain "BitwiseORExpression" ["&&"])]

def es51_LogicalANDExpressionNoIn : Construct :=
  Construct.diagram [(chain "BitwiseORExpressionNoIn" ["&&"])]

def es51_LogicalORExpression : Construct :=
  Construct.diagram [(chain "LogicalANDExpression" ["||"])]

def es51_LogicalORExpressionNoIn : Construct :=
  Construct.diagram [(chain "LogicalANDExpressionNoIn" ["||"])]

def es51_ConditionalExpression : Construct :=
  Construct.diagram [
    (Construct.sequence [
      (NT "LogicalORExpression"),
      (Construct.optional (Construct.sequence [(T "?"), (NT "AssignmentExpression"), (T ":"), (NT "AssignmentExpression")]))])]

def es51_ConditionalExpressionNoIn : Construct :=
  Construct.diagram [
    (Construct.sequence [
      (NT "LogicalORExpressionNoIn"),
      (Construct.optional (Construct.sequence [
          (T "?"),
          (NT "AssignmentExpressionNoIn"),
          (T ":"),
          (NT "AssignmentExpressionNoIn")]))])]

def es51_AssignmentExpression : Construct :=
  Construct.diagram [
    (Construct.choice 0 [
      (NT "ConditionalExpression"),
      (Construct.sequence [
        (NT "LeftHandSideExpression"),
        (NT "AssignmentOperator"),
        (NT "AssignmentExpression")])])]

def es51_AssignmentExpressionNoIn : Construct :=
  Construct.diagram [
    (Construct.choice 0 [
      (NT "ConditionalExpressionNoIn"),
      (Construct.sequence [
        (NT "LeftHandSideExpression"),
        (NT "AssignmentOperator"),
        (NT "AssignmentExpressionNoIn")])])]

def es51_AssignmentOperator : Construct :=
  Construct.diagram [
    (Construct.choice 0 [
      (T "="),
      (T "*="),
      (T "/="),
      (T "%="),
      (T "+="),
      (T "-="),
      (T "<<="),
      (T ">>="),
      (T ">>>="),
      (T "&="),
      (T "^="),
      (T "|=")])]

def es51_Expression : Construct :=
  Construct.diagram [
    (Construct.sequence [
      (NT "AssignmentExpression"),
      (Construct.zeroOrMore (Construct.sequence [(T ","), (NT "AssignmentExpression")]) Option.none)])]

def es51_ExpressionNoIn : Construct :=
  Construct.diagram [
    (Construct.sequence [
      (NT "AssignmentExpressionNoIn"),
      (Construct.zeroOrMore (Construct.sequence [(T ","), (NT "AssignmentExpressionNoIn")]) Option.none)])]

def es51_Statement : Construct :=
  Construct.diagram [
    (Construct.choice 0 [
      (NT "Block"),
      (NT "VariableStatement"),
      (NT "EmptyStatement"),
      (NT "ExpressionStatement"),
      (NT "IfStatement"),
      (NT "IterationStatement"),
      (NT "ContinueStatement"),
      (NT "BreakStatement"),
      (NT "ReturnStatement"),
      (NT "WithStatement"),
      (NT "LabelledStatement"),
      (NT "SwitchStatement"),
      (NT "ThrowStatement"),
      (NT "TryStatement"),
      (NT "DebuggerStatement")])]

def es51_Block : Construct :=
  Construct.diagram [
    (Construct.sequence [(T "\x7b"), (Construct.optional (NT "StatementList")), (T "\x7d")])]

def es51_StatementList : Construct :=
  Construct.diagram [(Construct.oneOrMore (NT "Statement") Option.none)]

def es51_VariableStatement : Construct :=
  Construct.diagram [(Construct.sequence [(T "var"), (NT "VariableDeclarationList"), (T ";")])]

def es51_VariableDeclarationList : Construct :=
  Construct.diagram [
    (Construct.sequence [
      (NT "VariableDeclaration"),
      (Construct.zeroOrMore (Construct.sequence [(T ","), (NT "VariableDeclaration")]) Option.none)])]

def es51_VariableDeclarationListNoIn : Construct :=
  Construct.diagram [
    (Construct.sequence [
      (NT "VariableDeclarationNoIn"),
      (Construct.zeroOrMore (Construct.sequence [(T ","), (NT "VariableDeclarationNoIn")]) Option.none)])]

def es51_VariableDeclaration : Construct :=
  Construct.diagram [(Construct.sequence [(NT "Identifier"), (Construct.optional (NT "Initialiser"))])]

def es51_VariableDeclarationNoIn : Construct :=
  Construct.diagram [
    (Construct.sequence [(NT "Identifier"), (Construct.optional (NT "InitialiserNoIn"))])]

def es51_Initialiser : Construct :=
  Construct.diagram [(Construct.sequence [(T "="), (NT "AssignmentExpression")])]

def es51_InitialiserNoIn : Construct :=
  Construct.diagram [(Construct.sequence [(T "="), (NT "AssignmentExpressionNoIn")])]

def es51_EmptyStatement : Construct :=
  Construct.diagram [(T ";")]

def es51_ExpressionStatement : Construct :=
  Construct.diagram [
    (Construct.sequence [
      (Construct.sequence [(NT "Expression"), (Construct.comment "lookahead ∉ \x7b or function")]),
      (T ";")])]

def es51_IfStatement : Construct :=
  Construct.diagram [
    (Construct.choice 0 [
      (Construct.sequence [
        (T "if"),
        (T "("),
        (NT "Expression"),
        (T ")"),
        (NT "Statement"),
        (T "else"),
        (NT "Statement")]),
      (Construct.sequence [(T "if"), (T "("), (NT "Expression"), (T ")"), (NT "Statement")])])]

def es51_IterationStatement : Construct :=
  Construct.diagram [
    (Construct.choice 0 [
      (Construct.sequence [
        (T "do"),
        (NT "Statement"),
        (T "while"),
        (T "("),
        (NT "Expression"),
        (T ")"),
        (T ";")]),
      (Construct.sequence [(T "while"), (T "("), (NT "Expression"), (T ")"), (NT "Statement")]),
      (Construct.sequence [
        (T "for"),
        (T "("),
        (Construct.optional (NT "ExpressionNoIn")),
        (T ";"),
        (Construct.optional (NT "Expression")),
        (T ";"),
        (Construct.optional (NT "Expression")),
        (T ")"),
        (NT "Statement")]),
      (Construct.sequence [
        (T "for"),
        (T "("),
        (T "var"),
        (NT "VariableDeclarationListNoIn"),
        (T ";"),
        (Construct.optional (NT "Expression")),
        (T ";"),
        (Construct.optional (NT "Expression")),
        (T ")"),
        (NT "Statement")]),
      (Construct.sequence [
        (T "for"),
        (T "("),
        (NT "LeftHandSideExpression"),
        (T "in"),
        (NT "Expression"),
        (T ")"),
        (NT "Statement")]),
      (Construct.sequence [
        (T "for"),
        (T "("),
        (T "var"),
        (NT "VariableDeclarationNoIn"),
        (T "in"),
        (NT "Expression"),
        (T ")"),
        (NT "Statement")])])]

def es51_ContinueStatement : Construct :=
  Construct.diagram [
    (Construct.choice 0 [
      (Construct.sequence [(T "continue"), (T ";")]),
      (Construct.sequence [
        (T "continue"),
        (Construct.comment "no LineTerminator"),
        (NT "Identifier"),
        (T ";")])])]

def es51_BreakStatement : Construct :=
  Construct.diagram [
    (Construct.choice 0 [
      (Construct.sequence [(T "break"), (T ";")]),
      (Construct.sequence [(T "break"), (Construct.comment "no LineTerminator"), (NT "Identifier"), (T ";")])])]

def es51_ReturnStatement : Construct :=
  Construct.diagram [
    (Construct.choice 0 [
      (Construct.sequence [(T "return"), (T ";")]),
      (Construct.sequence [
        (T "return"),
        (Construct.comment "no LineTerminator"),
        (NT "Expression"),
        (T ";")])])]

def es51_WithStatement : Construct :=
  Construct.diagram [
    (Construct.sequence [(T "with"), (T "("), (NT "Expression"), (T ")"), (NT "Statement")])]

def es51_SwitchStatement : Construct :=
  Construct.diagram [
    (Construct.sequence [(T "switch"), (T "("), (NT "Expression"), (T ")"), (NT "CaseBlock")])]

def es51_CaseBlock : Construct :=
  Construct.diagram [
    (Construct.choice 0 [
      (Construct.sequence [(T "\x7b"), (Construct.optional (NT "CaseClauses")), (T "\x7d")]),
      (Construct.sequence [
        (T "\x7b"),
        (Construct.optional (NT "CaseClauses")),
        (NT "DefaultClause"),
        (Construct.optional (NT "CaseClauses")),
        (T "\x7d")])])]

def es51_CaseClauses : Construct :=
  Construct.diagram [(Construct.oneOrMore (NT "CaseClause") Option.none)]

def es51_CaseClause : Construct :=
  Construct.diagram [
    (Construct.sequence [(T "case"), (NT "Expression"), (T ":"), (Construct.optional (NT "StatementList"))])]

def es51_DefaultClause : Construct :=
  Construct.diagram [
    (Construct.sequence [(T "default"), (T ":"), (Construct.optional (NT "StatementList"))])]

def es51_LabelledStatement : Construct :=
  Construct.diagram [(Construct.sequence [(NT "Identifier"), (T ":"), (NT "Statement")])]

def es51_ThrowStatement : Construct :=
  Construct.diagram [
    (Construct.sequence [(T "throw"), (Construct.comment "no LineTerminator"), (NT "Expression"), (T ";")])]

def es51_TryStatement : Construct :=
  Construct.diagram [
    (Construct.choice 0 [
      (Construct.sequence [(T "try"), (NT "Block"), (NT "Catch")]),
      (Construct.sequence [(T "try"), (NT "Block"), (NT "Finally")]),
      (Construct.sequence [(T "try"), (NT "Block"), (NT "Catch"), (NT "Finally")])])]

def es51_Catch : Construct :=
  Construct.diagram [
    (Construct.sequence [(T "catch"), (T "("), (NT "Identifier"), (T ")"), (NT "Block")])]

def es51_Finally : Construct :=
  Construct.diagram [(Construct.sequence [(T "finally"), (NT "Block")])]

def es51_DebuggerStatement : Construct :=
  Construct.diagram [(Construct.sequence [(T "debugger"), (T ";")])]

def es51_FunctionDeclaration : Construct :=
  Construct.diagram [
    (Construct.sequence [
      (T "function"),
      (NT "Identifier"),
      (T "("),
      (Construct.optional (NT "FormalParameterList")),
      (T ")"),
      (T "\x7b"),
      (NT "FunctionBody"),
      (T "\x7d")])]

def es51_FunctionExpression : Construct :=
  Construct.diagram [
    (Construct.sequence [
      (T "function"),
      (Construct.optional (NT "Identifier")),
      (T "("),
      (Construct.optional (NT "FormalParameterList")),
      (T ")"),
      (T "\x7b"),
      (NT "FunctionBody"),
      (T "\x7d")])]

def es51_FormalParameterList : Construct :=
  Construct.diagram [
    (Construct.sequence [
      (NT "Identifier"),
      (Construct.zeroOrMore (Construct.sequence [(T ","), (NT "Identifier")]) Option.none)])]

def es51_FunctionBody : Construct :=
  Construct.diagram [(Construct.optional (NT "SourceElements"))]

def es51_Program : Construct :=
  Construct.diagram [(Construct.optional (NT "SourceElements"))]

def es51_SourceElements : Construct :=
  Construct.diagram [(Construct.oneOrMore (NT "SourceElement") Option.none)]

def es51_SourceElement : Construct :=
  Construct.diagram [(Construct.choice 0 [(NT "Statement"), (NT "FunctionDeclaration")])]

/-- The map `rules` of js-syntax-diagrams.ts (ES5.1 edition). -/
def es51Rules : List (String × Construct) := [
  ("SourceCharacter", es51_SourceCharacter),
  ("InputElementDiv", es51_InputElementDiv),
  ("InputElementRegExp", es51_InputElementRegExp),
  ("WhiteSpace", es51_WhiteSpace),
  ("LineTerminator", es51_LineTerminator),
  ("LineTerminatorSequence", es51_LineTerminatorSequence),
  ("Comment", es51_Comment),
  ("MultiLineComment", es51_MultiLineComment),
  ("MultiLineCommentChars", es51_MultiLineCommentChars),
  ("PostAsteriskCommentChars", es51_PostAsteriskCommentChars),
  ("MultiLineNotAsteriskChar", es51_MultiLineNotAsteriskChar),
  ("MultiLineNotForwardSlashOrAsteriskChar", es51_MultiLineNotForwardSlashOrAsteriskChar),
  ("SingleLineComment", es51_SingleLineComment),
  ("SingleLineCommentChars", es51_SingleLineCommentChars),
  ("SingleLineCommentChar", es51_SingleLineCommentChar),
  ("Token", es51_Token),
  ("Identifier", es51_Identifier),
  ("IdentifierName", es51_IdentifierName),
  ("IdentifierStart", es51_IdentifierStart),
  ("IdentifierPart", es51_IdentifierPart),
  ("UnicodeLetter", es51_UnicodeLetter),
  ("UnicodeCombiningMark", es51_UnicodeCombiningMark),
  ("UnicodeDigit", es51_UnicodeDigit),
  ("UnicodeConnectorPunctuation", es51_UnicodeConnectorPunctuation),
  ("ReservedWord", es51_ReservedWord),
  ("Keyword", es51_Keyword),
  ("FutureReservedWord", es51_FutureReservedWord),
  ("Punctuator", es51_Punctuator),
  ("DivPunctuator", es51_DivPunctuator),
  ("Literal", es51_Literal),
  ("NullLiteral", es51_NullLiteral),
  ("BooleanLiteral", es51_BooleanLiteral),
  ("NumericLiteral", es51_NumericLiteral),
  ("DecimalLiteral", es51_DecimalLiteral),
  ("DecimalIntegerLiteral", es51_DecimalIntegerLiteral),
  ("DecimalDigits", es51_DecimalDigits),
  ("DecimalDigit", es51_DecimalDigit),
  ("NonZeroDigit", es51_NonZeroDigit),
  ("ExponentPart", es51_ExponentPart),
  ("ExponentIndicator", es51_ExponentIndicator),
  ("SignedInteger", es51_SignedInteger),
  ("HexIntegerLiteral", es51_HexIntegerLiteral),
  ("HexDigit", es51_HexDigit),
  ("StringLiteral", es51_StringLiteral),
  ("DoubleStringCharacters", es51_DoubleStringCharacters),
  ("SingleStringCharacters", es51_SingleStringCharacters),
  ("DoubleStringCharacter", es51_DoubleStringCharacter),
  ("SingleStringCharacter", es51_SingleStringCharacter),
  ("LineContinuation", es51_LineContinuation),
  ("EscapeSequence", es51_EscapeSequence),
  ("CharacterEscapeSequence", es51_CharacterEscapeSequence),
  ("SingleEscapeCharacter", es51_SingleEscapeCharacter),
  ("NonEscapeCharacter", es51_NonEscapeCharacter),
  ("EscapeCharacter", es51_EscapeCharacter),
  ("HexEscapeSequence", es51_HexEscapeSequence),
  ("UnicodeEscapeSequence", es51_UnicodeEscapeSequence),
  ("RegularExpressionLiteral", es51_RegularExpressionLiteral),
  ("RegularExpressionBody", es51_RegularExpressionBody),
  ("RegularExpressionChars", es51_RegularExpressionChars),
  ("RegularExpressionFirstChar", es51_RegularExpressionFirstChar),
  ("RegularExpressionChar", es51_RegularExpressionChar),
  ("RegularExpressionBackslashSequence", es51_RegularExpressionBackslashSequence),
  ("RegularExpressionNonTerminator", es51_RegularExpressionNonTerminator),
  ("RegularExpressionClass", es51_RegularExpressionClass),
  ("RegularExpressionClassChars", es51_RegularExpressionClassChars),
  ("RegularExpressionClassChar", es51_RegularExpressionClassChar),
  ("RegularExpressionFlags", es51_RegularExpressionFlags),
  ("PrimaryExpression", es51_PrimaryExpression),
  ("ArrayLiteral", es51_ArrayLiteral),
  ("ElementList", es51_ElementList),
  ("Elision", es51_Elision),
  ("ObjectLiteral", es51_ObjectLiteral),
  ("PropertyNameAndValueList", es51_PropertyNameAndValueList),
  ("PropertyAssignment", es51_PropertyAssignment),
  ("PropertyName", es51_PropertyName),
  ("PropertySetParameterList", es51_PropertySetParameterList),
  ("MemberExpression", es51_MemberExpression),
  ("NewExpression", es51_NewExpression),
  ("CallExpression", es51_CallExpression),
  ("Arguments", es51_Arguments),
  ("ArgumentList", es51_ArgumentList),
  ("LeftHandSideExpression", es51_LeftHandSideExpression),
  ("PostfixExpression", es51_PostfixExpression),
  ("UnaryExpression", es51_UnaryExpression),
  ("MultiplicativeExpression", es51_MultiplicativeExpression),
  ("AdditiveExpression", es51_AdditiveExpression),
  ("ShiftExpression", es51_ShiftExpression),
  ("RelationalExpression", es51_RelationalExpression),
  ("RelationalExpressionNoIn", es51_RelationalExpressionNoIn),
  ("EqualityExpression", es51_EqualityExpression),
  ("EqualityExpressionNoIn", es51_EqualityExpressionNoIn),
  ("BitwiseANDExpression", es51_BitwiseANDExpression),
  ("BitwiseANDExpressionNoIn", es51_BitwiseANDExpressionNoIn),
  ("BitwiseXORExpression", es51_BitwiseXORExpression),
  ("BitwiseXORExpressionNoIn", es51_BitwiseXORExpressionNoIn),
  ("BitwiseORExpression", es51_BitwiseORExpression),
  ("BitwiseORExpressionNoIn", es51_BitwiseORExpressionNoIn),
  ("LogicalANDExpression", es51_LogicalANDExpression),
  ("LogicalANDExpressionNoIn", es51_LogicalANDExpressionNoIn),
  ("LogicalORExpression", es51_LogicalORExpression),
  ("LogicalORExpressionNoIn", es51_LogicalORExpressionNoIn),
  ("ConditionalExpression", es51_ConditionalExpression),
  ("ConditionalExpressionNoIn", es51_ConditionalExpressionNoIn),
  ("AssignmentExpression", es51_AssignmentExpression),
  ("AssignmentExpressionNoIn", es51_AssignmentExpressionNoIn),
  ("AssignmentOperator", es51_AssignmentOperator),
  ("Expression", es51_Expression),
  ("ExpressionNoIn", es51_ExpressionNoIn),
  ("Statement", es51_Statement),
  ("Block", es51_Block),
  ("StatementList", es51_StatementList),
  ("VariableStatement", es51_VariableStatement),
  ("VariableDeclarationList", es51_VariableDeclarationList),
  ("VariableDeclarationListNoIn", es51_VariableDeclarationListNoIn),
  ("VariableDeclaration", es51_VariableDeclaration),
  ("VariableDeclarationNoIn", es51_VariableDeclarationNoIn),
  ("Initialiser", es51_Initialiser),
  ("InitialiserNoIn", es51_InitialiserNoIn),
  ("EmptyStatement", es51_EmptyStatement),
  ("ExpressionStatement", es51_ExpressionStatement),
  ("IfStatement", es51_IfStatement),
  ("IterationStatement", es51_IterationStatement),
  ("ContinueStatement", es51_ContinueStatement),
  ("BreakStatement", es51_BreakStatement),
  ("ReturnStatement", es51_ReturnStatement),
  ("WithStatement", es51_WithStatement),
  ("SwitchStatement", es51_SwitchStatement),
  ("CaseBlock", es51_CaseBlock),
  ("CaseClauses", es51_CaseClauses),
  ("CaseClause", es51_CaseClause),
  ("DefaultClause", es51_DefaultClause),
  ("LabelledStatement", es51_LabelledStatement),
  ("ThrowStatement", es51_ThrowStatement),
  ("TryStatement", es51_TryStatement),
  ("Catch", es51_Catch),
  ("Finally", es51_Finally),
  ("DebuggerStatement", es51_DebuggerStatement),
  ("FunctionDeclaration", es51_FunctionDeclaration),
  ("FunctionExpression", es51_FunctionExpression),
  ("FormalParameterList", es51_FormalParameterList),
  ("FunctionBody", es51_FunctionBody),
  ("Program", es51_Program),
  ("SourceElements", es51_SourceElements),
  ("SourceElement", es51_SourceElement)]

/-- Section identifiers of the ES2025 edition (type SectionId). -/
inductive SectionId : Type where
  | lexical : SectionId
  | expressions : SectionId
  | statements : SectionId
  | functions : SectionId
  | modules : SectionId
deriving DecidableEq, Repr

/-- SECTION_ORDER of the ES2025 edition. -/
def SECTION_ORDER : List SectionId :=
  [SectionId.lexical, SectionId.expressions, SectionId.statements, SectionId.functions, SectionId.modules]

/-- SECTION_RULES of the ES2025 edition. -/
def SECTION_RULES : SectionId → List String
  | SectionId.lexical =>
    ["SourceCharacter",
      "InputElementDiv",
      "InputElementRegExp",
      "InputElementRegExpOrTemplateTail",
      "InputElementTemplateTail",
      "WhiteSpace",
      "LineTerminator",
      "LineTerminatorSequence",
      "Comment",
      "MultiLineComment",
      "SingleLineComment",
      "HashbangComment",
      "CommonToken",
      "PrivateIdentifier",
      "IdentifierName",
      "IdentifierStart",
      "IdentifierPart",
      "IdentifierStartChar",
      "IdentifierPartChar",
      "UnicodeIDStart",
      "UnicodeIDContinue",
      "ReservedWord",
      "Punctuator",
      "OptionalChainingPunctuator",
      "DivPunctuator",
      "RightBracePunctuator",
      "NullLiteral",
      "BooleanLiteral",
      "NumericLiteral",
      "DecimalLiteral",
      "DecimalIntegerLiteral",
      "DecimalDigits",
      "DecimalDigit",
      "NonZeroDigit",
      "NumericLiteralSeparator",
      "ExponentPart",
      "ExponentIndicator",
      "SignedInteger",
      "BigIntLiteralSuffix",
      "DecimalBigIntegerLiteral",
      "NonDecimalIntegerLiteral",
      "BinaryIntegerLiteral",
      "BinaryDigits",
      "BinaryDigit",
      "OctalIntegerLiteral",
      "OctalDigits",
      "OctalDigit",
      "HexIntegerLiteral",
      "HexDigits",
      "HexDigit",
      "LegacyOctalIntegerLiteral",
      "StringLiteral",
      "DoubleStringCharacters",
      "SingleStringCharacters",
      "DoubleStringCharacter",
      "SingleStringCharacter",
      "LineContinuation",
      "EscapeSequence",
      "CharacterEscapeSequence",
      "SingleEscapeCharacter",
      "HexEscapeSequence",
      "UnicodeEscapeSequence",
      "Hex4Digits",
      "RegularExpressionLiteral",
      "RegularExpressionBody",
      "RegularExpressionChars",
      "RegularExpressionFlags",
      "Template",
      "NoSubstitutionTemplate",
      "TemplateHead",
      "TemplateSubstitutionTail",
      "TemplateMiddle",
      "TemplateTail",
      "TemplateCharacters"]
  | SectionId.expressions =>
    ["IdentifierReference",
      "BindingIdentifier",
      "LabelIdentifier",
      "Identifier",
      "PrimaryExpression",
      "CoverParenthesizedExpressionAndArrowParameterList",
      "ParenthesizedExpression",
      "Literal",
      "ArrayLiteral",
      "ElementList",
      "Elision",
      "SpreadElement",
      "ObjectLiteral",
      "PropertyDefinitionList",
      "PropertyDefinition",
      "PropertyName",
      "LiteralPropertyName",
      "ComputedPropertyName",
      "CoverInitializedName",
      "Initializer",
      "TemplateLiteral",
      "SubstitutionTemplate",
      "TemplateSpans",
      "TemplateMiddleList",
      "MemberExpression",
      "SuperProperty",
      "MetaProperty",
      "NewTarget",
      "ImportMeta",
      "NewExpression",
      "CallExpression",
      "SuperCall",
      "ImportCall",
      "Arguments",
      "ArgumentList",
      "OptionalExpression",
      "OptionalChain",
      "LeftHandSideExpression",
      "UpdateExpression",
      "UnaryExpression",
      "ExponentiationExpression",
      "MultiplicativeExpression",
      "MultiplicativeOperator",
      "AdditiveExpression",
      "ShiftExpression",
      "RelationalExpression",
      "EqualityExpression",
      "BitwiseANDExpression",
      "BitwiseXORExpression",
      "BitwiseORExpression",
      "LogicalANDExpression",
      "LogicalORExpression",
      "CoalesceExpression",
      "CoalesceExpressionHead",
      "ShortCircuitExpression",
      "ConditionalExpression",
      "AssignmentExpression",
      "AssignmentOperator",
      "AssignmentPattern",
      "ObjectAssignmentPattern",
      "ArrayAssignmentPattern",
      "Expression"]
  | SectionId.statements =>
    ["Statement",
      "Declaration",
      "HoistableDeclaration",
      "BreakableStatement",
      "BlockStatement",
      "Block",
      "StatementList",
      "StatementListItem",
      "LexicalDeclaration",
      "LetOrConst",
      "BindingList",
      "LexicalBinding",
      "VariableStatement",
      "VariableDeclarationList",
      "VariableDeclaration",
      "BindingPattern",
      "ObjectBindingPattern",
      "ArrayBindingPattern",
      "BindingRestProperty",
      "BindingPropertyList",
      "BindingElementList",
      "BindingElisionElement",
      "BindingProperty",
      "BindingElement",
      "SingleNameBinding",
      "BindingRestElement",
      "EmptyStatement",
      "ExpressionStatement",
      "IfStatement",
      "IterationStatement",
      "DoWhileStatement",
      "WhileStatement",
      "ForStatement",
      "ForInOfStatement",
      "ForDeclaration",
      "ForBinding",
      "ContinueStatement",
      "BreakStatement",
      "ReturnStatement",
      "WithStatement",
      "SwitchStatement",
      "CaseBlock",
      "CaseClauses",
      "CaseClause",
      "DefaultClause",
      "LabelledStatement",
      "LabelledItem",
      "ThrowStatement",
      "TryStatement",
      "Catch",
      "Finally",
      "CatchParameter",
      "DebuggerStatement"]
  | SectionId.functions =>
    ["UniqueFormalParameters",
      "FormalParameters",
      "FormalParameterList",
      "FunctionRestParameter",
      "FormalParameter",
      "FunctionDeclaration",
      "FunctionExpression",
      "FunctionBody",
      "FunctionStatementList",
      "ArrowFunction",
      "ArrowParameters",
      "ConciseBody",
      "ExpressionBody",
      "ArrowFormalParameters",
      "AsyncArrowFunction",
      "AsyncConciseBody",
      "AsyncArrowBindingIdentifier",
      "CoverCallExpressionAndAsyncArrowHead",
      "AsyncArrowHead",
      "MethodDefinition",
      "PropertySetParameterList",
      "GeneratorDeclaration",
      "GeneratorExpression",
      "GeneratorMethod",
      "GeneratorBody",
      "YieldExpression",
      "AsyncGeneratorDeclaration",
      "AsyncGeneratorExpression",
      "AsyncGeneratorMethod",
      "AsyncGeneratorBody",
      "AsyncFunctionDeclaration",
      "AsyncFunctionExpression",
      "AsyncMethod",
      "AsyncFunctionBody",
      "AwaitExpression",
      "ClassDeclaration",
      "ClassExpression",
      "ClassTail",
      "ClassHeritage",
      "ClassBody",
      "ClassElementList",
      "ClassElement",
      "FieldDefinition",
      "ClassElementName",
      "ClassStaticBlock",
      "ClassStaticBlockBody",
      "ClassStaticBlockStatementList"]
  | SectionId.modules =>
    ["Script",
      "ScriptBody",
      "Module",
      "ModuleBody",
      "ModuleItemList",
      "ModuleItem",
      "ModuleExportName",
      "ImportDeclaration",
      "ImportClause",
      "ImportedDefaultBinding",
      "NameSpaceImport",
      "NamedImports",
      "FromClause",
      "ImportsList",
      "ImportSpecifier",
      "ModuleSpecifier",
      "ImportedBinding",
      "WithClause",
      "WithEntries",
      "AttributeKey",
      "ExportDeclaration",
      "ExportFromClause",
      "NamedExports",
      "ExportsList",
      "ExportSpecifier"]

/-- EBNF_DEFINITIONS of ebnfDefinitions.ts: insertion-ordered (name, text) entries. -/
def EBNF_DEFINITIONS : List (String × String) := [
  ("SourceCharacter",
   "SourceCharacter ::\n    any Unicode code point"),
  ("InputElementDiv",
   "InputElementDiv ::\n    WhiteSpace\n    LineTerminator\n    Comment\n    CommonToken\n    DivPunctuator\n    RightBracePunctuator"),
  ("InputElementRegExp",
   "InputElementRegExp ::\n    WhiteSpace\n    LineTerminator\n    Comment\n    CommonToken\n    RightBracePunctuator\n    RegularExpressionLiteral"),
  ("InputElementRegExpOrTemplateTail",
   "InputElementRegExpOrTemplateTail ::\n    WhiteSpace\n    LineTerminator\n    Comment\n    CommonToken\n    RegularExpressionLiteral\n    TemplateSubstitutionTail"),
  ("InputElementTemplateTail",
   "InputElementTemplateTail ::\n    WhiteSpace\n    LineTerminator\n    Comment\n    CommonToken\n    DivPunctuator\n    TemplateSubstitutionTail"),
  ("WhiteSpace",
   "WhiteSpace ::\n    <TAB>\n    <VT>\n    <FF>\n    <ZWNBSP>\n    <USP>"),
  ("LineTerminator",
   "LineTerminator ::\n    <LF>\n    <CR>\n    <LS>\n    <PS>"),
  ("LineTerminatorSequence",
   "LineTerminatorSequence ::\n    <LF>\n    <CR> [lookahead ≠ <LF>]\n    <LS>\n    <PS>\n    <CR> <LF>"),
  ("Comment",
   "Comment ::\n    MultiLineComment\n    SingleLineComment"),
  ("MultiLineComment",
   "MultiLineComment ::\n    /* MultiLineCommentChars_opt */"),
  ("SingleLineComment",
   "SingleLineComment ::\n    // SingleLineCommentChars_opt"),
  ("HashbangComment",
   "HashbangComment ::\n    #! SingleLineCommentChars_opt"),
  ("CommonToken",
   "CommonToken ::\n    IdentifierName\n    PrivateIdentifier\n    Punctuator\n    NumericLiteral\n    StringLiteral\n    Template"),
  ("PrivateIdentifier",
   "PrivateIdentifier ::\n    # IdentifierName"),
  ("IdentifierName",
   "IdentifierName ::\n    IdentifierStart\n    IdentifierName IdentifierPart"),
  ("IdentifierStart",
   "IdentifierStart ::\n    IdentifierStartChar\n    \\ UnicodeEscapeSequence"),
  ("IdentifierPart",
   "IdentifierPart ::\n    IdentifierPartChar\n    \\ UnicodeEscapeSequence"),
  ("IdentifierStartChar",
   "IdentifierStartChar ::\n    UnicodeIDStart\n    $\n    _"),
  ("IdentifierPartChar",
   "IdentifierPartChar ::\n    UnicodeIDContinue\n    $"),
  ("UnicodeIDStart",
   "UnicodeIDStart ::\n    any Unicode code point with the Unicode property \"ID_Start\""),
  ("UnicodeIDContinue",
   "UnicodeIDContinue ::\n    any Unicode code point with the Unicode property \"ID_Continue\""),
  ("ReservedWord",
   "ReservedWord :: one of\n    await break case catch class const continue debugger default delete\n    do else enum export extends false finally for function if import in\n    instanceof new null return super switch this throw true try typeof\n    var void while with yield"),
  ("Punctuator",
   "Punctuator ::\n    OptionalChainingPunctuator\n    OtherPunctuator"),
  ("OptionalChainingPunctuator",
   "OptionalChainingPunctuator ::\n    ?. [lookahead ∉ DecimalDigit]"),
  ("DivPunctuator",
   "DivPunctuator ::\n    /\n    /="),
  ("RightBracePunctuator",
   "RightBracePunctuator ::\n    \x7d"),
  ("NullLiteral",
   "NullLiteral ::\n    null"),
  ("BooleanLiteral",
   "BooleanLiteral ::\n    true\n    false"),
  ("NumericLiteral",
   "NumericLiteral ::\n    DecimalLiteral\n    DecimalBigIntegerLiteral\n    NonDecimalIntegerLiteral[+Sep]\n    NonDecimalIntegerLiteral[+Sep] BigIntLiteralSuffix\n    LegacyOctalIntegerLiteral"),
  ("DecimalLiteral",
   "DecimalLiteral ::\n    DecimalIntegerLiteral . DecimalDigits[+Sep]_opt ExponentPart[+Sep]_opt\n    . DecimalDigits[+Sep] ExponentPart[+Sep]_opt\n    DecimalIntegerLiteral ExponentPart[+Sep]_opt"),
  ("DecimalIntegerLiteral",
   "DecimalIntegerLiteral ::\n    0\n    NonZeroDigit\n    NonZeroDigit NumericLiteralSeparator_opt DecimalDigits[+Sep]\n    NonOctalDecimalIntegerLiteral"),
  ("DecimalDigits",
   "DecimalDigits[Sep] ::\n    DecimalDigit\n    DecimalDigits[?Sep] DecimalDigit\n    [+Sep] DecimalDigits[+Sep] NumericLiteralSeparator DecimalDigit"),
  ("DecimalDigit",
   "DecimalDigit :: one of\n    0 1 2 3 4 5 6 7 8 9"),
  ("NonZeroDigit",
   "NonZeroDigit :: one of\n    1 2 3 4 5 6 7 8 9"),
  ("NumericLiteralSeparator",
   "NumericLiteralSeparator ::\n    _"),
  ("ExponentPart",
   "ExponentPart[Sep] ::\n    ExponentIndicator SignedInteger[?Sep]"),
  ("ExponentIndicator",
   "ExponentIndicator :: one of\n    e E"),
  ("SignedInteger",
   "SignedInteger[Sep] ::\n    DecimalDigits[?Sep]\n    + DecimalDigits[?Sep]\n    - DecimalDigits[?Sep]"),
  ("BigIntLiteralSuffix",
   "BigIntLiteralSuffix ::\n    n"),
  ("DecimalBigIntegerLiteral",
   "DecimalBigIntegerLiteral ::\n    0 BigIntLiteralSuffix\n    NonZeroDigit DecimalDigits[+Sep]_opt BigIntLiteralSuffix\n    NonZeroDigit NumericLiteralSeparator DecimalDigits[+Sep] BigIntLiteralSuffix"),
  ("NonDecimalIntegerLiteral",
   "NonDecimalIntegerLiteral[Sep] ::\n    BinaryIntegerLiteral[?Sep]\n    OctalIntegerLiteral[?Sep]\n    HexIntegerLiteral[?Sep]"),
  ("BinaryIntegerLiteral",
   "BinaryIntegerLiteral[Sep] ::\n    0b BinaryDigits[?Sep]\n    0B BinaryDigits[?Sep]"),
  ("BinaryDigits",
   "BinaryDigits[Sep] ::\n    BinaryDigit\n    BinaryDigits[?Sep] BinaryDigit\n    [+Sep] BinaryDigits[+Sep] NumericLiteralSeparator BinaryDigit"),
  ("BinaryDigit",
   "BinaryDigit :: one of\n    0 1"),
  ("OctalIntegerLiteral",
   "OctalIntegerLiteral[Sep] ::\n    0o OctalDigits[?Sep]\n    0O OctalDigits[?Sep]"),
  ("OctalDigits",
   "OctalDigits[Sep] ::\n    OctalDigit\n    OctalDigits[?Sep] OctalDigit\n    [+Sep] OctalDigits[+Sep] NumericLiteralSeparator OctalDigit"),
  ("OctalDigit",
   "OctalDigit :: one of\n    0 1 2 3 4 5 6 7"),
  ("HexIntegerLiteral",
   "HexIntegerLiteral[Sep] ::\n    0x HexDigits[?Sep]\n    0X HexDigits[?Sep]"),
  ("HexDigits",
   "HexDigits[Sep] ::\n    HexDigit\n    HexDigits[?Sep] HexDigit\n    [+Sep] HexDigits[+Sep] NumericLiteralSeparator HexDigit"),
  ("HexDigit",
   "HexDigit :: one of\n    0 1 2 3 4 5 6 7 8 9 a b c d e f A B C D E F"),
  ("LegacyOctalIntegerLiteral",
   "LegacyOctalIntegerLiteral ::\n    0 OctalDigit\n    LegacyOctalIntegerLiteral OctalDigit"),
  ("StringLiteral",
   "StringLiteral ::\n    \" DoubleStringCharacters_opt \"\n    \x27 SingleStringCharacters_opt \x27"),
  ("DoubleStringCharacters",
   "DoubleStringCharacters ::\n    DoubleStringCharacter DoubleStringCharacters_opt"),
  ("SingleStringCharacters",
   "SingleStringCharacters ::\n    SingleStringCharacter SingleStringCharacters_opt"),
  ("DoubleStringCharacter",
   "DoubleStringCharacter ::\n    SourceCharacter but not one of \" or \\ or LineTerminator\n    <LS>\n    <PS>\n    \\ EscapeSequence\n    LineContinuation"),
  ("SingleStringCharacter",
   "SingleStringCharacter ::\n    SourceCharacter but not one of \x27 or \\ or LineTerminator\n    <LS>\n    <PS>\n    \\ EscapeSequence\n    LineContinuation"),
  ("LineContinuation",
   "LineContinuation ::\n    \\ LineTerminatorSequence"),
  ("EscapeSequence",
   "EscapeSequence ::\n    CharacterEscapeSequence\n    0 [lookahead ∉ DecimalDigit]\n    LegacyOctalEscapeSequence\n    NonOctalDecimalEscapeSequence\n    HexEscapeSequence\n    UnicodeEscapeSequence"),
  ("CharacterEscapeSequence",
   "CharacterEscapeSequence ::\n    SingleEscapeCharacter\n    NonEscapeCharacter"),
  ("SingleEscapeCharacter",
   "SingleEscapeCharacter :: one of\n    \x27 \" \\ b f n r t v"),
  ("HexEscapeSequence",
   "HexEscapeSequence ::\n    x HexDigit HexDigit"),
  ("UnicodeEscapeSequence",
   "UnicodeEscapeSequence ::\n    u Hex4Digits\n    u\x7b CodePoint \x7d"),
  ("Hex4Digits",
   "Hex4Digits ::\n    HexDigit HexDigit HexDigit HexDigit"),
  ("RegularExpressionLiteral",
   "RegularExpressionLiteral ::\n    / RegularExpressionBody / RegularExpressionFlags"),
  ("RegularExpressionBody",
   "RegularExpressionBody ::\n    RegularExpressionFirstChar RegularExpressionChars"),
  ("RegularExpressionChars",
   "RegularExpressionChars ::\n    [empty]\n    RegularExpressionChars RegularExpressionChar"),
  ("RegularExpressionFlags",
   "RegularExpressionFlags ::\n    [empty]\n    RegularExpressionFlags IdentifierPartChar"),
  ("Template",
   "Template ::\n    NoSubstitutionTemplate\n    TemplateHead"),
  ("NoSubstitutionTemplate",
   "NoSubstitutionTemplate ::\n    \x60 TemplateCharacters_opt \x60"),
  ("TemplateHead",
   "TemplateHead ::\n    \x60 TemplateCharacters_opt $\x7b"),
  ("TemplateSubstitutionTail",
   "TemplateSubstitutionTail ::\n    TemplateMiddle\n    TemplateTail"),
  ("TemplateMiddle",
   "TemplateMiddle ::\n    \x7d TemplateCharacters_opt $\x7b"),
  ("TemplateTail",
   "TemplateTail ::\n    \x7d TemplateCharacters_opt \x60"),
  ("TemplateCharacters",
   "TemplateCharacters ::\n    TemplateCharacter TemplateCharacters_opt"),
  ("IdentifierReference",
   "IdentifierReference[Yield, Await] :\n    Identifier\n    [~Yield] yield\n    [~Await] await"),
  ("BindingIdentifier",
   "BindingIdentifier[Yield, Await] :\n    Identifier\n    yield\n    await"),
  ("LabelIdentifier",
   "LabelIdentifier[Yield, Await] :\n    Identifier\n    [~Yield] yield\n    [~Await] await"),
  ("Identifier",
   "Identifier :\n    IdentifierName but not ReservedWord"),
  ("PrimaryExpression",
   "PrimaryExpression[Yield, Await] :\n    this\n    IdentifierReference[?Yield, ?Await]\n    Literal\n    ArrayLiteral[?Yield, ?Await]\n    ObjectLiteral[?Yield, ?Await]\n    FunctionExpression\n    ClassExpression[?Yield, ?Await]\n    GeneratorExpression\n    AsyncFunctionExpression\n    AsyncGeneratorExpression\n    RegularExpressionLiteral\n    TemplateLiteral[?Yield, ?Await, ~Tagged]\n    CoverParenthesizedExpressionAndArrowParameterList[?Yield, ?Await]"),
  ("CoverParenthesizedExpressionAndArrowParameterList",
   "CoverParenthesizedExpressionAndArrowParameterList[Yield, Await] :\n    ( Expression[+In, ?Yield, ?Await] )\n    ( Expression[+In, ?Yield, ?Await] , )\n    ( )\n    ( ... BindingIdentifier[?Yield, ?Await] )\n    ( ... BindingPattern[?Yield, ?Await] )\n    ( Expression[+In, ?Yield, ?Await] , ... BindingIdentifier[?Yield, ?Await] )\n    ( Expression[+In, ?Yield, ?Await] , ... BindingPattern[?Yield, ?Await] )"),
  ("ParenthesizedExpression",
   "ParenthesizedExpression[Yield, Await] :\n    ( Expression[+In, ?Yield, ?Await] )"),
  ("Literal",
   "Literal :\n    NullLiteral\n    BooleanLiteral\n    NumericLiteral\n    StringLiteral"),
  ("ArrayLiteral",
   "ArrayLiteral[Yield, Await] :\n    [ Elision_opt ]\n    [ ElementList[?Yield, ?Await] ]\n    [ ElementList[?Yield, ?Await] , Elision_opt ]"),
  ("ElementList",
   "ElementList[Yield, Await] :\n    Elision_opt AssignmentExpression[+In, ?Yield, ?Await]\n    Elision_opt SpreadElement[?Yield, ?Await]\n    ElementList[?Yield, ?Await] , Elision_opt AssignmentExpression[+In, ?Yield, ?Await]\n    ElementList[?Yield, ?Await] , Elision_opt SpreadElement[?Yield, ?Await]"),
  ("Elision",
   "Elision :\n    ,\n    Elision ,"),
  ("SpreadElement",
   "SpreadElement[Yield, Await] :\n    ... AssignmentExpression[+In, ?Yield, ?Await]"),
  ("ObjectLiteral",
   "ObjectLiteral[Yield, Await] :\n    \x7b \x7d\n    \x7b PropertyDefinitionList[?Yield, ?Await] \x7d\n    \x7b PropertyDefinitionList[?Yield, ?Await] , \x7d"),
  ("PropertyDefinitionList",
   "PropertyDefinitionList[Yield, Await] :\n    PropertyDefinition[?Yield, ?Await]\n    PropertyDefinitionList[?Yield, ?Await] , PropertyDefinition[?Yield, ?Await]"),
  ("PropertyDefinition",
   "PropertyDefinition[Yield, Await] :\n    IdentifierReference[?Yield, ?Await]\n    CoverInitializedName[?Yield, ?Await]\n    PropertyName[?Yield, ?Await] : AssignmentExpression[+In, ?Yield, ?Await]\n    MethodDefinition[?Yield, ?Await]\n    ... AssignmentExpression[+In, ?Yield, ?Await]"),
  ("PropertyName",
   "PropertyName[Yield, Await] :\n    LiteralPropertyName\n    ComputedPropertyName[?Yield, ?Await]"),
  ("LiteralPropertyName",
   "LiteralPropertyName :\n    IdentifierName\n    StringLiteral\n    NumericLiteral"),
  ("ComputedPropertyName",
   "ComputedPropertyName[Yield, Await] :\n    [ AssignmentExpression[+In, ?Yield, ?Await] ]"),
  ("CoverInitializedName",
   "CoverInitializedName[Yield, Await] :\n    IdentifierReference[?Yield, ?Await] Initializer[+In, ?Yield, ?Await]"),
  ("Initializer",
   "Initializer[In, Yield, Await] :\n    = AssignmentExpression[?In, ?Yield, ?Await]"),
  ("TemplateLiteral",
   "TemplateLiteral[Yield, Await, Tagged] :\n    NoSubstitutionTemplate\n    SubstitutionTemplate[?Yield, ?Await, ?Tagged]"),
  ("SubstitutionTemplate",
   "SubstitutionTemplate[Yield, Await, Tagged] :\n    TemplateHead Expression[+In, ?Yield, ?Await] TemplateSpans[?Yield, ?Await, ?Tagged]"),
  ("TemplateSpans",
   "TemplateSpans[Yield, Await, Tagged] :\n    TemplateTail\n    TemplateMiddleList[?Yield, ?Await, ?Tagged] TemplateTail"),
  ("TemplateMiddleList",
   "TemplateMiddleList[Yield, Await, Tagged] :\n    TemplateMiddle Expression[+In, ?Yield, ?Await]\n    TemplateMiddleList[?Yield, ?Await, ?Tagged] TemplateMiddle Expression[+In, ?Yield, ?Await]"),
  ("MemberExpression",
   "MemberExpression[Yield, Await] :\n    PrimaryExpression[?Yield, ?Await]\n    MemberExpression[?Yield, ?Await] [ Expression[+In, ?Yield, ?Await] ]\n    MemberExpression[?Yield, ?Await] . IdentifierName\n    MemberExpression[?Yield, ?Await] TemplateLiteral[?Yield, ?Await, +Tagged]\n    SuperProperty[?Yield, ?Await]\n    MetaProperty\n    new MemberExpression[?Yield, ?Await] Arguments[?Yield, ?Await]\n    MemberExpression[?Yield, ?Await] . PrivateIdentifier"),
  ("SuperProperty",
   "SuperProperty[Yield, Await] :\n    super [ Expression[+In, ?Yield, ?Await] ]\n    super . IdentifierName"),
  ("MetaProperty",
   "MetaProperty :\n    NewTarget\n    ImportMeta"),
  ("NewTarget",
   "NewTarget :\n    new . target"),
  ("ImportMeta",
   "ImportMeta :\n    import . meta"),
  ("NewExpression",
   "NewExpression[Yield, Await] :\n    MemberExpression[?Yield, ?Await]\n    new NewExpression[?Yield, ?Await]"),
  ("CallExpression",
   "CallExpression[Yield, Await] :\n    CoverCallExpressionAndAsyncArrowHead[?Yield, ?Await]\n    SuperCall[?Yield, ?Await]\n    ImportCall[?Yield, ?Await]\n    CallExpression[?Yield, ?Await] Arguments[?Yield, ?Await]\n    CallExpression[?Yield, ?Await] [ Expression[+In, ?Yield, ?Await] ]\n    CallExpression[?Yield, ?Await] . IdentifierName\n    CallExpression[?Yield, ?Await] TemplateLiteral[?Yield, ?Await, +Tagged]\n    CallExpression[?Yield, ?Await] . PrivateIdentifier"),
  ("SuperCall",
   "SuperCall[Yield, Await] :\n    super Arguments[?Yield, ?Await]"),
  ("ImportCall",
   "ImportCall[Yield, Await] :\n    import ( AssignmentExpression[+In, ?Yield, ?Await] ,_opt )\n    import ( AssignmentExpression[+In, ?Yield, ?Await] , AssignmentExpression[+In, ?Yield, ?Await] ,_opt )"),
  ("Arguments",
   "Arguments[Yield, Await] :\n    ( )\n    ( ArgumentList[?Yield, ?Await] )\n    ( ArgumentList[?Yield, ?Await] , )"),
  ("ArgumentList",
   "ArgumentList[Yield, Await] :\n    AssignmentExpression[+In, ?Yield, ?Await]\n    ... AssignmentExpression[+In, ?Yield, ?Await]\n    ArgumentList[?Yield, ?Await] , AssignmentExpression[+In, ?Yield, ?Await]\n    ArgumentList[?Yield, ?Await] , ... AssignmentExpression[+In, ?Yield, ?Await]"),
  ("OptionalExpression",
   "OptionalExpression[Yield, Await] :\n    MemberExpression[?Yield, ?Await] OptionalChain[?Yield, ?Await]\n    CallExpression[?Yield, ?Await] OptionalChain[?Yield, ?Await]\n    OptionalExpression[?Yield, ?Await] OptionalChain[?Yield, ?Await]"),
  ("OptionalChain",
   "OptionalChain[Yield, Await] :\n    ?. Arguments[?Yield, ?Await]\n    ?. [ Expression[+In, ?Yield, ?Await] ]\n    ?. IdentifierName\n    ?. TemplateLiteral[?Yield, ?Await, +Tagged]\n    ?. PrivateIdentifier\n    OptionalChain[?Yield, ?Await] Arguments[?Yield, ?Await]\n    OptionalChain[?Yield, ?Await] [ Expression[+In, ?Yield, ?Await] ]\n    OptionalChain[?Yield, ?Await] . IdentifierName\n    OptionalChain[?Yield, ?Await] TemplateLiteral[?Yield, ?Await, +Tagged]\n    OptionalChain[?Yield, ?Await] . PrivateIdentifier"),
  ("LeftHandSideExpression",
   "LeftHandSideExpression[Yield, Await] :\n    NewExpression[?Yield, ?Await]\n    CallExpression[?Yield, ?Await]\n    OptionalExpression[?Yield, ?Await]"),
  ("UpdateExpression",
   "UpdateExpression[Yield, Await] :\n    LeftHandSideExpression[?Yield, ?Await]\n    LeftHandSideExpression[?Yield, ?Await] [no LineTerminator here] ++\n    LeftHandSideExpression[?Yield, ?Await] [no LineTerminator here] --\n    ++ UnaryExpression[?Yield, ?Await]\n    -- UnaryExpression[?Yield, ?Await]"),
  ("UnaryExpression",
   "UnaryExpression[Yield, Await] :\n    UpdateExpression[?Yield, ?Await]\n    delete UnaryExpression[?Yield, ?Await]\n    void UnaryExpression[?Yield, ?Await]\n    typeof UnaryExpression[?Yield, ?Await]\n    + UnaryExpression[?Yield, ?Await]\n    - UnaryExpression[?Yield, ?Await]\n    ~ UnaryExpression[?Yield, ?Await]\n    ! UnaryExpression[?Yield, ?Await]\n    [+Await] AwaitExpression[?Yield]"),
  ("ExponentiationExpression",
   "ExponentiationExpression[Yield, Await] :\n    UnaryExpression[?Yield, ?Await]\n    UpdateExpression[?Yield, ?Await] ** ExponentiationExpression[?Yield, ?Await]"),
  ("MultiplicativeExpression",
   "MultiplicativeExpression[Yield, Await] :\n    ExponentiationExpression[?Yield, ?Await]\n    MultiplicativeExpression[?Yield, ?Await] MultiplicativeOperator ExponentiationExpression[?Yield, ?Await]"),
  ("MultiplicativeOperator",
   "MultiplicativeOperator : one of\n    * / %"),
  ("AdditiveExpression",
   "AdditiveExpression[Yield, Await] :\n    MultiplicativeExpression[?Yield, ?Await]\n    AdditiveExpression[?Yield, ?Await] + MultiplicativeExpression[?Yield, ?Await]\n    AdditiveExpression[?Yield, ?Await] - MultiplicativeExpression[?Yield, ?Await]"),
  ("ShiftExpression",
   "ShiftExpression[Yield, Await] :\n    AdditiveExpression[?Yield, ?Await]\n    ShiftExpression[?Yield, ?Await] << AdditiveExpression[?Yield, ?Await]\n    ShiftExpression[?Yield, ?Await] >> AdditiveExpression[?Yield, ?Await]\n    ShiftExpression[?Yield, ?Await] >>> AdditiveExpression[?Yield, ?Await]"),
  ("RelationalExpression",
   "RelationalExpression[In, Yield, Await] :\n    ShiftExpression[?Yield, ?Await]\n    RelationalExpression[?In, ?Yield, ?Await] < ShiftExpression[?Yield, ?Await]\n    RelationalExpression[?In, ?Yield, ?Await] > ShiftExpression[?Yield, ?Await]\n    RelationalExpression[?In, ?Yield, ?Await] <= ShiftExpression[?Yield, ?Await]\n    RelationalExpression[?In, ?Yield, ?Await] >= ShiftExpression[?Yield, ?Await]\n    RelationalExpression[?In, ?Yield, ?Await] instanceof ShiftExpression[?Yield, ?Await]\n    [+In] RelationalExpression[+In, ?Yield, ?Await] in ShiftExpression[?Yield, ?Await]\n    [+In] PrivateIdentifier in ShiftExpression[?Yield, ?Await]"),
  ("EqualityExpression",
   "EqualityExpression[In, Yield, Await] :\n    RelationalExpression[?In, ?Yield, ?Await]\n    EqualityExpression[?In, ?Yield, ?Await] == RelationalExpression[?In, ?Yield, ?Await]\n    EqualityExpression[?In, ?Yield, ?Await] != RelationalExpression[?In, ?Yield, ?Await]\n    EqualityExpression[?In, ?Yield, ?Await] === RelationalExpression[?In, ?Yield, ?Await]\n    EqualityExpression[?In, ?Yield, ?Await] !== RelationalExpression[?In, ?Yield, ?Await]"),
  ("BitwiseANDExpression",
   "BitwiseANDExpression[In, Yield, Await] :\n    EqualityExpression[?In, ?Yield, ?Await]\n    BitwiseANDExpression[?In, ?Yield, ?Await] & EqualityExpression[?In, ?Yield, ?Await]"),
  ("BitwiseXORExpression",
   "BitwiseXORExpression[In, Yield, Await] :\n    BitwiseANDExpression[?In, ?Yield, ?Await]\n    BitwiseXORExpression[?In, ?Yield, ?Await] ^ BitwiseANDExpression[?In, ?Yield, ?Await]"),
  ("BitwiseORExpression",
   "BitwiseORExpression[In, Yield, Await] :\n    BitwiseXORExpression[?In, ?Yield, ?Await]\n    BitwiseORExpression[?In, ?Yield, ?Await] | BitwiseXORExpression[?In, ?Yield, ?Await]"),
  ("LogicalANDExpression",
   "LogicalANDExpression[In, Yield, Await] :\n    BitwiseORExpression[?In, ?Yield, ?Await]\n    LogicalANDExpression[?In, ?Yield, ?Await] && BitwiseORExpression[?In, ?Yield, ?Await]"),
  ("LogicalORExpression",
   "LogicalORExpression[In, Yield, Await] :\n    LogicalANDExpression[?In, ?Yield, ?Await]\n    LogicalORExpression[?In, ?Yield, ?Await] || LogicalANDExpression[?In, ?Yield, ?Await]"),
  ("CoalesceExpression",
   "CoalesceExpression[In, Yield, Await] :\n    CoalesceExpressionHead[?In, ?Yield, ?Await] ?? BitwiseORExpression[?In, ?Yield, ?Await]"),
  ("CoalesceExpressionHead",
   "CoalesceExpressionHead[In, Yield, Await] :\n    CoalesceExpression[?In, ?Yield, ?Await]\n    BitwiseORExpression[?In, ?Yield, ?Await]"),
  ("ShortCircuitExpression",
   "ShortCircuitExpression[In, Yield, Await] :\n    LogicalORExpression[?In, ?Yield, ?Await]\n    CoalesceExpression[?In, ?Yield, ?Await]"),
  ("ConditionalExpression",
   "ConditionalExpression[In, Yield, Await] :\n    ShortCircuitExpression[?In, ?Yield, ?Await]\n    ShortCircuitExpression[?In, ?Yield, ?Await] ? AssignmentExpression[+In, ?Yield, ?Await] : AssignmentExpression[?In, ?Yield, ?Await]"),
  ("AssignmentExpression",
   "AssignmentExpression[In, Yield, Await] :\n    ConditionalExpression[?In, ?Yield, ?Await]\n    [+Yield] YieldExpression[?In, ?Await]\n    ArrowFunction[?In, ?Yield, ?Await]\n    AsyncArrowFunction[?In, ?Yield, ?Await]\n    LeftHandSideExpression[?Yield, ?Await] = AssignmentExpression[?In, ?Yield, ?Await]\n    LeftHandSideExpression[?Yield, ?Await] AssignmentOperator AssignmentExpression[?In, ?Yield, ?Await]\n    LeftHandSideExpression[?Yield, ?Await] &&= AssignmentExpression[?In, ?Yield, ?Await]\n    LeftHandSideExpression[?Yield, ?Await] ||= AssignmentExpression[?In, ?Yield, ?Await]\n    LeftHandSideExpression[?Yield, ?Await] ??= AssignmentExpression[?In, ?Yield, ?Await]"),
  ("AssignmentOperator",
   "AssignmentOperator : one of\n    *= /= %= += -= <<= >>= >>>= &= ^= |= **="),
  ("AssignmentPattern",
   "AssignmentPattern[Yield, Await] :\n    ObjectAssignmentPattern[?Yield, ?Await]\n    ArrayAssignmentPattern[?Yield, ?Await]"),
  ("ObjectAssignmentPattern",
   "ObjectAssignmentPattern[Yield, Await] :\n    \x7b \x7d\n    \x7b AssignmentRestProperty[?Yield, ?Await] \x7d\n    \x7b AssignmentPropertyList[?Yield, ?Await] \x7d\n    \x7b AssignmentPropertyList[?Yield, ?Await] , AssignmentRestProperty[?Yield, ?Await]_opt \x7d"),
  ("ArrayAssignmentPattern",
   "ArrayAssignmentPattern[Yield, Await] :\n    [ Elision_opt AssignmentRestElement[?Yield, ?Await]_opt ]\n    [ AssignmentElementList[?Yield, ?Await] ]\n    [ AssignmentElementList[?Yield, ?Await] , Elision_opt AssignmentRestElement[?Yield, ?Await]_opt ]"),
  ("Expression",
   "Expression[In, Yield, Await] :\n    AssignmentExpression[?In, ?Yield, ?Await]\n    Expression[?In, ?Yield, ?Await] , AssignmentExpression[?In, ?Yield, ?Await]"),
  ("Statement",
   "Statement[Yield, Await, Return] :\n    BlockStatement[?Yield, ?Await, ?Return]\n    VariableStatement[?Yield, ?Await]\n    EmptyStatement\n    ExpressionStatement[?Yield, ?Await]\n    IfStatement[?Yield, ?Await, ?Return]\n    BreakableStatement[?Yield, ?Await, ?Return]\n    ContinueStatement[?Yield, ?Await]\n    BreakStatement[?Yield, ?Await]\n    [+Return] ReturnStatement[?Yield, ?Await]\n    WithStatement[?Yield, ?Await, ?Return]\n    LabelledStatement[?Yield, ?Await, ?Return]\n    ThrowStatement[?Yield, ?Await]\n    TryStatement[?Yield, ?Await, ?Return]\n    DebuggerStatement"),
  ("Declaration",
   "Declaration[Yield, Await] :\n    HoistableDeclaration[?Yield, ?Await, ~Default]\n    ClassDeclaration[?Yield, ?Await, ~Default]\n    LexicalDeclaration[+In, ?Yield, ?Await]"),
  ("HoistableDeclaration",
   "HoistableDeclaration[Yield, Await, Default] :\n    FunctionDeclaration[?Yield, ?Await, ?Default]\n    GeneratorDeclaration[?Yield, ?Await, ?Default]\n    AsyncFunctionDeclaration[?Yield, ?Await, ?Default]\n    AsyncGeneratorDeclaration[?Yield, ?Await, ?Default]"),
  ("BreakableStatement",
   "BreakableStatement[Yield, Await, Return] :\n    IterationStatement[?Yield, ?Await, ?Return]\n    SwitchStatement[?Yield, ?Await, ?Return]"),
  ("BlockStatement",
   "BlockStatement[Yield, Await, Return] :\n    Block[?Yield, ?Await, ?Return]"),
  ("Block",
   "Block[Yield, Await, Return] :\n    \x7b StatementList[?Yield, ?Await, ?Return]_opt \x7d"),
  ("StatementList",
   "StatementList[Yield, Await, Return] :\n    StatementListItem[?Yield, ?Await, ?Return]\n    StatementList[?Yield, ?Await, ?Return] StatementListItem[?Yield, ?Await, ?Return]"),
  ("StatementListItem",
   "StatementListItem[Yield, Await, Return] :\n    Statement[?Yield, ?Await, ?Return]\n    Declaration[?Yield, ?Await]"),
  ("LexicalDeclaration",
   "LexicalDeclaration[In, Yield, Await] :\n    LetOrConst BindingList[?In, ?Yield, ?Await] ;"),
  ("LetOrConst",
   "LetOrConst :\n    let\n    const"),
  ("BindingList",
   "BindingList[In, Yield, Await] :\n    LexicalBinding[?In, ?Yield, ?Await]\n    BindingList[?In, ?Yield, ?Await] , LexicalBinding[?In, ?Yield, ?Await]"),
  ("LexicalBinding",
   "LexicalBinding[In, Yield, Await] :\n    BindingIdentifier[?Yield, ?Await] Initializer[?In, ?Yield, ?Await]_opt\n    BindingPattern[?Yield, ?Await] Initializer[?In, ?Yield, ?Await]"),
  ("VariableStatement",
   "VariableStatement[Yield, Await] :\n    var VariableDeclarationList[+In, ?Yield, ?Await] ;"),
  ("VariableDeclarationList",
   "VariableDeclarationList[In, Yield, Await] :\n    VariableDeclaration[?In, ?Yield, ?Await]\n    VariableDeclarationList[?In, ?Yield, ?Await] , VariableDeclaration[?In, ?Yield, ?Await]"),
  ("VariableDeclaration",
   "VariableDeclaration[In, Yield, Await] :\n    BindingIdentifier[?Yield, ?Await] Initializer[?In, ?Yield, ?Await]_opt\n    BindingPattern[?Yield, ?Await] Initializer[?In, ?Yield, ?Await]"),
  ("BindingPattern",
   "BindingPattern[Yield, Await] :\n    ObjectBindingPattern[?Yield, ?Await]\n    ArrayBindingPattern[?Yield, ?Await]"),
  ("ObjectBindingPattern",
   "ObjectBindingPattern[Yield, Await] :\n    \x7b \x7d\n    \x7b BindingRestProperty[?Yield, ?Await] \x7d\n    \x7b BindingPropertyList[?Yield, ?Await] \x7d\n    \x7b BindingPropertyList[?Yield, ?Await] , BindingRestProperty[?Yield, ?Await]_opt \x7d"),
  ("ArrayBindingPattern",
   "ArrayBindingPattern[Yield, Await] :\n    [ Elision_opt BindingRestElement[?Yield, ?Await]_opt ]\n    [ BindingElementList[?Yield, ?Await] ]\n    [ BindingElementList[?Yield, ?Await] , Elision_opt BindingRestElement[?Yield, ?Await]_opt ]"),
  ("BindingRestProperty",
   "BindingRestProperty[Yield, Await] :\n    ... BindingIdentifier[?Yield, ?Await]"),
  ("BindingPropertyList",
   "BindingPropertyList[Yield, Await] :\n    BindingProperty[?Yield, ?Await]\n    BindingPropertyList[?Yield, ?Await] , BindingProperty[?Yield, ?Await]"),
  ("BindingElementList",
   "BindingElementList[Yield, Await] :\n    BindingElisionElement[?Yield, ?Await]\n    BindingElementList[?Yield, ?Await] , BindingElisionElement[?Yield, ?Await]"),
  ("BindingElisionElement",
   "BindingElisionElement[Yield, Await] :\n    Elision_opt BindingElement[?Yield, ?Await]"),
  ("BindingProperty",
   "BindingProperty[Yield, Await] :\n    SingleNameBinding[?Yield, ?Await]\n    PropertyName[?Yield, ?Await] : BindingElement[?Yield, ?Await]"),
  ("BindingElement",
   "BindingElement[Yield, Await] :\n    SingleNameBinding[?Yield, ?Await]\n    BindingPattern[?Yield, ?Await] Initializer[+In, ?Yield, ?Await]_opt"),
  ("SingleNameBinding",
   "SingleNameBinding[Yield, Await] :\n    BindingIdentifier[?Yield, ?Await] Initializer[+In, ?Yield, ?Await]_opt"),
  ("BindingRestElement",
   "BindingRestElement[Yield, Await] :\n    ... BindingIdentifier[?Yield, ?Await]\n    ... BindingPattern[?Yield, ?Await]"),
  ("EmptyStatement",
   "EmptyStatement :\n    ;"),
  ("ExpressionStatement",
   "ExpressionStatement[Yield, Await] :\n    [lookahead ∉ \x7b \x7b, function, async [no LineTerminator here] function, class, let [ \x7d]\n    Expression[+In, ?Yield, ?Await] ;"),
  ("IfStatement",
   "IfStatement[Yield, Await, Return] :\n    if ( Expression[+In, ?Yield, ?Await] ) Statement[?Yield, ?Await, ?Return] else Statement[?Yield, ?Await, ?Return]\n    if ( Expression[+In, ?Yield, ?Await] ) Statement[?Yield, ?Await, ?Return] [lookahead ≠ else]"),
  ("IterationStatement",
   "IterationStatement[Yield, Await, Return] :\n    DoWhileStatement[?Yield, ?Await, ?Return]\n    WhileStatement[?Yield, ?Await, ?Return]\n    ForStatement[?Yield, ?Await, ?Return]\n    ForInOfStatement[?Yield, ?Await, ?Return]"),
  ("DoWhileStatement",
   "DoWhileStatement[Yield, Await, Return] :\n    do Statement[?Yield, ?Await, ?Return] while ( Expression[+In, ?Yield, ?Await] ) ;"),
  ("WhileStatement",
   "WhileStatement[Yield, Await, Return] :\n    while ( Expression[+In, ?Yield, ?Await] ) Statement[?Yield, ?Await, ?Return]"),
  ("ForStatement",
   "ForStatement[Yield, Await, Return] :\n    for ( [lookahead ≠ let [] Expression[~In, ?Yield, ?Await]_opt ; Expression[+In, ?Yield, ?Await]_opt ; Expression[+In, ?Yield, ?Await]_opt ) Statement[?Yield, ?Await, ?Return]\n    for ( var VariableDeclarationList[~In, ?Yield, ?Await] ; Expression[+In, ?Yield, ?Await]_opt ; Expression[+In, ?Yield, ?Await]_opt ) Statement[?Yield, ?Await, ?Return]\n    for ( LexicalDeclaration[~In, ?Yield, ?Await] Expression[+In, ?Yield, ?Await]_opt ; Expression[+In, ?Yield, ?Await]_opt ) Statement[?Yield, ?Await, ?Return]"),
  ("ForInOfStatement",
   "ForInOfStatement[Yield, Await, Return] :\n    for ( [lookahead ≠ let [] LeftHandSideExpression[?Yield, ?Await] in Expression[+In, ?Yield, ?Await] ) Statement[?Yield, ?Await, ?Return]\n    for ( var ForBinding[?Yield, ?Await] in Expression[+In, ?Yield, ?Await] ) Statement[?Yield, ?Await, ?Return]\n    for ( ForDeclaration[?Yield, ?Await] in Expression[+In, ?Yield, ?Await] ) Statement[?Yield, ?Await, ?Return]\n    for ( [lookahead ∉ \x7b let, async of \x7d] LeftHandSideExpression[?Yield, ?Await] of AssignmentExpression[+In, ?Yield, ?Await] ) Statement[?Yield, ?Await, ?Return]\n    for ( var ForBinding[?Yield, ?Await] of AssignmentExpression[+In, ?Yield, ?Await] ) Statement[?Yield, ?Await, ?Return]\n    for ( ForDeclaration[?Yield, ?Await] of AssignmentExpression[+In, ?Yield, ?Await] ) Statement[?Yield, ?Await, ?Return]\n    [+Await] for await ( [lookahead ≠ let] LeftHandSideExpression[?Yield, ?Await] of AssignmentExpression[+In, ?Yield, ?Await] ) Statement[?Yield, ?Await, ?Return]\n    [+Await] for await ( var ForBinding[?Yield, ?Await] of AssignmentExpression[+In, ?Yield, ?Await] ) Statement[?Yield, ?Await, ?Return]\n    [+Await] for await ( ForDeclaration[?Yield, ?Await] of AssignmentExpression[+In, ?Yield, ?Await] ) Statement[?Yield, ?Await, ?Return]"),
  ("ForDeclaration",
   "ForDeclaration[Yield, Await] :\n    LetOrConst ForBinding[?Yield, ?Await]"),
  ("ForBinding",
   "ForBinding[Yield, Await] :\n    BindingIdentifier[?Yield, ?Await]\n    BindingPattern[?Yield, ?Await]"),
  ("ContinueStatement",
   "ContinueStatement[Yield, Await] :\n    continue ;\n    continue [no LineTerminator here] LabelIdentifier[?Yield, ?Await] ;"),
  ("BreakStatement",
   "BreakStatement[Yield, Await] :\n    break ;\n    break [no LineTerminator here] LabelIdentifier[?Yield, ?Await] ;"),
  ("ReturnStatement",
   "ReturnStatement[Yield, Await] :\n    return ;\n    return [no LineTerminator here] Expression[+In, ?Yield, ?Await] ;"),
  ("WithStatement",
   "WithStatement[Yield, Await, Return] :\n    with ( Expression[+In, ?Yield, ?Await] ) Statement[?Yield, ?Await, ?Return]"),
  ("SwitchStatement",
   "SwitchStatement[Yield, Await, Return] :\n    switch ( Expression[+In, ?Yield, ?Await] ) CaseBlock[?Yield, ?Await, ?Return]"),
  ("CaseBlock",
   "CaseBlock[Yield, Await, Return] :\n    \x7b CaseClauses[?Yield, ?Await, ?Return]_opt \x7d\n    \x7b CaseClauses[?Yield, ?Await, ?Return]_opt DefaultClause[?Yield, ?Await, ?Return] CaseClauses[?Yield, ?Await, ?Return]_opt \x7d"),
  ("CaseClauses",
   "CaseClauses[Yield, Await, Return] :\n    CaseClause[?Yield, ?Await, ?Return]\n    CaseClauses[?Yield, ?Await, ?Return] CaseClause[?Yield, ?Await, ?Return]"),
  ("CaseClause",
   "CaseClause[Yield, Await, Return] :\n    case Expression[+In, ?Yield, ?Await] : StatementList[?Yield, ?Await, ?Return]_opt"),
  ("DefaultClause",
   "DefaultClause[Yield, Await, Return] :\n    default : StatementList[?Yield, ?Await, ?Return]_opt"),
  ("LabelledStatement",
   "LabelledStatement[Yield, Await, Return] :\n    LabelIdentifier[?Yield, ?Await] : LabelledItem[?Yield, ?Await, ?Return]"),
  ("LabelledItem",
   "LabelledItem[Yield, Await, Return] :\n    Statement[?Yield, ?Await, ?Return]\n    FunctionDeclaration[?Yield, ?Await, ~Default]"),
  ("ThrowStatement",
   "ThrowStatement[Yield, Await] :\n    throw [no LineTerminator here] Expression[+In, ?Yield, ?Await] ;"),
  ("TryStatement",
   "TryStatement[Yield, Await, Return] :\n    try Block[?Yield, ?Await, ?Return] Catch[?Yield, ?Await, ?Return]\n    try Block[?Yield, ?Await, ?Return] Finally[?Yield, ?Await, ?Return]\n    try Block[?Yield, ?Await, ?Return] Catch[?Yield, ?Await, ?Return] Finally[?Yield, ?Await, ?Return]"),
  ("Catch",
   "Catch[Yield, Await, Return] :\n    catch ( CatchParameter[?Yield, ?Await] ) Block[?Yield, ?Await, ?Return]\n    catch Block[?Yield, ?Await, ?Return]"),
  ("Finally",
   "Finally[Yield, Await, Return] :\n    finally Block[?Yield, ?Await, ?Return]"),
  ("CatchParameter",
   "CatchParameter[Yield, Await] :\n    BindingIdentifier[?Yield, ?Await]\n    BindingPattern[?Yield, ?Await]"),
  ("DebuggerStatement",
   "DebuggerStatement :\n    debugger ;"),
  ("UniqueFormalParameters",
   "UniqueFormalParameters[Yield, Await] :\n    FormalParameters[?Yield, ?Await]"),
  ("FormalParameters",
   "FormalParameters[Yield, Await] :\n    [empty]\n    FunctionRestParameter[?Yield, ?Await]\n    FormalParameterList[?Yield, ?Await]\n    FormalParameterList[?Yield, ?Await] ,\n    FormalParameterList[?Yield, ?Await] , FunctionRestParameter[?Yield, ?Await]"),
  ("FormalParameterList",
   "FormalParameterList[Yield, Await] :\n    FormalParameter[?Yield, ?Await]\n    FormalParameterList[?Yield, ?Await] , FormalParameter[?Yield, ?Await]"),
  ("FunctionRestParameter",
   "FunctionRestParameter[Yield, Await] :\n    BindingRestElement[?Yield, ?Await]"),
  ("FormalParameter",
   "FormalParameter[Yield, Await] :\n    BindingElement[?Yield, ?Await]"),
  ("FunctionDeclaration",
   "FunctionDeclaration[Yield, Await, Default] :\n    function BindingIdentifier[?Yield, ?Await] ( FormalParameters[~Yield, ~Await] ) \x7b FunctionBody[~Yield, ~Await] \x7d\n    [+Default] function ( FormalParameters[~Yield, ~Await] ) \x7b FunctionBody[~Yield, ~Await] \x7d"),
  ("FunctionExpression",
   "FunctionExpression :\n    function BindingIdentifier[~Yield, ~Await]_opt ( FormalParameters[~Yield, ~Await] ) \x7b FunctionBody[~Yield, ~Await] \x7d"),
  ("FunctionBody",
   "FunctionBody[Yield, Await] :\n    FunctionStatementList[?Yield, ?Await]"),
  ("FunctionStatementList",
   "FunctionStatementList[Yield, Await] :\n    StatementList[?Yield, ?Await, +Return]_opt"),
  ("ArrowFunction",
   "ArrowFunction[In, Yield, Await] :\n    ArrowParameters[?Yield, ?Await] [no LineTerminator here] => ConciseBody[?In]"),
  ("ArrowParameters",
   "ArrowParameters[Yield, Await] :\n    BindingIdentifier[?Yield, ?Await]\n    CoverParenthesizedExpressionAndArrowParameterList[?Yield, ?Await]"),
  ("ConciseBody",
   "ConciseBody[In] :\n    [lookahead ≠ \x7b] ExpressionBody[?In, ~Await]\n    \x7b FunctionBody[~Yield, ~Await] \x7d"),
  ("ExpressionBody",
   "ExpressionBody[In, Await] :\n    AssignmentExpression[?In, ~Yield, ?Await]"),
  ("ArrowFormalParameters",
   "ArrowFormalParameters[Yield, Await] :\n    ( UniqueFormalParameters[?Yield, ?Await] )"),
  ("AsyncArrowFunction",
   "AsyncArrowFunction[In, Yield, Await] :\n    async [no LineTerminator here] AsyncArrowBindingIdentifier[?Yield] [no LineTerminator here] => AsyncConciseBody[?In]\n    CoverCallExpressionAndAsyncArrowHead[?Yield, ?Await] [no LineTerminator here] => AsyncConciseBody[?In]"),
  ("AsyncConciseBody",
   "AsyncConciseBody[In] :\n    [lookahead ≠ \x7b] ExpressionBody[?In, +Await]\n    \x7b AsyncFunctionBody \x7d"),
  ("AsyncArrowBindingIdentifier",
   "AsyncArrowBindingIdentifier[Yield] :\n    BindingIdentifier[?Yield, +Await]"),
  ("CoverCallExpressionAndAsyncArrowHead",
   "CoverCallExpressionAndAsyncArrowHead[Yield, Await] :\n    MemberExpression[?Yield, ?Await] Arguments[?Yield, ?Await]"),
  ("AsyncArrowHead",
   "AsyncArrowHead :\n    async [no LineTerminator here] ArrowFormalParameters[~Yield, +Await]"),
  ("MethodDefinition",
   "MethodDefinition[Yield, Await] :\n    ClassElementName[?Yield, ?Await] ( UniqueFormalParameters[~Yield, ~Await] ) \x7b FunctionBody[~Yield, ~Await] \x7d\n    GeneratorMethod[?Yield, ?Await]\n    AsyncMethod[?Yield, ?Await]\n    AsyncGeneratorMethod[?Yield, ?Await]\n    get ClassElementName[?Yield, ?Await] ( ) \x7b FunctionBody[~Yield, ~Await] \x7d\n    set ClassElementName[?Yield, ?Await] ( PropertySetParameterList ) \x7b FunctionBody[~Yield, ~Await] \x7d"),
  ("PropertySetParameterList",
   "PropertySetParameterList :\n    FormalParameter[~Yield, ~Await]"),
  ("GeneratorDeclaration",
   "GeneratorDeclaration[Yield, Await, Default] :\n    function * BindingIdentifier[?Yield, ?Await] ( FormalParameters[+Yield, ~Await] ) \x7b GeneratorBody \x7d\n    [+Default] function * ( FormalParameters[+Yield, ~Await] ) \x7b GeneratorBody \x7d"),
  ("GeneratorExpression",
   "GeneratorExpression :\n    function * BindingIdentifier[+Yield, ~Await]_opt ( FormalParameters[+Yield, ~Await] ) \x7b GeneratorBody \x7d"),
  ("GeneratorMethod",
   "GeneratorMethod[Yield, Await] :\n    * ClassElementName[?Yield, ?Await] ( UniqueFormalParameters[+Yield, ~Await] ) \x7b GeneratorBody \x7d"),
  ("GeneratorBody",
   "GeneratorBody :\n    FunctionBody[+Yield, ~Await]"),
  ("YieldExpression",
   "YieldExpression[In, Await] :\n    yield\n    yield [no LineTerminator here] AssignmentExpression[?In, +Yield, ?Await]\n    yield [no LineTerminator here] * AssignmentExpression[?In, +Yield, ?Await]"),
  ("AsyncGeneratorDeclaration",
   "AsyncGeneratorDeclaration[Yield, Await, Default] :\n    async [no LineTerminator here] function * BindingIdentifier[?Yield, ?Await] ( FormalParameters[+Yield, +Await] ) \x7b AsyncGeneratorBody \x7d\n    [+Default] async [no LineTerminator here] function * ( FormalParameters[+Yield, +Await] ) \x7b AsyncGeneratorBody \x7d"),
  ("AsyncGeneratorExpression",
   "AsyncGeneratorExpression :\n    async [no LineTerminator here] function * BindingIdentifier[+Yield, +Await]_opt ( FormalParameters[+Yield, +Await] ) \x7b AsyncGeneratorBody \x7d"),
  ("AsyncGeneratorMethod",
   "AsyncGeneratorMethod[Yield, Await] :\n    async [no LineTerminator here] * ClassElementName[?Yield, ?Await] ( UniqueFormalParameters[+Yield, +Await] ) \x7b AsyncGeneratorBody \x7d"),
  ("AsyncGeneratorBody",
   "AsyncGeneratorBody :\n    FunctionBody[+Yield, +Await]"),
  ("AsyncFunctionDeclaration",
   "AsyncFunctionDeclaration[Yield, Await, Default] :\n    async [no LineTerminator here] function BindingIdentifier[?Yield, ?Await] ( FormalParameters[~Yield, +Await] ) \x7b AsyncFunctionBody \x7d\n    [+Default] async [no LineTerminator here] function ( FormalParameters[~Yield, +Await] ) \x7b AsyncFunctionBody \x7d"),
  ("AsyncFunctionExpression",
   "AsyncFunctionExpression :\n    async [no LineTerminator here] function BindingIdentifier[~Yield, +Await]_opt ( FormalParameters[~Yield, +Await] ) \x7b AsyncFunctionBody \x7d"),
  ("AsyncMethod",
   "AsyncMethod[Yield, Await] :\n    async [no LineTerminator here] ClassElementName[?Yield, ?Await] ( UniqueFormalParameters[~Yield, +Await] ) \x7b AsyncFunctionBody \x7d"),
  ("AsyncFunctionBody",
   "AsyncFunctionBody :\n    FunctionBody[~Yield, +Await]"),
  ("AwaitExpression",
   "AwaitExpression[Yield] :\n    await UnaryExpression[?Yield, +Await]"),
  ("ClassDeclaration",
   "ClassDeclaration[Yield, Await, Default] :\n    class BindingIdentifier[?Yield, ?Await] ClassTail[?Yield, ?Await]\n    [+Default] class ClassTail[?Yield, ?Await]"),
  ("ClassExpression",
   "ClassExpression[Yield, Await] :\n    class BindingIdentifier[?Yield, ?Await]_opt ClassTail[?Yield, ?Await]"),
  ("ClassTail",
   "ClassTail[Yield, Await] :\n    ClassHeritage[?Yield, ?Await]_opt \x7b ClassBody[?Yield, ?Await]_opt \x7d"),
  ("ClassHeritage",
   "ClassHeritage[Yield, Await] :\n    extends LeftHandSideExpression[?Yield, ?Await]"),
  ("ClassBody",
   "ClassBody[Yield, Await] :\n    ClassElementList[?Yield, ?Await]"),
  ("ClassElementList",
   "ClassElementList[Yield, Await] :\n    ClassElement[?Yield, ?Await]\n    ClassElementList[?Yield, ?Await] ClassElement[?Yield, ?Await]"),
  ("ClassElement",
   "ClassElement[Yield, Await] :\n    MethodDefinition[?Yield, ?Await]\n    static MethodDefinition[?Yield, ?Await]\n    FieldDefinition[?Yield, ?Await] ;\n    static FieldDefinition[?Yield, ?Await] ;\n    ClassStaticBlock\n    ;"),
  ("FieldDefinition",
   "FieldDefinition[Yield, Await] :\n    ClassElementName[?Yield, ?Await] Initializer[+In, ?Yield, ?Await]_opt"),
  ("ClassElementName",
   "ClassElementName[Yield, Await] :\n    PropertyName[?Yield, ?Await]\n    PrivateIdentifier"),
  ("ClassStaticBlock",
   "ClassStaticBlock :\n    static \x7b ClassStaticBlockBody \x7d"),
  ("ClassStaticBlockBody",
   "ClassStaticBlockBody :\n    ClassStaticBlockStatementList"),
  ("ClassStaticBlockStatementList",
   "ClassStaticBlockStatementList :\n    StatementList[~Yield, +Await, ~Return]_opt"),
  ("Script",
   "Script :\n    ScriptBody_opt"),
  ("ScriptBody",
   "ScriptBody :\n    StatementList[~Yield, ~Await, ~Return]"),
  ("Module",
   "Module :\n    ModuleBody_opt"),
  ("ModuleBody",
   "ModuleBody :\n    ModuleItemList"),
  ("ModuleItemList",
   "ModuleItemList :\n    ModuleItem\n    ModuleItemList ModuleItem"),
  ("ModuleItem",
   "ModuleItem :\n    ImportDeclaration\n    ExportDeclaration\n    StatementListItem[~Yield, +Await, ~Return]"),
  ("ModuleExportName",
   "ModuleExportName :\n    IdentifierName\n    StringLiteral"),
  ("ImportDeclaration",
   "ImportDeclaration :\n    import ImportClause FromClause WithClause_opt ;\n    import ModuleSpecifier WithClause_opt ;"),
  ("ImportClause",
   "ImportClause :\n    ImportedDefaultBinding\n    NameSpaceImport\n    NamedImports\n    ImportedDefaultBinding , NameSpaceImport\n    ImportedDefaultBinding , NamedImports"),
  ("ImportedDefaultBinding",
   "ImportedDefaultBinding :\n    ImportedBinding"),
  ("NameSpaceImport",
   "NameSpaceImport :\n    * as ImportedBinding"),
  ("NamedImports",
   "NamedImports :\n    \x7b \x7d\n    \x7b ImportsList \x7d\n    \x7b ImportsList , \x7d"),
  ("FromClause",
   "FromClause :\n    from ModuleSpecifier"),
  ("ImportsList",
   "ImportsList :\n    ImportSpecifier\n    ImportsList , ImportSpecifier"),
  ("ImportSpecifier",
   "ImportSpecifier :\n    ImportedBinding\n    ModuleExportName as ImportedBinding"),
  ("ModuleSpecifier",
   "ModuleSpecifier :\n    StringLiteral"),
  ("ImportedBinding",
   "ImportedBinding :\n    BindingIdentifier[~Yield, +Await]"),
  ("WithClause",
   "WithClause :\n    with \x7b \x7d\n    with \x7b WithEntries ,_opt \x7d"),
  ("WithEntries",
   "WithEntries :\n    AttributeKey : StringLiteral\n    AttributeKey : StringLiteral , WithEntries"),
  ("AttributeKey",
   "AttributeKey :\n    IdentifierName\n    StringLiteral"),
  ("ExportDeclaration",
   "ExportDeclaration :\n    export ExportFromClause FromClause WithClause_opt ;\n    export NamedExports ;\n    export VariableStatement[~Yield, +Await]\n    export Declaration[~Yield, +Await]\n    export default HoistableDeclaration[~Yield, +Await, +Default]\n    export default ClassDeclaration[~Yield, +Await, +Default]\n    export default [lookahead ∉ \x7b function, async [no LineTerminator here] function, class \x7d] AssignmentExpression[+In, ~Yield, +Await] ;"),
  ("ExportFromClause",
   "ExportFromClause :\n    *\n    * as ModuleExportName\n    NamedExports"),
  ("NamedExports",
   "NamedExports :\n    \x7b \x7d\n    \x7b ExportsList \x7d\n    \x7b ExportsList , \x7d"),
  ("ExportsList",
   "ExportsList :\n    ExportSpecifier\n    ExportsList , ExportSpecifier"),
  ("ExportSpecifier",
   "ExportSpecifier :\n    ModuleExportName\n    ModuleExportName as ModuleExportName")]

/-- Name-keyed lookup in an insertion-ordered table with unique keys: the
behavior of Map.get of the rules maps, and of the own-property part of a
bracket lookup on the EBNF_DEFINITIONS object literal. -/
def assocLookup {α : Type} (reg : List (String × α)) (name : String) : Option α :=
  (reg.find? (fun p => p.1 == name)).map Prod.snd

/-- The placeholder built by createRuleDiagram for an unknown name:
Diagram(Comment("No factory defined for " ++ name)). -/
def missingRuleDiagram (name : String) : Construct :=
  Construct.diagram [Construct.comment ("No factory defined for " ++ name)]

/-- getRuleFactory of the ES2025 edition: rules.get(name). -/
def getRuleFactory (name : String) : Option Construct :=
  assocLookup es2025Rules name

/-- createRuleDiagram of the ES2025 edition: look the factory up; if absent
return the placeholder diagram, otherwise invoke the factory. -/
def createRuleDiagram (name : String) : Construct :=
  match assocLookup es2025Rules name with
  | Option.none => missingRuleDiagram name
  | Option.some factory => factory

/-- getDiagramRuleNames of the ES2025 edition: Array.from(rules.keys()). -/
def getDiagramRuleNames : List String := es2025Rules.map Prod.fst

/-- getRuleFactory of the ES5.1 edition. -/
def es51_getRuleFactory (name : String) : Option Construct :=
  assocLookup es51Rules name

/-- createRuleDiagram of the ES5.1 edition. -/
def es51_createRuleDiagram (name : String) : Construct :=
  match assocLookup es51Rules name with
  | Option.none => missingRuleDiagram name
  | Option.some factory => factory

/-- The outcome of a JavaScript bracket lookup on a plain object literal: an
own string-valued property, a member inherited from Object.prototype (a
function value, or the prototype object itself for __proto__ — in either case
neither a string nor undefined), or undefined. -/
inductive JsLookup : Type where
  | ownString : String → JsLookup
  | protoMember : String → JsLookup
  | undef : JsLookup
deriving DecidableEq, Repr

/-- The property names every plain object literal inherits from
Object.prototype. -/
def objectPrototypeKeys : List String :=
  ["constructor", "hasOwnProperty", "isPrototypeOf", "propertyIsEnumerable",
   "toLocaleString", "toString", "valueOf", "__defineGetter__",
   "__defineSetter__", "__lookupGetter__", "__lookupSetter__", "__proto__"]

/-- Bracket lookup obj[name] on a plain object literal whose own entries are
the table's: the own property when present, otherwise the member inherited
from Object.prototype when the name is one of its property names, otherwise
undefined. -/
def objectLookup (own : List (String × String)) (name : String) : JsLookup :=
  match assocLookup own name with
  | Option.some v => JsLookup.ownString v
  | Option.none =>
      if objectPrototypeKeys.contains name then JsLookup.protoMember name
      else JsLookup.undef

/-- getEbnfDefinition of ebnfDefinitions.ts: EBNF_DEFINITIONS[name], a bracket
lookup on a plain object literal, which consults the prototype chain for names
that are not own keys of the table. -/
def getEbnfDefinition (name : String) : JsLookup :=
  objectLookup EBNF_DEFINITIONS name

/-- getEbnfRuleNames of ebnfDefinitions.ts: Object.keys(EBNF_DEFINITIONS). -/
def getEbnfRuleNames : List String := EBNF_DEFINITIONS.map Prod.fst

-- Calling-convention adapter -------------------------------------------------

/-- A thrown JavaScript error: whether it is a TypeError, and its message. -/
structure JsError : Type where
  isTypeError : Bool
  message : String
deriving DecidableEq, Repr

/-- Contiguous-substring test on character lists; models the regex test
/without \x27new\x27/.test(msg), whose pattern is a literal substring. -/
def hasSub (pat : List Char) : List Char → Bool
  | [] => pat.isEmpty
  | c :: cs => pat.isPrefixOf (c :: cs) || hasSub pat cs

/-- The retry condition of callOrNew:
e instanceof TypeError && /without \x27new\x27/.test(e.message). -/
def isWithoutNewError (e : JsError) : Bool :=
  e.isTypeError && hasSub "without \x27new\x27".toList e.message.toList

/-- callOrNew(Ctor, ...args): attempt the plain call Ctor(...args); if it
throws an error matching the known signature, retry exactly once as
new Ctor(...args); any other error is rethrown. A primitive is modeled by its
two invocation behaviors (plain call and construct call), each mapping the
argument tuple to a returned value or a thrown error. -/
def callOrNew {A V : Type} (ctorCall ctorConstruct : A → Except JsError V)
    (args : A) : Except JsError V :=
  match ctorCall args with
  | Except.ok v => Except.ok v
  | Except.error e =>
      if isWithoutNewError e then ctorConstruct args else Except.error e

-- Analysis helpers ------------------------------------------------------------

mutual

/-- Check every Choice node of a tree: its first argument is the literal 0 and
is a valid index into its nonempty list of alternatives. -/
def choicesOk : Construct → Bool
  | Construct.diagram cs => choicesOkL cs
  | Construct.sequence cs => choicesOkL cs
  | Construct.choice i cs => (i == 0) && decide (i < cs.length) && choicesOkL cs
  | Construct.optional c => choicesOk c
  | Construct.oneOrMore c s => choicesOk c && choicesOkO s
  | Construct.zeroOrMore c s => choicesOk c && choicesOkO s
  | Construct.terminal _ => true
  | Construct.nonTerminal _ => true
  | Construct.comment _ => true

/-- choicesOk on an optional separator. -/
def choicesOkO : Option Construct → Bool
  | Option.none => true
  | Option.some c => choicesOk c

/-- choicesOk on a list of children. -/
def choicesOkL : List Construct → Bool
  | [] => true
  | c :: cs => choicesOk c && choicesOkL cs

end

mutual

/-- The names referenced by NonTerminal nodes of a tree, in order. -/
def ntRefs : Construct → List String
  | Construct.diagram cs => ntRefsL cs
  | Construct.sequence cs => ntRefsL cs
  | Construct.choice _ cs => ntRefsL cs
  | Construct.optional c => ntRefs c
  | Construct.oneOrMore c s => ntRefs c ++ ntRefsO s
  | Construct.zeroOrMore c s => ntRefs c ++ ntRefsO s
  | Construct.terminal _ => []
  | Construct.nonTerminal n => [n]
  | Construct.comment _ => []

/-- ntRefs on an optional separator. -/
def ntRefsO : Option Construct → List String
  | Option.none => []
  | Option.some c => ntRefs c

/-- ntRefs on a list of children. -/
def ntRefsL : List Construct → List String
  | [] => []
  | c :: cs => ntRefs c ++ ntRefsL cs

end

mutual

/-- Number of nodes of a tree: a concrete finiteness measure. -/
def constructSize : Construct → Nat
  | Construct.diagram cs => constructSizeL cs + 1
  | Construct.sequence cs => constructSizeL cs + 1
  | Construct.choice _ cs => constructSizeL cs + 1
  | Construct.optional c => constructSize c + 1
  | Construct.oneOrMore c s => constructSize c + constructSizeO s + 1
  | Construct.zeroOrMore c s => constructSize c + constructSizeO s + 1
  | Construct.terminal _ => 1
  | Construct.nonTerminal _ => 1
  | Construct.comment _ => 1

/-- constructSize on an optional separator. -/
def constructSizeO : Option Construct → Nat
  | Option.none => 0
  | Option.some c => constructSize c

/-- constructSize on a list of children. -/
def constructSizeL : List Construct → Nat
  | [] => 0
  | c :: cs => constructSize c + constructSizeL cs

end

/-- Shape test: is c exactly the missing-rule placeholder for name? -/
def isMissingFor (name : String) (c : Construct) : Bool :=
  match c with
  | Construct.diagram [Construct.comment s] => s == "No factory defined for " ++ name
  | _ => false

-- Two-edition world -----------------------------------------------------------

/-- The body of createRuleDiagram as a function of the registry it reads. -/
def resolveIn (reg : List (String × Construct)) (name : String) : Construct :=
  match assocLookup reg name with
  | Option.none => missingRuleDiagram name
  | Option.some factory => factory

/-- A world holding the two editions' registries side by side. -/
structure GrammarWorld : Type where
  es2025 : List (String × Construct)
  es51 : List (String × Construct)

/-- The repository's world: the two registries defined in this file. -/
def repoWorld : GrammarWorld := GrammarWorld.mk es2025Rules es51Rules

/-- ES2025 resolution as a function of a whole world. -/
def es2025ResolveW (w : GrammarWorld) (name : String) : Construct :=
  resolveIn w.es2025 name

/-- ES5.1 resolution as a function of a whole world. -/
def es51ResolveW (w : GrammarWorld) (name : String) : Construct :=
  resolveIn w.es51 name

/-- ES2025 name enumeration as a function of a whole world. -/
def es2025NamesW (w : GrammarWorld) : List String := w.es2025.map Prod.fst

/-- ES5.1 name enumeration as a function of a whole world. -/
def es51NamesW (w : GrammarWorld) : List String := w.es51.map Prod.fst

/-- The concatenation of the five sections' rule lists in SECTION_ORDER order. -/
def sectionRulesConcat : List String :=
  SECTION_RULES SectionId.lexical ++ SECTION_RULES SectionId.expressions ++
  SECTION_RULES SectionId.statements ++ SECTION_RULES SectionId.functions ++
  SECTION_RULES SectionId.modules

-- Theorems --------------------------------------------------------------------

set_option maxRecDepth 200000
set_option maxHeartbeats 2000000

/-- Lookup misses every name that is not among the table's keys. -/
theorem assocLookup_eq_none {α : Type} {reg : List (String × α)} {n : String}
    (h : n ∉ reg.map Prod.fst) : assocLookup reg n = Option.none := by
  induction reg with
  | nil => rfl
  | cons p t ih =>
      rw [List.map_cons, List.mem_cons, not_or] at h
      have hne : (p.1 == n) = false := beq_eq_false_iff_ne.mpr (fun e => h.1 e.symm)
      simp only [assocLookup, List.find?_cons, hne]
      exact ih h.2

/-- Lookup hits every name among the table's keys. -/
theorem assocLookup_isSome_of_mem {α : Type} {reg : List (String × α)} {n : String}
    (h : n ∈ reg.map Prod.fst) : ∃ c, assocLookup reg n = Option.some c := by
  induction reg with
  | nil => cases h
  | cons p t ih =>
      by_cases he : (p.1 == n) = true
      · exact ⟨p.2, by simp only [assocLookup, List.find?_cons, he, Option.map_some']⟩
      · have hm : n ∈ t.map Prod.fst := by
          rw [List.map_cons, List.mem_cons] at h
          rcases h with h1 | h2
          · exact absurd (beq_iff_eq.mpr h1.symm) he
          · exact h2
        rcases ih hm with ⟨c, hc⟩
        refine ⟨c, ?_⟩
        rw [Bool.not_eq_true] at he
        simpa only [assocLookup, List.find?_cons, he] using hc

/-- A successful lookup returns a stored entry for the queried name. -/
theorem assocLookup_mem {α : Type} {reg : List (String × α)} {n : String} {c : α}
    (h : assocLookup reg n = Option.some c) : (n, c) ∈ reg := by
  induction reg with
  | nil => cases h
  | cons p t ih =>
      by_cases he : (p.1 == n) = true
      · simp only [assocLookup, List.find?_cons, he, Option.map_some',
          Option.some.injEq] at h
        have h1 : p.1 = n := beq_iff_eq.mp he
        have : p = (n, c) := by
          cases p
          cases h1
          cases h
          rfl
        rw [← this]
        exact List.mem_cons_self _ _
      · rw [Bool.not_eq_true] at he
        simp only [assocLookup, List.find?_cons, he] at h
        exact List.mem_cons_of_mem _ (ih h)

/-- C1: the set of names returned by getDiagramRuleNames (the keys of the
ES2025 rules map) is identical, under exact string equality, to the set of
names returned by getEbnfRuleNames (the keys of EBNF_DEFINITIONS); for the
current repository content the two enumerations agree element by element. -/
theorem c1_coverage_sets_agree :
    ∀ s : String, s ∈ getDiagramRuleNames ↔ s ∈ getEbnfRuleNames := by
  have h : getDiagramRuleNames = getEbnfRuleNames := by rfl
  intro s
  rw [h]

/-- C2: for every name n that is not a key of the rules map, createRuleDiagram
returns the placeholder Diagram(Comment("No factory defined for " ++ n)) in
both grammar editions, and that annotation text contains n (n is a suffix of
it). Being a total function, the embedded resolver cannot raise. -/
theorem c2_missing_rule_placeholder :
    ∀ n : String,
      (n ∉ getDiagramRuleNames →
        createRuleDiagram n
          = Construct.diagram [Construct.comment ("No factory defined for " ++ n)]) ∧
      (n ∉ es51Rules.map Prod.fst →
        es51_createRuleDiagram n
          = Construct.diagram [Construct.comment ("No factory defined for " ++ n)]) ∧
      List.IsSuffix n.toList ("No factory defined for " ++ n).toList := by
  intro n
  refine ⟨?_, ?_, ⟨"No factory defined for ".toList, ?_⟩⟩
  · intro h
    unfold createRuleDiagram
    rw [assocLookup_eq_none h]
    rfl
  · intro h
    unfold es51_createRuleDiagram
    rw [assocLookup_eq_none h]
    rfl
  · rfl

/-- Witness for C2 at the concrete undefined name ZzzUndefinedRule. -/
theorem c2_missing_rule_placeholder_witness :
    createRuleDiagram "ZzzUndefinedRule"
      = Construct.diagram
          [Construct.comment ("No factory defined for " ++ "ZzzUndefinedRule")] ∧
    es51_createRuleDiagram "ZzzUndefinedRule"
      = Construct.diagram
          [Construct.comment ("No factory defined for " ++ "ZzzUndefinedRule")] :=
  ⟨(c2_missing_rule_placeholder "ZzzUndefinedRule").1 (by decide),
   (c2_missing_rule_placeholder "ZzzUndefinedRule").2.1 (by decide)⟩

/-- C3: callOrNew first attempts the plain call and returns its value when it
succeeds; it retries, exactly once and as a construct call whose outcome
(value or error) is returned unchanged, precisely when the plain call throws an
error matching the without-new signature; any non-matching error propagates
unchanged. -/
theorem c3_callOrNew_retry_semantics :
    ∀ (A V : Type) (ctorCall ctorConstruct : A → Except JsError V) (args : A),
      (∀ v, ctorCall args = Except.ok v →
          callOrNew ctorCall ctorConstruct args = Except.ok v) ∧
      (∀ e, ctorCall args = Except.error e → isWithoutNewError e = true →
          callOrNew ctorCall ctorConstruct args = ctorConstruct args) ∧
      (∀ e, ctorCall args = Except.error e → isWithoutNewError e = false →
          callOrNew ctorCall ctorConstruct args = Except.error e) := by
  intro A V ctorCall ctorConstruct args
  refine ⟨?_, ?_, ?_⟩
  · intro v h
    unfold callOrNew
    rw [h]
  · intro e h hsig
    unfold callOrNew
    rw [h]
    simp [hsig]
  · intro e h hsig
    unfold callOrNew
    rw [h]
    simp [hsig]

/-- Witness for C3: a plain call failing with the known class-constructor
TypeError is retried as a construction and the retry's value is returned,
while an unrelated error propagates unchanged. -/
theorem c3_callOrNew_retry_semantics_witness :
    callOrNew
        (fun _ : Unit =>
          (Except.error
            (JsError.mk true
              "Class constructor Diagram cannot be invoked without \x27new\x27")
            : Except JsError Nat))
        (fun _ => Except.ok 7) () = Except.ok 7 ∧
    callOrNew
        (fun _ : Unit => (Except.error (JsError.mk false "boom") : Except JsError Nat))
        (fun _ => Except.ok 7) () = Except.error (JsError.mk false "boom") :=
  ⟨(c3_callOrNew_retry_semantics Unit Nat _ (fun _ => Except.ok 7) ()).2.1 _ rfl
      (by decide),
   (c3_callOrNew_retry_semantics Unit Nat _ (fun _ => Except.ok 7) ()).2.2 _ rfl
      (by decide)⟩

/-- C4: for every key of the ES2025 rules map, getRuleFactory yields the
registered production and createRuleDiagram returns exactly it (no placeholder,
no failure), and resolution is a function of the registry contents alone:
against equal registry contents, any two calls return structurally equal
trees. -/
theorem c4_resolution_deterministic :
    (∀ n : String, n ∈ getDiagramRuleNames →
        ∃ c, getRuleFactory n = Option.some c ∧ createRuleDiagram n = c) ∧
    (∀ reg reg' : List (String × Construct), reg = reg' →
        ∀ n : String, resolveIn reg n = resolveIn reg' n) := by
  constructor
  · intro n hn
    rcases assocLookup_isSome_of_mem hn with ⟨c, hc⟩
    refine ⟨c, hc, ?_⟩
    unfold createRuleDiagram
    rw [hc]
  · intro reg reg' h n
    rw [h]

/-- Witness for C4 at the concrete defined name Statement. -/
theorem c4_resolution_deterministic_witness :
    ("Statement" ∈ getDiagramRuleNames) ∧
    (∃ c, getRuleFactory "Statement" = Option.some c ∧
        createRuleDiagram "Statement" = c) :=
  ⟨by decide, c4_resolution_deterministic.1 "Statement" (by decide)⟩

/-- C5: resolving a self- or forward-referential rule terminates with a finite
tree because NT only builds a by-name reference node (no registry call): the
resolved ES2025 Statement tree has exactly 16 nodes, while its by-name
references close the cycle Statement → BlockStatement → Block → StatementList
→ StatementListItem → Statement through rules registered after Statement. -/
theorem c5_recursive_rules_terminate :
    (∀ s : String, NT s = Construct.nonTerminal s) ∧
    constructSize (createRuleDiagram "Statement") = 16 ∧
    "BlockStatement" ∈ ntRefs (createRuleDiagram "Statement") ∧
    "Block" ∈ ntRefs (createRuleDiagram "BlockStatement") ∧
    "StatementList" ∈ ntRefs (createRuleDiagram "Block") ∧
    "StatementListItem" ∈ ntRefs (createRuleDiagram "StatementList") ∧
    "Statement" ∈ ntRefs (createRuleDiagram "StatementListItem") :=
  ⟨fun _ => rfl, by rfl, by decide, by decide, by decide, by decide, by decide⟩

/-- C6: every rule name listed in SECTION_RULES under any section of
SECTION_ORDER is a key of the ES2025 rules map, and every key of that map
appears in the rule list of exactly one section. -/
theorem c6_sections_partition_rules :
    (∀ s : SectionId, s ∈ SECTION_ORDER →
        ∀ n : String, n ∈ SECTION_RULES s → n ∈ getDiagramRuleNames) ∧
    (∀ n : String, n ∈ getDiagramRuleNames →
        SECTION_ORDER.countP (fun s => decide (n ∈ SECTION_RULES s)) = 1) := by
  have hconcat : sectionRulesConcat = getDiagramRuleNames := by rfl
  have hnd : getDiagramRuleNames.Nodup := by decide
  constructor
  · intro s _ n hn
    rw [← hconcat]
    unfold sectionRulesConcat
    cases s <;> simp only [List.mem_append] <;> tauto
  · intro n hn
    have h1 := List.count_eq_one_of_mem hnd hn
    rw [← hconcat] at h1
    unfold sectionRulesConcat at h1
    simp only [List.count_append] at h1
    have d : ∀ l : List String,
        l.count n = 0 ∧ ¬(n ∈ l) ∨ 0 < l.count n ∧ n ∈ l := by
      intro l
      rcases Nat.eq_zero_or_pos (l.count n) with h | h
      · exact Or.inl ⟨h, fun hm => by have := List.count_pos_iff.mpr hm; omega⟩
      · exact Or.inr ⟨h, List.count_pos_iff.mp h⟩
    rcases d (SECTION_RULES SectionId.lexical) with ⟨z1, m1⟩ | ⟨z1, m1⟩ <;>
      rcases d (SECTION_RULES SectionId.expressions) with ⟨z2, m2⟩ | ⟨z2, m2⟩ <;>
      rcases d (SECTION_RULES SectionId.statements) with ⟨z3, m3⟩ | ⟨z3, m3⟩ <;>
      rcases d (SECTION_RULES SectionId.functions) with ⟨z4, m4⟩ | ⟨z4, m4⟩ <;>
      rcases d (SECTION_RULES SectionId.modules) with ⟨z5, m5⟩ | ⟨z5, m5⟩ <;>
      simp [SECTION_ORDER, List.countP_cons, List.countP_nil, m1, m2, m3, m4, m5] <;>
      omega

/-- Witness for C6 at the concrete section lexical and name WhiteSpace. -/
theorem c6_sections_partition_rules_witness :
    ("WhiteSpace" ∈ getDiagramRuleNames) ∧
    SECTION_ORDER.countP (fun s => decide ("WhiteSpace" ∈ SECTION_RULES s)) = 1 :=
  ⟨c6_sections_partition_rules.1 SectionId.lexical (by decide) "WhiteSpace" (by decide),
   c6_sections_partition_rules.2 "WhiteSpace" (by decide)⟩

/-- C7: in the tree resolved from any defined rule of either edition, every
Choice node carries defaultIndex 0 together with a nonempty alternative list,
so its defaultIndex is a valid index into its alternatives. -/
theorem c7_choice_default_index_valid :
    ∀ n : String,
      (n ∈ getDiagramRuleNames → choicesOk (createRuleDiagram n) = true) ∧
      (n ∈ es51Rules.map Prod.fst → choicesOk (es51_createRuleDiagram n) = true) := by
  have h2025 : es2025Rules.all (fun p => choicesOk p.2) = true := by rfl
  have h51 : es51Rules.all (fun p => choicesOk p.2) = true := by rfl
  intro n
  constructor
  · intro hn
    rcases assocLookup_isSome_of_mem hn with ⟨c, hc⟩
    have hm := assocLookup_mem hc
    have hok := List.all_eq_true.mp h2025 _ hm
    unfold createRuleDiagram
    rw [hc]
    exact hok
  · intro hn
    rcases assocLookup_isSome_of_mem hn with ⟨c, hc⟩
    have hm := assocLookup_mem hc
    have hok := List.all_eq_true.mp h51 _ hm
    unfold es51_createRuleDiagram
    rw [hc]
    exact hok

/-- Witness for C7 at the concrete name IfStatement in both editions. -/
theorem c7_choice_default_index_valid_witness :
    choicesOk (createRuleDiagram "IfStatement") = true ∧
    choicesOk (es51_createRuleDiagram "IfStatement") = true :=
  ⟨(c7_choice_default_index_valid "IfStatement").1 (by decide),
   (c7_choice_default_index_valid "IfStatement").2 (by decide)⟩

/-- C8: the two grammar editions are isolated: each edition's resolver and
name enumeration depend only on that edition's own registry component of the
world (two worlds agreeing on one edition's map agree on that edition's
observable behavior, regardless of the other edition's map), the repository's
createRuleDiagram functions are exactly these projections at the repository
world, and the two editions' registries are distinct maps. -/
theorem c8_edition_isolation :
    (∀ w w' : GrammarWorld, w.es2025 = w'.es2025 →
        (∀ n, es2025ResolveW w n = es2025ResolveW w' n) ∧
        es2025NamesW w = es2025NamesW w') ∧
    (∀ w w' : GrammarWorld, w.es51 = w'.es51 →
        (∀ n, es51ResolveW w n = es51ResolveW w' n) ∧
        es51NamesW w = es51NamesW w') ∧
    (∀ n, createRuleDiagram n = es2025ResolveW repoWorld n) ∧
    (∀ n, es51_createRuleDiagram n = es51ResolveW repoWorld n) ∧
    es2025NamesW repoWorld ≠ es51NamesW repoWorld := by
  have h261 : (es2025NamesW repoWorld).length = 261 := by rfl
  have h144 : (es51NamesW repoWorld).length = 144 := by rfl
  refine ⟨?_, ?_, fun n => rfl, fun n => rfl, ?_⟩
  · intro w w' h
    exact ⟨fun n => by unfold es2025ResolveW; rw [h],
      by unfold es2025NamesW; rw [h]⟩
  · intro w w' h
    exact ⟨fun n => by unfold es51ResolveW; rw [h],
      by unfold es51NamesW; rw [h]⟩
  · intro h
    rw [h, h144] at h261
    exact absurd h261 (by decide)

/-- Witness for C8: replacing the ES5.1 registry by the empty one leaves the
ES2025 resolver and enumeration unchanged. -/
theorem c8_edition_isolation_witness :
    (es2025ResolveW repoWorld "Statement"
      = es2025ResolveW (GrammarWorld.mk es2025Rules []) "Statement") ∧
    es2025NamesW repoWorld = es2025NamesW (GrammarWorld.mk es2025Rules []) :=
  ⟨(c8_edition_isolation.1 repoWorld (GrammarWorld.mk es2025Rules []) rfl).1
      "Statement",
   (c8_edition_isolation.1 repoWorld (GrammarWorld.mk es2025Rules []) rfl).2⟩

/-- C9: whenever getRuleFactory returns a factory, createRuleDiagram returns
exactly the tree that factory builds; and getRuleFactory is undefined exactly
for the names on which createRuleDiagram returns the no-factory placeholder. -/
theorem c9_factory_diagram_agreement :
    ∀ n : String,
      (∀ c, getRuleFactory n = Option.some c → createRuleDiagram n = c) ∧
      (getRuleFactory n = Option.none ↔
        createRuleDiagram n = missingRuleDiagram n) := by
  have hnm : es2025Rules.all (fun p => !(isMissingFor p.1 p.2)) = true := by rfl
  intro n
  constructor
  · intro c hc
    unfold getRuleFactory at hc
    unfold createRuleDiagram
    rw [hc]
  · constructor
    · intro h
      unfold getRuleFactory at h
      unfold createRuleDiagram
      rw [h]
    · intro h
      rcases hopt : getRuleFactory n with _ | c
      · rfl
      · exfalso
        unfold getRuleFactory at hopt
        have hmem := assocLookup_mem hopt
        have hcd : createRuleDiagram n = c := by
          unfold createRuleDiagram
          rw [hopt]
        rw [hcd] at h
        have hne := List.all_eq_true.mp hnm _ hmem
        rw [h] at hne
        simp [isMissingFor, missingRuleDiagram] at hne

/-- Witness for C9 at the defined name WhiteSpace and the undefined name
ZzzUndefinedRule. -/
theorem c9_factory_diagram_agreement_witness :
    createRuleDiagram "WhiteSpace" = es2025_WhiteSpace ∧
    createRuleDiagram "ZzzUndefinedRule" = missingRuleDiagram "ZzzUndefinedRule" :=
  ⟨(c9_factory_diagram_agreement "WhiteSpace").1 es2025_WhiteSpace (by rfl),
   (c9_factory_diagram_agreement "ZzzUndefinedRule").2.mp (by rfl)⟩

/-- C10: refuted as stated, exhibiting the divergence the code has from its
own documentation: every stored EBNF text does begin with its own rule name,
but the bracket lookup EBNF_DEFINITIONS[name] consults the prototype chain, so
at the off-table name toString it returns the inherited Object.prototype
member toString instead of the undefined promised by the claim and by the
source's doc comment (Returns undefined if not found). -/
theorem c10_ebnf_proto_chain_leak :
    ("toString" ∉ getEbnfRuleNames) ∧
    getEbnfDefinition "toString" = JsLookup.protoMember "toString" ∧
    getEbnfDefinition "toString" ≠ JsLookup.undef ∧
    (∀ n t, getEbnfDefinition n = JsLookup.ownString t →
        List.IsPrefix n.toList t.toList) := by
  have hall : EBNF_DEFINITIONS.all (fun p => p.1.toList.isPrefixOf p.2.toList)
      = true := by rfl
  refine ⟨by decide, by rfl, by decide, ?_⟩
  intro n t h
  unfold getEbnfDefinition objectLookup at h
  rcases hopt : assocLookup EBNF_DEFINITIONS n with _ | v
  · simp only [hopt] at h
    split at h <;> simp at h
  · simp only [hopt, JsLookup.ownString.injEq] at h
    subst h
    have hmem := assocLookup_mem hopt
    have hb := List.all_eq_true.mp hall _ hmem
    exact List.isPrefixOf_iff_prefix.mp hb

/-- Witness for C10's prefix conjunct at the stored name SourceCharacter. -/
theorem c10_ebnf_proto_chain_leak_witness :
    List.IsPrefix "SourceCharacter".toList
      "SourceCharacter ::\n    any Unicode code point".toList :=
  c10_ebnf_proto_chain_leak.2.2.2 "SourceCharacter" _ (by rfl)

end SyntaxDiagrams
